import Mathlib

/-!
# Validity fingerprint sensor transport driver (drivers/fingerprint/vfs9xxx.c)

A shallow embedding of the control core of the driver: the buffered
synchronous transfers, the DRDY interrupt bookkeeping, the notification
registry, the bus speed selection, the power and pin sequencing and the ioctl
dispatcher.  Every C function is a Lean function on an explicit system state
`Sys`; calls into the rest of the kernel append an `Event` to the state's
trace, and whatever the kernel or the hardware answers is an explicit
argument of the function that asks.  Logging calls (pr_info, pr_err,
pr_debug) have no effect on the state and are left out.  A C run that
dereferences a NULL pointer (a transfer on a device without scratch buffers)
has no counterpart here: the theorems about transfers assume an open session,
in which open has allocated both buffers.
-/

namespace Vfs9xxx

/-! ## Constants -/

/-- The macros of vfs9xxx.h and of the kernel configuration that the driver
uses; the header is not part of the sources, so their values are parameters. -/
structure Consts where
  DEFAULT_BUFFER_SIZE : Nat
  DRDY_ACTIVE_STATUS : Int
  DRDY_IRQ_ENABLE : Int
  DRDY_IRQ_DISABLE : Int
  MAX_BAUD_RATE : Nat
  SLOW_BAUD_RATE : Nat
  BAUD_RATE_COEF : Nat
  FP_LDO_POWER_ON : Int
  FP_LDO_POWER_OFF : Int
  HZ : Nat
  SENSOR_UNKNOWN : Int
  SENSOR_STATUS_SIZE : Int
  DVFS_FINGER_ID : Int
  VFSSPI_IOCTL_MAGIC : Nat
  VFSSPI_IOCTL_DEVICE_RESET : Nat
  VFSSPI_IOCTL_DEVICE_SUSPEND : Nat
  VFSSPI_IOCTL_RW_SPI_MESSAGE : Nat
  VFSSPI_IOCTL_SET_CLK : Nat
  VFSSPI_IOCTL_REGISTER_DRDY_SIGNAL : Nat
  VFSSPI_IOCTL_SET_DRDY_INT : Nat
  VFSSPI_IOCTL_POWER_ON : Nat
  VFSSPI_IOCTL_POWER_OFF : Nat
  VFSSPI_IOCTL_POWER_CONTROL : Nat
  VFSSPI_IOCTL_DISABLE_SPI_CLOCK : Nat
  VFSSPI_IOCTL_SET_SPI_CONFIGURATION : Nat
  VFSSPI_IOCTL_RESET_SPI_CONFIGURATION : Nat
  VFSSPI_IOCTL_CPU_SPEEDUP : Nat
  VFSSPI_IOCTL_SET_SENSOR_TYPE : Nat
  VFSSPI_IOCTL_SET_LOCKSCREEN : Nat
  VFSSPI_IOCTL_GET_SENSOR_ORIENT : Nat
deriving DecidableEq, Repr

/-- Linux errno values (include/uapi/asm-generic/errno-base.h, errno.h). -/
def ENXIO : Int := 6
def ENOMEM : Int := 12
def EFAULT : Int := 14
def EBUSY : Int := 16
def ENODEV : Int := 19
def EINVAL : Int := 22
def ENOTTY : Int := 25
def EMSGSIZE : Int := 90

/-- The value of IRQ_HANDLED in enum irqreturn. -/
def IRQ_HANDLED : Int := 1

/-! ## Data model -/

/-- The named pin-multiplexer states of the sensor lines. -/
inductive PinState where
  | dflt
  | idle
  | sleep
deriving DecidableEq, Repr

/-- The locks the driver takes. -/
inductive Lock where
  | buffer_mutex
  | kernel_lock
  | device_list_mutex
  | irq_lock
  | vfs_spi_lock
  | rcu
deriving DecidableEq, Repr

/-- One call from the driver into the kernel or the hardware. -/
inductive Event where
  | lock (l : Lock)
  | unlock (l : Lock)
  | copy_from_user (missing : Nat)
  | copy_to_user (missing : Nat)
  | spi_sync (tx : List Nat) (len : Nat) (speed_hz : Nat)
  | send_sig_info (sig : Int) (task : Nat)
  | enable_irq
  | disable_irq_nosync
  | disable_irq
  | pinctrl_select_state (st : PinState)
  | wake_lock_timeout (ticks : Nat)
  | gpio_set_value (pin : Nat) (value : Int)
  | regulator_enable
  | regulator_disable
  | usleep_range (lo : Nat) (hi : Nat)
  | wake_lock
  | wake_unlock
  | kmalloc
  | kfree
  | set_freq_limit (id : Int) (value : Int)
deriving DecidableEq, Repr

/-- What pinctrl_lookup_state returned: an error pointer or a pin-mux state. -/
inductive pin_ptr where
  | err (code : Int)
  | ok (st : PinState)
deriving DecidableEq, Repr

/-- The part of struct spi_device the driver writes. -/
structure spi_device where
  max_speed_hz : Nat
deriving DecidableEq, Repr

/-- The fields of struct vfsspi_device_data the control core reads or writes.
A pointer field is an Option (none is NULL); a scratch buffer is the list of
its bytes; pins_idle and pins_sleep are what pinctrl_lookup_state returned
(an error pointer or a state); p_state is the field p->state of the
pin-control handle, the currently selected pin-mux state. -/
structure vfsspi_device_data where
  current_spi_speed : Nat
  is_opened : Int
  buffer : Option (List Nat)
  null_buffer : Option (List Nat)
  spi : Option spi_device
  user_pid : Int
  signal_id : Int
  t : Option Nat
  irq_enabled : Int
  drdy_pin : Nat
  sleep_pin : Nat
  ldo_pin : Nat
  regulator_3p3 : Bool
  ldo_onoff : Int
  pins_idle : pin_ptr
  pins_sleep : pin_ptr
  p_state : Option PinState
  enabled_clk : Bool := false
  min_cpufreq_limit : Nat := 0
  orient : Nat := 0
  sensortype : Int := 0
deriving DecidableEq, Repr

/-- The system state: the device, the file-scope counter cnt_irq (its
declaration is in the absent header; the model counts in the integers, without
overflow), the mask depth the interrupt core keeps for the line gpio_irq (the
line is masked exactly when the depth is positive), the trace of calls made so
far, the levels last driven on the output lines (latest first; a line never
driven reads 0), and the file-scope flag fp_lockscreen_mode. -/
structure Sys where
  dev : vfsspi_device_data
  cnt_irq : Int
  irq_depth : Nat
  trace : List Event
  gpio_out : List (Nat × Int) := []
  fp_lockscreen_mode : Bool := false
deriving DecidableEq, Repr

/-- Append one call to the trace. -/
def emit (e : Event) (s : Sys) : Sys :=
  { s with trace := s.trace ++ [e] }

/-! ## Transfer engine -/

/-- What one bus transaction answers: the status of spi_sync, the message's
actual_length, and the bytes clocked in. -/
structure spi_result where
  status : Int
  actual_length : Nat
  rx : List Nat
deriving DecidableEq, Repr

/-- The bus peer: the outbound payload and the speed of a transaction
determine its answer. -/
abbrev Bus := List Nat → Nat → spi_result

/-- A loopback bus: every transaction succeeds and returns its outbound
payload as the inbound data. -/
def loopback : Bus :=
  fun tx _ => { status := 0, actual_length := tx.length, rx := tx }

/-- Store the bytes src at the start of the buffer dst (memcpy, memset and
DMA into a scratch buffer). -/
def store (dst : List Nat) (src : List Nat) : List Nat :=
  src ++ dst.drop src.length

/-- The first len bytes of a scratch buffer: the outbound payload of a
transfer, or the source of a copy to the caller. A NULL transmit buffer sends
zeros. -/
def buf_bytes (tx_buf : Option (List Nat)) (len : Nat) : List Nat :=
  match tx_buf with
  | some b => b.take len
  | none => List.replicate len 0

/-- The receive buffer after a transfer of len bytes; a NULL receive buffer
discards the data. -/
def rx_store (rx_buf : Option (List Nat)) (rx : List Nat) (len : Nat) : Option (List Nat) :=
  rx_buf.map (fun b => store b (rx.take len))

/-- Modelled from the spec: copy_from_user is kernel code outside the
sources, and the spec says only that a copy may succeed in part. It returns
the number of bytes it could not copy; the destination receives the bytes
copied and, as the kernel pads a short copy, zeros for the rest. -/
def copy_from_user (dst : List Nat) (user : List Nat) (n : Nat) (missing : Nat) : List Nat :=
  store dst (user.take (n - missing) ++ List.replicate (min missing n) 0)

/-- Modelled from the spec: copy_to_user is kernel code outside the sources.
The caller receives the first n - missing bytes of the source. -/
def copy_to_user (src : List Nat) (n : Nat) (missing : Nat) : List Nat :=
  (src.take n).take (n - missing)

/-- The function vfsspi_write_sync: one transaction with the primary buffer
outbound and the secondary buffer inbound, at the current speed. -/
def vfsspi_write_sync (bus : Bus) (len : Nat) (s : Sys) : Int × Sys :=
  let tx := buf_bytes s.dev.buffer len
  let r := bus tx s.dev.current_spi_speed
  let s1 := emit (Event.spi_sync tx len s.dev.current_spi_speed)
    { s with dev := { s.dev with null_buffer := rx_store s.dev.null_buffer r.rx len } }
  (if r.status = 0 then (r.actual_length : Int) else r.status, s1)

/-- The function vfsspi_read_sync: the secondary buffer is zeroed and sent,
the primary buffer receives. -/
def vfsspi_read_sync (bus : Bus) (len : Nat) (s : Sys) : Int × Sys :=
  let nb := Option.map (fun b => store b (List.replicate len 0)) s.dev.null_buffer
  let tx := buf_bytes nb len
  let r := bus tx s.dev.current_spi_speed
  let s1 := emit (Event.spi_sync tx len s.dev.current_spi_speed)
    { s with dev := { s.dev with null_buffer := nb, buffer := rx_store s.dev.buffer r.rx len } }
  (if r.status = 0 then (len : Int) else r.status, s1)

/-- The function vfsspi_write. secure is ENABLE_SENSORS_FPRINT_SECURE;
user_buf is the caller's memory at buf and missing what copy_from_user
returns. -/
def vfsspi_write (k : Consts) (secure : Bool) (bus : Bus) (user_buf : List Nat)
    (missing : Nat) (count : Nat) (s : Sys) : Int × Sys :=
  if secure then (0, s)
  else if count > k.DEFAULT_BUFFER_SIZE ∨ count = 0 then (-EMSGSIZE, s)
  else
    let s1 := emit (Event.lock Lock.buffer_mutex) s
    let r : Int × Sys :=
      match s1.dev.buffer with
      | some b =>
        let s2 := emit (Event.copy_from_user missing)
          { s1 with dev := { s1.dev with buffer := some (copy_from_user b user_buf count missing) } }
        if missing = 0 then vfsspi_write_sync bus count s2 else (-EFAULT, s2)
      | none => (0, s1)
    (r.1, emit (Event.unlock Lock.buffer_mutex) r.2)

/-- What vfsspi_read leaves behind: its return value, the bytes stored in the
caller's buffer, and the system state. -/
structure read_result where
  status : Int
  user : List Nat
  sys : Sys
deriving DecidableEq, Repr

/-- The function vfsspi_read. buf_null says whether the caller's pointer is
NULL and missing is what copy_to_user returns. -/
def vfsspi_read (k : Consts) (secure : Bool) (bus : Bus) (buf_null : Bool)
    (missing : Nat) (count : Nat) (s : Sys) : read_result :=
  if secure then { status := 0, user := [], sys := s }
  else if count > k.DEFAULT_BUFFER_SIZE ∨ count = 0 then
    { status := -EMSGSIZE, user := [], sys := s }
  else if buf_null then { status := -EFAULT, user := [], sys := s }
  else
    let s1 := emit (Event.lock Lock.buffer_mutex) s
    let r := vfsspi_read_sync bus count s1
    if r.1 > 0 then
      let n := r.1.toNat
      let out := copy_to_user (buf_bytes r.2.dev.buffer n) n missing
      let s2 := emit (Event.copy_to_user missing) r.2
      { status := if (missing : Int) = r.1 then -EFAULT else r.1 - missing,
        user := out,
        sys := emit (Event.unlock Lock.buffer_mutex) s2 }
    else
      { status := r.1, user := [], sys := emit (Event.unlock Lock.buffer_mutex) r.2 }

/-- The request of the bidirectional transfer, struct vfsspi_ioctl_transfer:
the two caller pointers (none is NULL) and the length. -/
structure vfsspi_ioctl_transfer where
  rx_buffer : Option Nat
  tx_buffer : Option Nat
  len : Nat
deriving DecidableEq, Repr

/-- What vfsspi_xfer leaves behind: its return value, the request, the bytes
stored at the caller's inbound pointer, and the system state. -/
structure xfer_result where
  status : Int
  tr : Option vfsspi_ioctl_transfer
  user : List Nat
  sys : Sys
deriving DecidableEq, Repr

/-- The function vfsspi_xfer (compiled only without
ENABLE_SENSORS_FPRINT_SECURE). dev_null says whether the device pointer is
NULL, user_tx is the caller's memory at tx_buffer, missing_in and missing_out
are what copy_from_user and copy_to_user return. -/
def vfsspi_xfer (k : Consts) (bus : Bus) (user_tx : List Nat) (missing_in : Nat)
    (missing_out : Nat) (dev_null : Bool) (tr : Option vfsspi_ioctl_transfer)
    (s : Sys) : xfer_result :=
  match tr with
  | none => { status := -EFAULT, tr := none, user := [], sys := s }
  | some q =>
    if dev_null then { status := -EFAULT, tr := some q, user := [], sys := s }
    else if q.len > k.DEFAULT_BUFFER_SIZE ∨ q.len = 0 then
      { status := -EMSGSIZE, tr := some q, user := [], sys := s }
    else
      let nb := Option.map (fun b => copy_from_user b user_tx q.len missing_in) s.dev.null_buffer
      let s1 : Sys :=
        match q.tx_buffer with
        | some _ => emit (Event.copy_from_user missing_in)
            { s with dev := { s.dev with null_buffer := nb } }
        | none => s
      if q.tx_buffer.isSome ∧ missing_in ≠ 0 then
        { status := -EFAULT, tr := some q, user := [], sys := s1 }
      else
        let tx := buf_bytes s1.dev.null_buffer q.len
        let r := bus tx s1.dev.current_spi_speed
        let s2 := emit (Event.spi_sync tx q.len s1.dev.current_spi_speed)
          { s1 with dev := { s1.dev with buffer := rx_store s1.dev.buffer r.rx q.len } }
        if r.status = 0 then
          match q.rx_buffer with
          | some _ =>
            { status := r.status,
              tr := some (if missing_out ≠ 0 then { q with len := q.len - missing_out } else q),
              user := copy_to_user (buf_bytes s2.dev.buffer q.len) q.len missing_out,
              sys := emit (Event.copy_to_user missing_out) s2 }
          | none => { status := r.status, tr := some q, user := [], sys := s2 }
        else { status := r.status, tr := some q, user := [], sys := s2 }

/-- The outbound payload of the transaction vfsspi_xfer issues for a request
that passed the length check and the copy-in: the first len bytes of the
secondary buffer, after the caller's bytes were copied into it when tx_buffer
is not NULL. -/
def xfer_outbound (user_tx : List Nat) (missing_in : Nat) (q : vfsspi_ioctl_transfer)
    (s : Sys) : List Nat :=
  match q.tx_buffer with
  | some _ =>
    buf_bytes (Option.map (fun b => copy_from_user b user_tx q.len missing_in)
      s.dev.null_buffer) q.len
  | none => buf_bytes s.dev.null_buffer q.len

/-! ## Notification registry -/

/-- The function vfsspi_send_drdy_signal. sig_ret is what send_sig_info
returns (0, or a negative error code when the delivery fails). -/
def vfsspi_send_drdy_signal (sig_ret : Int) (s : Sys) : Int × Sys :=
  match s.dev.t with
  | some task => (sig_ret, emit (Event.send_sig_info s.dev.signal_id task) s)
  | none => (0, s)

/-- The request of the registration command, struct
vfsspi_ioctl_register_signal. -/
structure vfsspi_ioctl_register_signal where
  user_pid : Int
  signal_id : Int
deriving DecidableEq, Repr

/-- The function vfsspi_register_drdy_signal. missing is what copy_from_user
returns, usr_signal what it copied in, and procs the process table at the time
of the call (pid_task of find_pid_ns: the task of a live process id, none for
an id no live process has). -/
def vfsspi_register_drdy_signal (procs : Int → Option Nat) (missing : Nat)
    (usr_signal : vfsspi_ioctl_register_signal) (s : Sys) : Int × Sys :=
  let s0 := emit (Event.copy_from_user missing) s
  if missing = 0 then
    let s1 := { s0 with dev := { s0.dev with user_pid := usr_signal.user_pid } }
    let s2 := { s1 with dev := { s1.dev with signal_id := usr_signal.signal_id } }
    let s3 := emit (Event.lock Lock.rcu) s2
    let s4 := { s3 with dev := { s3.dev with t := procs s3.dev.user_pid } }
    if s4.dev.t = none then (-ENODEV, emit (Event.unlock Lock.rcu) s4)
    else (0, emit (Event.unlock Lock.rcu) s4)
  else (-EFAULT, s0)

/-- The number of signals sent in a trace. -/
def signals_sent (tr : List Event) : Nat :=
  tr.countP (fun e => match e with
    | Event.send_sig_info _ _ => true
    | _ => false)

/-! ## DRDY interrupt controller -/

/-- Modelled from the spec: pinctrl_select_state is kernel code outside the
sources. A selection that succeeds (status 0) makes the requested state the
selected one; a failed selection leaves the selected state as it was. -/
def pinctrl_select_state (status : Int) (st : PinState) (s : Sys) : Sys :=
  let s1 := emit (Event.pinctrl_select_state st) s
  if status = 0 then { s1 with dev := { s1.dev with p_state := some st } } else s1

/-- The function vfsspi_pin_control. pin_status is what pinctrl_select_state
returns; the match on the looked-up state is the IS_ERR guard. -/
def vfsspi_pin_control (pin_status : Int) (pin_set : Bool) (s : Sys) : Sys :=
  let s0 := { s with dev := { s.dev with p_state := none } }
  if pin_set then
    match s0.dev.pins_idle with
    | pin_ptr.ok st => pinctrl_select_state pin_status st s0
    | pin_ptr.err _ => s0
  else
    match s0.dev.pins_sleep with
    | pin_ptr.ok st => pinctrl_select_state pin_status st s0
    | pin_ptr.err _ => s0

/-- Modelled from the spec: enable_irq is kernel code outside the sources. It
unmasks the line: the mask depth goes down by one, and an unbalanced call on
an unmasked line leaves it unmasked. -/
def enable_irq (s : Sys) : Sys :=
  emit Event.enable_irq { s with irq_depth := s.irq_depth - 1 }

/-- Modelled from the spec: disable_irq_nosync is kernel code outside the
sources. It masks the line without waiting for a running handler: the mask
depth goes up by one. -/
def disable_irq_nosync (s : Sys) : Sys :=
  emit Event.disable_irq_nosync { s with irq_depth := s.irq_depth + 1 }

/-- The hardware interrupt line is masked. -/
def masked (s : Sys) : Prop := 0 < s.irq_depth

instance (s : Sys) : Decidable (masked s) := by
  unfold masked
  infer_instance

/-- The function vfsspi_enable_irq. -/
def vfsspi_enable_irq (k : Consts) (pin_status : Int) (s : Sys) : Int × Sys :=
  let s1 := emit (Event.lock Lock.irq_lock) s
  if s1.dev.irq_enabled = k.DRDY_IRQ_ENABLE then
    (-EINVAL, emit (Event.unlock Lock.irq_lock) s1)
  else
    let s2 := vfsspi_pin_control pin_status true s1
    let s3 := enable_irq s2
    let s4 := { s3 with dev := { s3.dev with irq_enabled := k.DRDY_IRQ_ENABLE } }
    let s5 := { s4 with cnt_irq := s4.cnt_irq + 1 }
    (0, emit (Event.unlock Lock.irq_lock) s5)

/-- The function vfsspi_disable_irq. -/
def vfsspi_disable_irq (k : Consts) (pin_status : Int) (s : Sys) : Int × Sys :=
  let s1 := emit (Event.lock Lock.irq_lock) s
  if s1.dev.irq_enabled = k.DRDY_IRQ_DISABLE then
    (-EINVAL, emit (Event.unlock Lock.irq_lock) s1)
  else
    let s2 := disable_irq_nosync s1
    let s3 := { s2 with dev := { s2.dev with irq_enabled := k.DRDY_IRQ_DISABLE } }
    let s4 := vfsspi_pin_control pin_status false s3
    let s5 := { s4 with cnt_irq := s4.cnt_irq - 1 }
    (0, emit (Event.unlock Lock.irq_lock) s5)

/-- The interrupt handler vfsspi_irq. drdy_level is what gpio_get_value reads
on the DRDY pin; pin_status and sig_ret are the answers of
pinctrl_select_state and send_sig_info. -/
def vfsspi_irq (k : Consts) (drdy_level : Int) (pin_status : Int) (sig_ret : Int)
    (s : Sys) : Int × Sys :=
  if drdy_level = k.DRDY_ACTIVE_STATUS then
    let s1 := emit (Event.lock Lock.irq_lock) s
    if s1.dev.irq_enabled = k.DRDY_IRQ_ENABLE then
      let s2 := disable_irq_nosync s1
      let s3 := { s2 with dev := { s2.dev with irq_enabled := k.DRDY_IRQ_DISABLE } }
      let s4 := vfsspi_pin_control pin_status false s3
      let s5 := { s4 with cnt_irq := s4.cnt_irq - 1 }
      let s6 := emit (Event.unlock Lock.irq_lock) s5
      let s7 := (vfsspi_send_drdy_signal sig_ret s6).2
      (IRQ_HANDLED, emit (Event.wake_lock_timeout (3 * k.HZ)) s7)
    else (IRQ_HANDLED, emit (Event.unlock Lock.irq_lock) s1)
  else (IRQ_HANDLED, s)

/-- The function vfsspi_set_drdy_int. missing is what copy_from_user returns
and drdy_enable_flag the 16-bit flag it copied in; drdy_level is the level of
the DRDY pin at the re-check. -/
def vfsspi_set_drdy_int (k : Consts) (missing : Nat) (drdy_enable_flag : Nat)
    (pin_status : Int) (drdy_level : Int) (sig_ret : Int) (s : Sys) : Int × Sys :=
  let s0 := emit (Event.copy_from_user missing) s
  if missing ≠ 0 then (-EFAULT, s0)
  else if drdy_enable_flag = 0 then (0, (vfsspi_disable_irq k pin_status s0).2)
  else
    let s1 := (vfsspi_enable_irq k pin_status s0).2
    if drdy_level = k.DRDY_ACTIVE_STATUS then (0, (vfsspi_send_drdy_signal sig_ret s1).2)
    else (0, s1)

/-- The state after a call that finds the interrupt already in the requested
state: the interrupt lock was taken and released, nothing else happened. -/
def lock_only (s : Sys) : Sys :=
  { s with trace := s.trace ++ [Event.lock Lock.irq_lock, Event.unlock Lock.irq_lock] }

/-! ## Bus speed -/

/-- The function vfsspi_set_clk. missing is what copy_from_user returns and
clock the 16-bit selector it copied in. The product clock * BAUD_RATE_COEF is
kept in 32 bits. With ENABLE_SENSORS_FPRINT_SECURE the wake lock fp_spi_lock
is taken on the first call. -/
def vfsspi_set_clk (k : Consts) (secure : Bool) (missing : Nat) (clock : Nat)
    (s : Sys) : Int × Sys :=
  let s0 := emit (Event.copy_from_user missing) s
  if missing ≠ 0 then (-EFAULT, s0)
  else
    let s1 := emit (Event.unlock Lock.vfs_spi_lock) (emit (Event.lock Lock.vfs_spi_lock) s0)
    match s1.dev.spi with
    | some spidev =>
      let scaled := (clock * k.BAUD_RATE_COEF) % 2 ^ 32
      let speed :=
        if clock = 0 then k.MAX_BAUD_RATE
        else if clock = 65535 then k.SLOW_BAUD_RATE
        else if scaled > k.MAX_BAUD_RATE then k.MAX_BAUD_RATE
        else scaled
      let s2 := { s1 with dev := { s1.dev with
                    spi := some { spidev with max_speed_hz := speed },
                    current_spi_speed := speed } }
      if secure ∧ s2.dev.enabled_clk = false then
        let s3 := emit Event.wake_lock s2
        (0, { s3 with dev := { s3.dev with enabled_clk := true } })
      else (0, s2)
    | none => (0, s1)

/-! ## Power and pin sequencer -/

/-- Modelled from the spec: gpio_get_value is kernel code outside the sources.
An output line reads the level last driven on it. -/
def gpio_get_value (pin : Nat) (s : Sys) : Int :=
  (s.gpio_out.lookup pin).getD 0

/-- Modelled from the spec: gpio_set_value is kernel code outside the sources.
It drives the level on the line. -/
def gpio_set_value (pin : Nat) (value : Int) (s : Sys) : Sys :=
  emit (Event.gpio_set_value pin value) { s with gpio_out := (pin, value) :: s.gpio_out }

/-- The call usleep_range: a delay of at least lo microseconds. -/
def usleep_range (lo : Nat) (hi : Nat) (s : Sys) : Sys :=
  emit (Event.usleep_range lo hi) s

/-- The function vfsspi_regulator_onoff. rc is what regulator_enable or
regulator_disable returns. A pin number 0 means the line is absent. -/
def vfsspi_regulator_onoff (rc : Int) (onoff : Bool) (s : Sys) : Sys :=
  if s.dev.ldo_pin ≠ 0 then
    let s1 : Sys :=
      if onoff then
        let a := gpio_set_value s.dev.ldo_pin 1 s
        if a.dev.sleep_pin ≠ 0 then
          gpio_set_value a.dev.sleep_pin 1 (usleep_range 1000 1050 a)
        else a
      else
        let a := if s.dev.sleep_pin ≠ 0 then gpio_set_value s.dev.sleep_pin 0 s else s
        gpio_set_value a.dev.ldo_pin 0 a
    { s1 with dev := { s1.dev with ldo_onoff := if onoff then 1 else 0 } }
  else if s.dev.regulator_3p3 then
    if onoff then
      let a := emit Event.regulator_enable s
      if rc ≠ 0 then a
      else
        let b :=
          if a.dev.sleep_pin ≠ 0 then
            gpio_set_value a.dev.sleep_pin 1 (usleep_range 1000 1050 a)
          else a
        { b with dev := { b.dev with ldo_onoff := 1 } }
    else
      let a := if s.dev.sleep_pin ≠ 0 then gpio_set_value s.dev.sleep_pin 0 s else s
      let b := emit Event.regulator_disable a
      if rc ≠ 0 then b
      else { b with dev := { b.dev with ldo_onoff := 0 } }
  else s

/-- The function vfsspi_hard_reset. dev_null says whether the device pointer
is NULL. -/
def vfsspi_hard_reset (dev_null : Bool) (s : Sys) : Sys :=
  if dev_null then s
  else if s.dev.sleep_pin ≠ 0 then
    let a :=
      if gpio_get_value s.dev.sleep_pin s = 1 then
        usleep_range 5000 5050 (gpio_set_value s.dev.sleep_pin 0 s)
      else s
    usleep_range 10000 10050 (gpio_set_value a.dev.sleep_pin 1 a)
  else s

/-- The function vfsspi_suspend. -/
def vfsspi_suspend (dev_null : Bool) (s : Sys) : Sys :=
  if dev_null then s
  else if s.dev.sleep_pin ≠ 0 then gpio_set_value s.dev.sleep_pin 0 s
  else s

/-- The function vfsspi_power_on. -/
def vfsspi_power_on (k : Consts) (rc : Int) (s : Sys) : Sys :=
  if s.dev.ldo_onoff = k.FP_LDO_POWER_OFF then vfsspi_regulator_onoff rc true s
  else s

/-- The function vfsspi_power_off. -/
def vfsspi_power_off (k : Consts) (rc : Int) (s : Sys) : Sys :=
  if s.dev.ldo_onoff = k.FP_LDO_POWER_ON then vfsspi_regulator_onoff rc false s
  else s

/-- The hardware calls in a trace: the bus transactions, the line levels
driven, the regulator calls and the signals. -/
def hardware_calls (tr : List Event) : List Event :=
  tr.filter (fun e => match e with
    | Event.spi_sync _ _ _ => true
    | Event.gpio_set_value _ _ => true
    | Event.regulator_enable => true
    | Event.regulator_disable => true
    | Event.send_sig_info _ _ => true
    | _ => false)

/-! ## Control surface -/

/-- The function vfsspi_ioctl_disable_spi_clock (compiled only with
ENABLE_SENSORS_FPRINT_SECURE). -/
def vfsspi_ioctl_disable_spi_clock (s : Sys) : Int × Sys :=
  if s.dev.enabled_clk then
    let s1 := emit Event.wake_unlock s
    (0, { s1 with dev := { s1.dev with enabled_clk := false } })
  else (0, s)

/-- What the kernel, the caller's memory and the hardware answer during one
call of vfsspi_ioctl: the bus, the process table, the results of the
successive calls of set_freq_limit, whether kmalloc returns NULL, what the
copy-in of the command's argument returns (missing) and what it copied in (the
integer arg, the registration request usr_signal, the transfer descriptor
transfer), the caller's outbound bytes and the results of the two copies
inside vfsspi_xfer, what the copy back to the caller returns (missing_back),
and the answers of pinctrl_select_state, the DRDY line, send_sig_info and the
regulator. -/
structure Answers where
  bus : Bus
  procs : Int → Option Nat
  freq : Nat → Int
  kmalloc_null : Bool
  missing : Nat
  arg : Nat
  usr_signal : vfsspi_ioctl_register_signal
  transfer : vfsspi_ioctl_transfer
  user_tx : List Nat
  xfer_missing_in : Nat
  xfer_missing_out : Nat
  missing_back : Nat
  pin_status : Int
  drdy_level : Int
  sig_ret : Int
  rc : Int

/-- The function vfsspi_rw_spi_message (compiled only without
ENABLE_SENSORS_FPRINT_SECURE). -/
def vfsspi_rw_spi_message (k : Consts) (a : Answers) (s : Sys) : Int × Sys :=
  let s0 := emit Event.kmalloc s
  if a.kmalloc_null then (-ENOMEM, s0)
  else
    let s1 := emit (Event.copy_from_user a.missing) s0
    if a.missing = 0 then
      let x := vfsspi_xfer k a.bus a.user_tx a.xfer_missing_in a.xfer_missing_out false
        (some a.transfer) s1
      if x.status ≠ 0 then (x.status, emit Event.kfree x.sys)
      else
        let s2 := emit (Event.copy_to_user a.missing_back) x.sys
        if a.missing_back ≠ 0 then (-EFAULT, s2)
        else (0, emit Event.kfree s2)
    else (-EFAULT, emit Event.kfree s1)

/-- The retry loop of the command CPU_SPEEDUP with onoff 1: retry_cnt counts
the calls of set_freq_limit made so far, freq gives the result of each call.
The first argument bounds the number of rounds; the loop is entered with 7. -/
def cpu_speedup_retry (k : Consts) (freq : Nat → Int) : Nat → Nat → Sys → Int × Sys
  | 0, _, s => (0, s)
  | fuel + 1, retry_cnt, s =>
    let ret_val := freq retry_cnt
    let s1 := emit (Event.set_freq_limit k.DVFS_FINGER_ID s.dev.min_cpufreq_limit) s
    let cnt := retry_cnt + 1
    let s2 := if ret_val ≠ 0 ∧ cnt < 7 then usleep_range 500 510 s1 else s1
    if ret_val ≠ 0 ∧ cnt < 7 then cpu_speedup_retry k freq fuel cnt s2
    else (ret_val, s2)

/-- The macro _IOC_TYPE of the ioctl encoding: bits 8 to 15 of a command
code. -/
def _IOC_TYPE (cmd : Nat) : Nat :=
  (cmd / 256) % 256

/-- A 32-bit value read as an int. -/
def to_int (v : Nat) : Int :=
  if v % 2 ^ 32 < 2 ^ 31 then ((v % 2 ^ 32 : Nat) : Int) else ((v % 2 ^ 32 : Nat) : Int) - 2 ^ 32

/-- The cases of the switch in vfsspi_ioctl. -/
inductive Cmd where
  | DEVICE_RESET
  | DEVICE_SUSPEND
  | RW_SPI_MESSAGE
  | SET_CLK
  | REGISTER_DRDY_SIGNAL
  | SET_DRDY_INT
  | POWER_ON
  | POWER_OFF
  | POWER_CONTROL
  | DISABLE_SPI_CLOCK
  | SET_SPI_CONFIGURATION
  | RESET_SPI_CONFIGURATION
  | CPU_SPEEDUP
  | SET_SENSOR_TYPE
  | SET_LOCKSCREEN
  | GET_SENSOR_ORIENT
  | unknown
deriving DecidableEq, Repr

/-- The case labels of the switch in vfsspi_ioctl, in source order; secure is
ENABLE_SENSORS_FPRINT_SECURE. -/
def case_labels (k : Consts) (secure : Bool) : List Nat :=
  [k.VFSSPI_IOCTL_DEVICE_RESET, k.VFSSPI_IOCTL_DEVICE_SUSPEND] ++
  (if secure then [] else [k.VFSSPI_IOCTL_RW_SPI_MESSAGE]) ++
  [k.VFSSPI_IOCTL_SET_CLK, k.VFSSPI_IOCTL_REGISTER_DRDY_SIGNAL, k.VFSSPI_IOCTL_SET_DRDY_INT,
   k.VFSSPI_IOCTL_POWER_ON, k.VFSSPI_IOCTL_POWER_OFF, k.VFSSPI_IOCTL_POWER_CONTROL] ++
  (if secure then
    [k.VFSSPI_IOCTL_DISABLE_SPI_CLOCK, k.VFSSPI_IOCTL_SET_SPI_CONFIGURATION,
     k.VFSSPI_IOCTL_RESET_SPI_CONFIGURATION, k.VFSSPI_IOCTL_CPU_SPEEDUP,
     k.VFSSPI_IOCTL_SET_SENSOR_TYPE, k.VFSSPI_IOCTL_SET_LOCKSCREEN]
   else []) ++
  [k.VFSSPI_IOCTL_GET_SENSOR_ORIENT]

/-- The case of the switch a command code selects: the case whose label it
equals (the labels of a switch are distinct, so at most one is), default
otherwise. -/
def decode (k : Consts) (secure : Bool) (cmd : Nat) : Cmd :=
  if cmd = k.VFSSPI_IOCTL_DEVICE_RESET then Cmd.DEVICE_RESET
  else if cmd = k.VFSSPI_IOCTL_DEVICE_SUSPEND then Cmd.DEVICE_SUSPEND
  else if ¬ secure ∧ cmd = k.VFSSPI_IOCTL_RW_SPI_MESSAGE then Cmd.RW_SPI_MESSAGE
  else if cmd = k.VFSSPI_IOCTL_SET_CLK then Cmd.SET_CLK
  else if cmd = k.VFSSPI_IOCTL_REGISTER_DRDY_SIGNAL then Cmd.REGISTER_DRDY_SIGNAL
  else if cmd = k.VFSSPI_IOCTL_SET_DRDY_INT then Cmd.SET_DRDY_INT
  else if cmd = k.VFSSPI_IOCTL_POWER_ON then Cmd.POWER_ON
  else if cmd = k.VFSSPI_IOCTL_POWER_OFF then Cmd.POWER_OFF
  else if cmd = k.VFSSPI_IOCTL_POWER_CONTROL then Cmd.POWER_CONTROL
  else if secure ∧ cmd = k.VFSSPI_IOCTL_DISABLE_SPI_CLOCK then Cmd.DISABLE_SPI_CLOCK
  else if secure ∧ cmd = k.VFSSPI_IOCTL_SET_SPI_CONFIGURATION then Cmd.SET_SPI_CONFIGURATION
  else if secure ∧ cmd = k.VFSSPI_IOCTL_RESET_SPI_CONFIGURATION then Cmd.RESET_SPI_CONFIGURATION
  else if secure ∧ cmd = k.VFSSPI_IOCTL_CPU_SPEEDUP then Cmd.CPU_SPEEDUP
  else if secure ∧ cmd = k.VFSSPI_IOCTL_SET_SENSOR_TYPE then Cmd.SET_SENSOR_TYPE
  else if secure ∧ cmd = k.VFSSPI_IOCTL_SET_LOCKSCREEN then Cmd.SET_LOCKSCREEN
  else if cmd = k.VFSSPI_IOCTL_GET_SENSOR_ORIENT then Cmd.GET_SENSOR_ORIENT
  else Cmd.unknown

/-- The body of one case of the switch in vfsspi_ioctl: the value ret_val ends
with (or the value returned early) and the state before the final
mutex_unlock. -/
def ioctl_case (k : Consts) (secure : Bool) (a : Answers) (c : Cmd) (s : Sys) : Int × Sys :=
  match c with
  | Cmd.DEVICE_RESET => (0, vfsspi_hard_reset false s)
  | Cmd.DEVICE_SUSPEND => (0, vfsspi_suspend false s)
  | Cmd.RW_SPI_MESSAGE => vfsspi_rw_spi_message k a s
  | Cmd.SET_CLK => vfsspi_set_clk k secure a.missing (a.arg % 65536) s
  | Cmd.REGISTER_DRDY_SIGNAL => vfsspi_register_drdy_signal a.procs a.missing a.usr_signal s
  | Cmd.SET_DRDY_INT =>
    vfsspi_set_drdy_int k a.missing (a.arg % 65536) a.pin_status a.drdy_level a.sig_ret s
  | Cmd.POWER_ON => (0, vfsspi_power_on k a.rc s)
  | Cmd.POWER_OFF => (0, vfsspi_power_off k a.rc s)
  | Cmd.POWER_CONTROL =>
    let s0 := emit (Event.copy_from_user a.missing) s
    if a.missing ≠ 0 then (-EFAULT, s0)
    else (0, vfsspi_regulator_onoff a.rc (decide (a.arg % 2 ^ 32 ≠ 0)) s0)
  | Cmd.DISABLE_SPI_CLOCK => vfsspi_ioctl_disable_spi_clock s
  | Cmd.SET_SPI_CONFIGURATION => (0, s)
  | Cmd.RESET_SPI_CONFIGURATION => (0, s)
  | Cmd.CPU_SPEEDUP =>
    let s0 := emit (Event.copy_from_user a.missing) s
    if a.missing ≠ 0 then (-EFAULT, s0)
    else if a.arg % 2 ^ 32 = 1 then
      if s0.dev.min_cpufreq_limit ≠ 0 then cpu_speedup_retry k a.freq 7 0 s0 else (0, s0)
    else if a.arg % 2 ^ 32 = 0 then
      if s0.dev.min_cpufreq_limit ≠ 0 then
        (a.freq 0, emit (Event.set_freq_limit k.DVFS_FINGER_ID (-1)) s0)
      else (0, s0)
    else (0, s0)
  | Cmd.SET_SENSOR_TYPE =>
    let s0 := emit (Event.copy_from_user a.missing) s
    if a.missing ≠ 0 then (-EFAULT, s0)
    else if to_int a.arg ≥ k.SENSOR_UNKNOWN ∧ to_int a.arg < k.SENSOR_STATUS_SIZE - 1 then
      (0, { s0 with dev := { s0.dev with sensortype := to_int a.arg } })
    else (0, { s0 with dev := { s0.dev with sensortype := k.SENSOR_UNKNOWN } })
  | Cmd.SET_LOCKSCREEN =>
    let s0 := emit (Event.copy_from_user a.missing) s
    if a.missing ≠ 0 then (-EFAULT, s0)
    else (0, { s0 with fp_lockscreen_mode := decide (a.arg % 2 ^ 32 ≠ 0) })
  | Cmd.GET_SENSOR_ORIENT =>
    let s0 := emit (Event.copy_to_user a.missing_back) s
    if a.missing_back ≠ 0 then (-EFAULT, s0) else (0, s0)
  | Cmd.unknown => (-EFAULT, s)

/-- The function vfsspi_ioctl. secure is ENABLE_SENSORS_FPRINT_SECURE; the
control lock buffer_mutex is held around the case taken. -/
def vfsspi_ioctl (k : Consts) (secure : Bool) (a : Answers) (cmd : Nat) (s : Sys) : Int × Sys :=
  if _IOC_TYPE cmd ≠ k.VFSSPI_IOCTL_MAGIC then (-ENOTTY, s)
  else
    let s1 := emit (Event.lock Lock.buffer_mutex) s
    let r := ioctl_case k secure a (decode k secure cmd) s1
    (r.1, emit (Event.unlock Lock.buffer_mutex) r.2)

/-! ## Sessions -/

/-- The part of struct file the driver writes: private_data, none when NULL,
set when it points to the device. -/
structure file where
  private_data : Option Unit
deriving DecidableEq, Repr

/-- What vfsspi_open leaves behind: its return value, the caller's file, and
the system state. -/
structure open_result where
  status : Int
  filp : file
  sys : Sys
deriving DecidableEq, Repr

/-- The function vfsspi_open. found says whether the walk over device_list
meets a device whose devt is the inode's i_rdev; alloc_null and alloc_buf are
the blocks the two calls of kmalloc return (none when kmalloc returns NULL;
the bytes of a fresh block are whatever the memory held). On the failure of
the second allocation the first block is freed and the pointer null_buffer
keeps its value. -/
def vfsspi_open (found : Bool) (alloc_null : Option (List Nat))
    (alloc_buf : Option (List Nat)) (filp : file) (s : Sys) : open_result :=
  let s0 := emit (Event.lock Lock.device_list_mutex) s
  if found then
    let s1 := emit (Event.lock Lock.kernel_lock) s0
    let out : Sys → Sys := fun x =>
      emit (Event.unlock Lock.device_list_mutex) (emit (Event.unlock Lock.kernel_lock) x)
    if s1.dev.is_opened ≠ 0 then { status := -EBUSY, filp := filp, sys := out s1 }
    else
      let s2 := { s1 with dev := { s1.dev with user_pid := 0 } }
      if s2.dev.buffer ≠ none then { status := 0, filp := filp, sys := out s2 }
      else
        let s3 := emit Event.kmalloc { s2 with dev := { s2.dev with null_buffer := alloc_null } }
        if s3.dev.null_buffer = none then { status := -ENOMEM, filp := filp, sys := out s3 }
        else
          let s4 := emit Event.kmalloc { s3 with dev := { s3.dev with buffer := alloc_buf } }
          if s4.dev.buffer = none then
            { status := -ENOMEM, filp := filp, sys := out (emit Event.kfree s4) }
          else
            let s5 := { s4 with dev := { s4.dev with is_opened := 1 } }
            { status := 0, filp := { filp with private_data := some () }, sys := out s5 }
  else { status := - ENXIO, filp := filp, sys := emit (Event.unlock Lock.device_list_mutex) s0 }

/-- The function vfsspi_release, on a file whose private_data points to the
device (the file of a session vfsspi_open set up). -/
def vfsspi_release (filp : file) (s : Sys) : open_result :=
  let s0 := emit (Event.lock Lock.device_list_mutex) s
  let s1 := { s0 with dev := { s0.dev with is_opened := 0 } }
  let s2 :=
    if s1.dev.buffer ≠ none then emit Event.kfree { s1 with dev := { s1.dev with buffer := none } }
    else s1
  let s3 :=
    if s2.dev.null_buffer ≠ none then
      emit Event.kfree { s2 with dev := { s2.dev with null_buffer := none } }
    else s2
  { status := 0, filp := { filp with private_data := none },
    sys := emit (Event.unlock Lock.device_list_mutex) s3 }

/-- One call of the session entry points, with the answers it gets. -/
inductive SessionCall where
  | vfsspi_open (found : Bool) (alloc_null : Option (List Nat)) (alloc_buf : Option (List Nat))
      (filp : file)
  | vfsspi_release (filp : file)
deriving DecidableEq, Repr

/-- The system after one session call. -/
def session_step (c : SessionCall) (s : Sys) : Sys :=
  match c with
  | SessionCall.vfsspi_open found alloc_null alloc_buf filp =>
    (vfsspi_open found alloc_null alloc_buf filp s).sys
  | SessionCall.vfsspi_release filp => (vfsspi_release filp s).sys

/-- The system after a sequence of session calls. -/
def session_run (calls : List SessionCall) (s : Sys) : Sys :=
  calls.foldl (fun x c => session_step c x) s

/-! ## Sequences of interrupt operations -/

/-- One invocation of the operations that touch the interrupt bookkeeping,
with the answers it gets. -/
inductive IrqCall where
  | enable_irq (pin_status : Int)
  | disable_irq (pin_status : Int)
  | set_drdy_int (missing : Nat) (drdy_enable_flag : Nat) (pin_status : Int)
      (drdy_level : Int) (sig_ret : Int)
  | irq (drdy_level : Int) (pin_status : Int) (sig_ret : Int)
deriving DecidableEq, Repr

/-- What pinctrl_select_state answers during an invocation. -/
def IrqCall.pin_status : IrqCall → Int
  | IrqCall.enable_irq p => p
  | IrqCall.disable_irq p => p
  | IrqCall.set_drdy_int _ _ p _ _ => p
  | IrqCall.irq _ p _ => p

/-- The system after one invocation. -/
def irq_step (k : Consts) (c : IrqCall) (s : Sys) : Sys :=
  match c with
  | IrqCall.enable_irq p => (vfsspi_enable_irq k p s).2
  | IrqCall.disable_irq p => (vfsspi_disable_irq k p s).2
  | IrqCall.set_drdy_int m f p l r => (vfsspi_set_drdy_int k m f p l r s).2
  | IrqCall.irq l p r => (vfsspi_irq k l p r s).2

/-- The system after a sequence of invocations. -/
def irq_run (k : Consts) (calls : List IrqCall) (s : Sys) : Sys :=
  calls.foldl (fun x c => irq_step k c x) s

/-- The interrupt flag, the mask depth and the counter agree: enabled,
unmasked and counted once, or disabled, masked once and not counted. -/
def balanced (k : Consts) (s : Sys) : Prop :=
  (s.dev.irq_enabled = k.DRDY_IRQ_ENABLE ∧ s.irq_depth = 0 ∧ s.cnt_irq = 1) ∨
  (s.dev.irq_enabled = k.DRDY_IRQ_DISABLE ∧ s.irq_depth = 1 ∧ s.cnt_irq = 0)

/-- Both pin states were found, and the selected one matches the interrupt
flag: idle when enabled, sleep when disabled. -/
def coupled (k : Consts) (s : Sys) : Prop :=
  s.dev.pins_idle = pin_ptr.ok PinState.idle ∧ s.dev.pins_sleep = pin_ptr.ok PinState.sleep ∧
  ((s.dev.irq_enabled = k.DRDY_IRQ_ENABLE ∧ s.dev.p_state = some PinState.idle) ∨
   (s.dev.irq_enabled = k.DRDY_IRQ_DISABLE ∧ s.dev.p_state = some PinState.sleep))

/-- The number of calls of enable_irq in a trace. -/
def unmasks (tr : List Event) : Nat :=
  tr.count Event.enable_irq

/-- The first part of vfsspi_set_drdy_int for a flag that copies in non-zero:
the copy-in and the call of vfsspi_enable_irq. -/
def set_drdy_int_enable_step (k : Consts) (pin_status : Int) (s : Sys) : Sys :=
  (vfsspi_enable_irq k pin_status (emit (Event.copy_from_user 0) s)).2

/-- The second part of vfsspi_set_drdy_int for a non-zero flag: the DRDY line
is read again and, when it is active, the signal is sent. -/
def set_drdy_int_reread (k : Consts) (drdy_level : Int) (sig_ret : Int) (s : Sys) : Sys :=
  if drdy_level = k.DRDY_ACTIVE_STATUS then (vfsspi_send_drdy_signal sig_ret s).2 else s

/-- The system after the interrupt handler ran once for each entry of hs (the
line level, the answer of pinctrl_select_state and the answer of send_sig_info
of that run). -/
def handler_runs (k : Consts) (hs : List (Int × Int × Int)) (s : Sys) : Sys :=
  hs.foldl (fun x h => (vfsspi_irq k h.1 h.2.1 h.2.2 x).2) s

/-! ## Counting calls in a trace -/

/-- The events of the second trace that follow the first one. -/
def added (before : List Event) (after : List Event) : List Event :=
  after.drop before.length

/-- Between the two states only calls were added to the trace, and none of
them takes or releases the control lock buffer_mutex. -/
def quiet (s : Sys) (s' : Sys) : Prop :=
  s.trace <+: s'.trace ∧
  Event.lock Lock.buffer_mutex ∉ added s.trace s'.trace ∧
  Event.unlock Lock.buffer_mutex ∉ added s.trace s'.trace

/-- The number of allocations in a trace. -/
def kmallocs (tr : List Event) : Nat :=
  tr.count Event.kmalloc

/-- The number of releases of allocated memory in a trace. -/
def kfrees (tr : List Event) : Nat :=
  tr.count Event.kfree

/-- The calls of n attempts of the CPU_SPEEDUP retry loop: set_freq_limit n
times, with one sleep between two attempts. -/
def attempt_calls (k : Consts) (limit : Int) : Nat → List Event
  | 0 => []
  | 1 => [Event.set_freq_limit k.DVFS_FINGER_ID limit]
  | n + 2 =>
    Event.set_freq_limit k.DVFS_FINGER_ID limit :: Event.usleep_range 500 510 ::
      attempt_calls k limit (n + 1)

/-! ## Sample inputs -/

/-- Sample values for the constants. -/
def sampleConsts : Consts :=
  { DEFAULT_BUFFER_SIZE := 4, DRDY_ACTIVE_STATUS := 1, DRDY_IRQ_ENABLE := 1,
    DRDY_IRQ_DISABLE := 0, MAX_BAUD_RATE := 9600000, SLOW_BAUD_RATE := 4800000,
    BAUD_RATE_COEF := 1000, FP_LDO_POWER_ON := 1, FP_LDO_POWER_OFF := 0, HZ := 100,
    SENSOR_UNKNOWN := -1, SENSOR_STATUS_SIZE := 6, DVFS_FINGER_ID := 3,
    VFSSPI_IOCTL_MAGIC := 107,
    VFSSPI_IOCTL_RW_SPI_MESSAGE := 27393,
    VFSSPI_IOCTL_DEVICE_RESET := 27394,
    VFSSPI_IOCTL_SET_CLK := 27395,
    VFSSPI_IOCTL_REGISTER_DRDY_SIGNAL := 27397,
    VFSSPI_IOCTL_SET_DRDY_INT := 27400,
    VFSSPI_IOCTL_DEVICE_SUSPEND := 27401,
    VFSSPI_IOCTL_POWER_ON := 27405,
    VFSSPI_IOCTL_POWER_OFF := 27406,
    VFSSPI_IOCTL_DISABLE_SPI_CLOCK := 27407,
    VFSSPI_IOCTL_SET_SPI_CONFIGURATION := 27408,
    VFSSPI_IOCTL_RESET_SPI_CONFIGURATION := 27409,
    VFSSPI_IOCTL_GET_SENSOR_ORIENT := 27410,
    VFSSPI_IOCTL_CPU_SPEEDUP := 27411,
    VFSSPI_IOCTL_SET_SENSOR_TYPE := 27412,
    VFSSPI_IOCTL_SET_LOCKSCREEN := 27413,
    VFSSPI_IOCTL_POWER_CONTROL := 27414 }

/-- A device as probe and open leave it, with the task 7 of process 100
registered for signal 10: interrupt disabled, pins asleep, buffers allocated. -/
def sampleDev : vfsspi_device_data :=
  { current_spi_speed := 4800000, is_opened := 1,
    buffer := some [0, 0, 0, 0], null_buffer := some [0, 0, 0, 0],
    spi := some { max_speed_hz := 4800000 },
    user_pid := 100, signal_id := 10, t := some 7,
    irq_enabled := 0, drdy_pin := 20, sleep_pin := 21, ldo_pin := 22,
    regulator_3p3 := false, ldo_onoff := 0,
    pins_idle := pin_ptr.ok PinState.idle, pins_sleep := pin_ptr.ok PinState.sleep,
    p_state := some PinState.sleep }

/-- The sample device with the line masked once and nothing traced yet. -/
def sampleSys : Sys :=
  { dev := sampleDev, cnt_irq := 0, irq_depth := 1, trace := [] }

/-- The sample system with the interrupt armed. -/
def sampleArmed : Sys :=
  { dev := { sampleDev with irq_enabled := 1, p_state := some PinState.idle },
    cnt_irq := 1, irq_depth := 0, trace := [] }

/-- A powered device of the regulator configuration: no LDO pin, a regulator
handle, the sleep-enable line 21 driven high. -/
def sampleRegulator : Sys :=
  { dev := { sampleDev with ldo_pin := 0, regulator_3p3 := true, ldo_onoff := 1 },
    cnt_irq := 0, irq_depth := 1, trace := [], gpio_out := [(21, 1)] }

/-- A process table whose only live process is 100, with task 7. -/
def sampleProcs : Int → Option Nat :=
  fun pid => if pid = 100 then some 7 else none

/-- A bus whose transactions succeed but report one byte transferred. -/
def sampleShortBus : Bus :=
  fun tx _ => { status := 0, actual_length := 1, rx := tx }

/-- A bus whose transactions fail with status -5. -/
def sampleFailingBus : Bus :=
  fun _ _ => { status := -5, actual_length := 0, rx := [] }

/-- Sample answers for one ioctl call: the loopback bus, the sample process
table, every copy succeeding; failing says what the copy-in of the command's
argument returns. -/
def sampleAnswers (failing : Nat) : Answers :=
  { bus := loopback, procs := sampleProcs, freq := fun _ => 0, kmalloc_null := false,
    missing := failing, arg := 1,
    usr_signal := { user_pid := 100, signal_id := 10 },
    transfer := { rx_buffer := some 1, tx_buffer := some 2, len := 2 },
    user_tx := [1, 2], xfer_missing_in := 0, xfer_missing_out := 0, missing_back := 0,
    pin_status := 0, drdy_level := 0, sig_ret := 0, rc := 0 }

/-! ## Theorems -/

/-! ### What the interrupt operations do when they act -/

/-- On an interrupt that is not enabled, with a valid idle pin state,
vfsspi_enable_irq returns 0 and the state is the one given here. -/
theorem vfsspi_enable_irq_run (k : Consts) (pin_status : Int) (s : Sys)
    (hne : s.dev.irq_enabled ≠ k.DRDY_IRQ_ENABLE)
    (hp : s.dev.pins_idle = pin_ptr.ok PinState.idle) :
    vfsspi_enable_irq k pin_status s =
      (0,
       { s with
           dev := { s.dev with
                      irq_enabled := k.DRDY_IRQ_ENABLE,
                      p_state := if pin_status = 0 then some PinState.idle else none },
           cnt_irq := s.cnt_irq + 1,
           irq_depth := s.irq_depth - 1,
           trace := s.trace ++
             [Event.lock Lock.irq_lock, Event.pinctrl_select_state PinState.idle,
              Event.enable_irq, Event.unlock Lock.irq_lock] }) := by
  by_cases hs : pin_status = 0 <;>
    simp [vfsspi_enable_irq, vfsspi_pin_control, pinctrl_select_state, enable_irq, emit,
      hne, hp, hs]

/-- C1: a request of length 0 or of a length above DEFAULT_BUFFER_SIZE makes
vfsspi_write, vfsspi_read and vfsspi_xfer (build without
ENABLE_SENSORS_FPRINT_SECURE, device and request not NULL) return -EMSGSIZE
and leave the whole system state as it was: no bus transaction, no copy of
caller data, no change to a scratch buffer or to any other field (the trace
of calls is part of the state). -/
theorem C1_bad_length_rejected (k : Consts) (bus : Bus) (user_buf : List Nat)
    (missing missing_out : Nat) (buf_null : Bool) (q : vfsspi_ioctl_transfer)
    (L : Nat) (s : Sys) (hL : L = 0 ∨ L > k.DEFAULT_BUFFER_SIZE) :
    vfsspi_write k false bus user_buf missing L s = (-EMSGSIZE, s) ∧
    vfsspi_read k false bus buf_null missing L s
      = { status := -EMSGSIZE, user := [], sys := s } ∧
    vfsspi_xfer k bus user_buf missing missing_out false (some { q with len := L }) s
      = { status := -EMSGSIZE, tr := some { q with len := L }, user := [], sys := s } := by
  have h : L > k.DEFAULT_BUFFER_SIZE ∨ L = 0 := hL.symm
  refine ⟨?_, ?_, ?_⟩
  · simp [vfsspi_write, h]
  · simp [vfsspi_read, h]
  · simp [vfsspi_xfer, h]

/-- C1 at sample inputs: length 0 and length DEFAULT_BUFFER_SIZE + 1 on the
sample device. -/
theorem C1_bad_length_rejected_witness :
    ((0 : Nat) = 0 ∨ 0 > sampleConsts.DEFAULT_BUFFER_SIZE) ∧
    vfsspi_write sampleConsts false loopback [1, 2] 0 0 sampleSys = (-EMSGSIZE, sampleSys) ∧
    (5 = 0 ∨ 5 > sampleConsts.DEFAULT_BUFFER_SIZE) ∧
    vfsspi_read sampleConsts false loopback false 0 5 sampleSys
      = { status := -EMSGSIZE, user := [], sys := sampleSys } ∧
    vfsspi_xfer sampleConsts loopback [1, 2] 0 0 false
        (some { rx_buffer := some 1, tx_buffer := some 2, len := 5 }) sampleSys
      = { status := -EMSGSIZE,
          tr := some { rx_buffer := some 1, tx_buffer := some 2, len := 5 },
          user := [], sys := sampleSys } :=
  ⟨by decide,
   (C1_bad_length_rejected sampleConsts loopback [1, 2] 0 0 false
      { rx_buffer := some 1, tx_buffer := some 2, len := 0 } 0 sampleSys (by decide)).1,
   by decide,
   (C1_bad_length_rejected sampleConsts loopback [1, 2] 0 0 false
      { rx_buffer := some 1, tx_buffer := some 2, len := 5 } 5 sampleSys (by decide)).2.1,
   (C1_bad_length_rejected sampleConsts loopback [1, 2] 0 0 false
      { rx_buffer := some 1, tx_buffer := some 2, len := 5 } 5 sampleSys (by decide)).2.2⟩

/-- C2 fails as stated: over the loopback bus, writing the bytes 1, 2 and
reading 2 bytes back hands the caller 0, 0. -/
theorem C2_counterexample :
    (vfsspi_write sampleConsts false loopback [1, 2] 0 2 sampleSys).1 = 2 ∧
    (vfsspi_read sampleConsts false loopback false 0 2
      (vfsspi_write sampleConsts false loopback [1, 2] 0 2 sampleSys).2).status = 2 ∧
    (vfsspi_read sampleConsts false loopback false 0 2
      (vfsspi_write sampleConsts false loopback [1, 2] 0 2 sampleSys).2).user = [0, 0] ∧
    (vfsspi_read sampleConsts false loopback false 0 2
      (vfsspi_write sampleConsts false loopback [1, 2] 0 2 sampleSys).2).user ≠ [1, 2] := by
  decide

/-- C2 as amended: in an open session (both scratch buffers allocated), for
0 < L <= DEFAULT_BUFFER_SIZE and b of length L, with all user copies
succeeding over the loopback bus: vfsspi_write returns L and its one
transaction carries exactly b outbound; the following vfsspi_read returns L,
its one transaction carries L zero bytes outbound, and the caller receives
those L zero bytes, which are b only when b is all zeros. -/
theorem C2_write_then_read_loopback (k : Consts) (L : Nat) (b buf nb : List Nat) (s : Sys)
    (hpos : 0 < L) (hle : L ≤ k.DEFAULT_BUFFER_SIZE) (hb : b.length = L)
    (hbuf : s.dev.buffer = some buf) (hnb : s.dev.null_buffer = some nb) :
    (vfsspi_write k false loopback b 0 L s).1 = (L : Int) ∧
    (vfsspi_write k false loopback b 0 L s).2.trace = s.trace ++
      [Event.lock Lock.buffer_mutex, Event.copy_from_user 0,
       Event.spi_sync b L s.dev.current_spi_speed, Event.unlock Lock.buffer_mutex] ∧
    (vfsspi_read k false loopback false 0 L
      (vfsspi_write k false loopback b 0 L s).2).status = (L : Int) ∧
    (vfsspi_read k false loopback false 0 L
      (vfsspi_write k false loopback b 0 L s).2).sys.trace =
      (vfsspi_write k false loopback b 0 L s).2.trace ++
      [Event.lock Lock.buffer_mutex,
       Event.spi_sync (List.replicate L 0) L s.dev.current_spi_speed,
       Event.copy_to_user 0, Event.unlock Lock.buffer_mutex] ∧
    (vfsspi_read k false loopback false 0 L
      (vfsspi_write k false loopback b 0 L s).2).user = List.replicate L 0 ∧
    ((vfsspi_read k false loopback false 0 L
      (vfsspi_write k false loopback b 0 L s).2).user = b ↔ b = List.replicate L 0) := by
  subst hb
  have hr1 : ¬ k.DEFAULT_BUFFER_SIZE < b.length := by omega
  have hr2 : ¬ b = [] := by
    intro h
    rw [h] at hpos
    exact absurd hpos (by decide)
  have hw : vfsspi_write k false loopback b 0 b.length s =
      ((b.length : Int),
       { s with
           dev := { s.dev with buffer := some (b ++ buf.drop b.length),
                               null_buffer := some (b ++ nb.drop b.length) },
           trace := s.trace ++
             [Event.lock Lock.buffer_mutex, Event.copy_from_user 0,
              Event.spi_sync b b.length s.dev.current_spi_speed,
              Event.unlock Lock.buffer_mutex] }) := by
    simp [vfsspi_write, vfsspi_write_sync, loopback, emit, buf_bytes, rx_store, store,
      copy_from_user, hr1, hr2, hbuf, hnb]
  have hposI : (0 : Int) < (b.length : Int) := by exact_mod_cast hpos
  have hr : vfsspi_read k false loopback false 0 b.length
      (vfsspi_write k false loopback b 0 b.length s).2 =
      { status := (b.length : Int),
        user := List.replicate b.length 0,
        sys :=
          { s with
              dev := { s.dev with
                         buffer := some (List.replicate b.length 0 ++ buf.drop b.length),
                         null_buffer := some (List.replicate b.length 0 ++ nb.drop b.length) },
              trace := (s.trace ++
                [Event.lock Lock.buffer_mutex, Event.copy_from_user 0,
                 Event.spi_sync b b.length s.dev.current_spi_speed,
                 Event.unlock Lock.buffer_mutex]) ++
                [Event.lock Lock.buffer_mutex,
                 Event.spi_sync (List.replicate b.length 0) b.length s.dev.current_spi_speed,
                 Event.copy_to_user 0, Event.unlock Lock.buffer_mutex] } } := by
    rw [hw]
    simp [vfsspi_read, vfsspi_read_sync, loopback, emit, buf_bytes, rx_store, store,
      copy_to_user, hr1, hr2, hposI]
    intro h0
    omega
  rw [hr, hw]
  refine ⟨rfl, rfl, rfl, rfl, rfl, ?_⟩
  exact ⟨fun h => h.symm, fun h => h.symm⟩

/-- C2 as amended, at a sample input: the sample device, the bytes 1, 2. -/
theorem C2_write_then_read_loopback_witness :
    0 < 2 ∧ 2 ≤ sampleConsts.DEFAULT_BUFFER_SIZE ∧ [1, 2].length = 2 ∧
    sampleSys.dev.buffer = some [0, 0, 0, 0] ∧ sampleSys.dev.null_buffer = some [0, 0, 0, 0] ∧
    (vfsspi_read sampleConsts false loopback false 0 2
      (vfsspi_write sampleConsts false loopback [1, 2] 0 2 sampleSys).2).user
        = List.replicate 2 0 :=
  ⟨by decide, by decide, rfl, rfl, rfl,
   (C2_write_then_read_loopback sampleConsts 2 [1, 2] [0, 0, 0, 0] [0, 0, 0, 0] sampleSys
      (by decide) (by decide) rfl rfl rfl).2.2.2.2.1⟩

/-- C3 fails as stated: on the armed sample device (interrupt enabled, task 7
registered, pins idle) the handler runs with the DRDY line active and
pinctrl_select_state answers -22. The signal is sent and the interrupt is
disabled, but the pin-mux is not in the sleep state afterwards: the selected
state was cleared and the failed selection was only logged. -/
theorem C3_counterexample :
    sampleArmed.dev.irq_enabled = sampleConsts.DRDY_IRQ_ENABLE ∧
    sampleArmed.dev.t = some 7 ∧
    (vfsspi_irq sampleConsts sampleConsts.DRDY_ACTIVE_STATUS (-22) 0 sampleArmed).2.dev.irq_enabled
      = sampleConsts.DRDY_IRQ_DISABLE ∧
    (vfsspi_irq sampleConsts sampleConsts.DRDY_ACTIVE_STATUS (-22) 0 sampleArmed).2.dev.p_state
      = none ∧
    (vfsspi_irq sampleConsts sampleConsts.DRDY_ACTIVE_STATUS (-22) 0 sampleArmed).2.dev.p_state
      ≠ some PinState.sleep := by
  decide

/-- C3 as amended: on an enabled interrupt with a registered target and the
DRDY line active, on a device probe accepted (pins_sleep is the sleep state
that was looked up), vfsspi_irq masks the line, sets irq_enabled to
DRDY_IRQ_DISABLE, calls pinctrl_select_state for the sleep state, decrements
cnt_irq, sends one signal with the configured signal_id to the target and arms
a wake-hold of 3*HZ, in this order, and does nothing else: no bus transaction
and no power-rail action is in the trace. The selected pin-mux state is sleep
when the selection succeeds and is cleared when it fails. -/
theorem C3_irq_active_enabled (k : Consts) (pin_status sig_ret : Int) (s : Sys) (task : Nat)
    (hen : s.dev.irq_enabled = k.DRDY_IRQ_ENABLE) (ht : s.dev.t = some task)
    (hp : s.dev.pins_sleep = pin_ptr.ok PinState.sleep) :
    vfsspi_irq k k.DRDY_ACTIVE_STATUS pin_status sig_ret s =
      (IRQ_HANDLED,
       { s with
           dev := { s.dev with
                      irq_enabled := k.DRDY_IRQ_DISABLE,
                      p_state := if pin_status = 0 then some PinState.sleep else none },
           cnt_irq := s.cnt_irq - 1,
           irq_depth := s.irq_depth + 1,
           trace := s.trace ++
             [Event.lock Lock.irq_lock, Event.disable_irq_nosync,
              Event.pinctrl_select_state PinState.sleep, Event.unlock Lock.irq_lock,
              Event.send_sig_info s.dev.signal_id task,
              Event.wake_lock_timeout (3 * k.HZ)] }) ∧
    signals_sent (vfsspi_irq k k.DRDY_ACTIVE_STATUS pin_status sig_ret s).2.trace
      = signals_sent s.trace + 1 ∧
    masked (vfsspi_irq k k.DRDY_ACTIVE_STATUS pin_status sig_ret s).2 := by
  have h : vfsspi_irq k k.DRDY_ACTIVE_STATUS pin_status sig_ret s =
      (IRQ_HANDLED,
       { s with
           dev := { s.dev with
                      irq_enabled := k.DRDY_IRQ_DISABLE,
                      p_state := if pin_status = 0 then some PinState.sleep else none },
           cnt_irq := s.cnt_irq - 1,
           irq_depth := s.irq_depth + 1,
           trace := s.trace ++
             [Event.lock Lock.irq_lock, Event.disable_irq_nosync,
              Event.pinctrl_select_state PinState.sleep, Event.unlock Lock.irq_lock,
              Event.send_sig_info s.dev.signal_id task,
              Event.wake_lock_timeout (3 * k.HZ)] }) := by
    by_cases hs : pin_status = 0 <;>
      simp [vfsspi_irq, vfsspi_pin_control, pinctrl_select_state, disable_irq_nosync,
        vfsspi_send_drdy_signal, emit, hen, ht, hp, hs]
  refine ⟨h, ?_, ?_⟩
  · rw [h]
    simp [signals_sent, List.countP_append]
  · rw [h]
    simp [masked]

/-- C3 as amended, at a sample input: the armed sample device, a successful
selection. -/
theorem C3_irq_active_enabled_witness :
    sampleArmed.dev.irq_enabled = sampleConsts.DRDY_IRQ_ENABLE ∧
    sampleArmed.dev.t = some 7 ∧
    sampleArmed.dev.pins_sleep = pin_ptr.ok PinState.sleep ∧
    signals_sent (vfsspi_irq sampleConsts sampleConsts.DRDY_ACTIVE_STATUS 0 0 sampleArmed).2.trace
      = signals_sent sampleArmed.trace + 1 ∧
    masked (vfsspi_irq sampleConsts sampleConsts.DRDY_ACTIVE_STATUS 0 0 sampleArmed).2 :=
  ⟨rfl, rfl, rfl, (C3_irq_active_enabled sampleConsts 0 0 sampleArmed 7 rfl rfl rfl).2⟩

/-- C4: when the DRDY line does not read DRDY_ACTIVE_STATUS, vfsspi_irq
returns IRQ_HANDLED and leaves the whole system state as it was, whatever the
interrupt state: no signal, no wake-hold, no lock taken, and irq_enabled, the
mask depth, the pin-mux state and cnt_irq unchanged. -/
theorem C4_irq_inactive_noop (k : Consts) (drdy_level pin_status sig_ret : Int) (s : Sys)
    (hlevel : drdy_level ≠ k.DRDY_ACTIVE_STATUS) :
    vfsspi_irq k drdy_level pin_status sig_ret s = (IRQ_HANDLED, s) := by
  simp [vfsspi_irq, hlevel]

/-- C4 at sample inputs: the armed and the disabled sample device with the
line reading 0. -/
theorem C4_irq_inactive_noop_witness :
    (0 : Int) ≠ sampleConsts.DRDY_ACTIVE_STATUS ∧
    vfsspi_irq sampleConsts 0 0 0 sampleArmed = (IRQ_HANDLED, sampleArmed) ∧
    vfsspi_irq sampleConsts 0 0 0 sampleSys = (IRQ_HANDLED, sampleSys) :=
  ⟨by decide, C4_irq_inactive_noop sampleConsts 0 0 0 sampleArmed (by decide),
   C4_irq_inactive_noop sampleConsts 0 0 0 sampleSys (by decide)⟩

/-- C5: on a disabled interrupt with the DRDY line active, vfsspi_irq only
takes and releases the interrupt lock: no signal, no wake-hold, and the device
(irq_enabled and the pin-mux state with it), the mask depth and cnt_irq are
unchanged. Hence two consecutive handler runs on an active line, from any
state, send at most one signal. -/
theorem C5_irq_active_disabled (k : Consts) (hk : k.DRDY_IRQ_ENABLE ≠ k.DRDY_IRQ_DISABLE)
    (pin_status sig_ret : Int) (s : Sys) (hdis : s.dev.irq_enabled = k.DRDY_IRQ_DISABLE) :
    vfsspi_irq k k.DRDY_ACTIVE_STATUS pin_status sig_ret s = (IRQ_HANDLED, lock_only s) ∧
    ∀ (s0 : Sys) (p1 r1 p2 r2 : Int),
      signals_sent
        (vfsspi_irq k k.DRDY_ACTIVE_STATUS p2 r2
          (vfsspi_irq k k.DRDY_ACTIVE_STATUS p1 r1 s0).2).2.trace
        ≤ signals_sent s0.trace + 1 := by
  have hne : ¬ k.DRDY_IRQ_DISABLE = k.DRDY_IRQ_ENABLE := fun h => hk h.symm
  constructor
  · simp [vfsspi_irq, lock_only, emit, hdis, hne]
  · intro s0 p1 r1 p2 r2
    by_cases h0 : s0.dev.irq_enabled = k.DRDY_IRQ_ENABLE
    · cases ht : s0.dev.t <;> cases hp : s0.dev.pins_sleep <;> by_cases hs : p1 = 0 <;>
        simp [vfsspi_irq, vfsspi_pin_control, pinctrl_select_state, disable_irq_nosync,
          vfsspi_send_drdy_signal, emit, signals_sent, List.countP_append, h0, hne, ht, hp, hs]
    · simp [vfsspi_irq, emit, signals_sent, List.countP_append, h0]

/-- C5 at sample inputs: the sample device with the interrupt disabled; and
two handler runs on the armed sample device. -/
theorem C5_irq_active_disabled_witness :
    sampleConsts.DRDY_IRQ_ENABLE ≠ sampleConsts.DRDY_IRQ_DISABLE ∧
    sampleSys.dev.irq_enabled = sampleConsts.DRDY_IRQ_DISABLE ∧
    vfsspi_irq sampleConsts sampleConsts.DRDY_ACTIVE_STATUS 0 0 sampleSys
      = (IRQ_HANDLED, lock_only sampleSys) ∧
    signals_sent
        (vfsspi_irq sampleConsts sampleConsts.DRDY_ACTIVE_STATUS 0 0
          (vfsspi_irq sampleConsts sampleConsts.DRDY_ACTIVE_STATUS 0 0 sampleArmed).2).2.trace
        ≤ signals_sent sampleArmed.trace + 1 :=
  ⟨by decide, rfl, (C5_irq_active_disabled sampleConsts (by decide) 0 0 sampleSys rfl).1,
   (C5_irq_active_disabled sampleConsts (by decide) 0 0 sampleSys rfl).2 sampleArmed 0 0 0 0⟩

/-- C6: on an enabled interrupt vfsspi_enable_irq returns -EINVAL and only
takes and releases the interrupt lock: the device (irq_enabled, still
DRDY_IRQ_ENABLE, and the pin-mux state with it), the mask depth and cnt_irq are
unchanged. In particular the second of two consecutive enable calls, from any
state, fails this way. -/
theorem C6_enable_irq_twice (k : Consts) (pin_status : Int) (s : Sys)
    (hen : s.dev.irq_enabled = k.DRDY_IRQ_ENABLE) :
    vfsspi_enable_irq k pin_status s = (-EINVAL, lock_only s) ∧
    (lock_only s).dev.irq_enabled = k.DRDY_IRQ_ENABLE ∧
    ∀ (s0 : Sys) (p1 p2 : Int),
      vfsspi_enable_irq k p2 (vfsspi_enable_irq k p1 s0).2 =
        (-EINVAL, lock_only (vfsspi_enable_irq k p1 s0).2) ∧
      (lock_only (vfsspi_enable_irq k p1 s0).2).dev.irq_enabled = k.DRDY_IRQ_ENABLE := by
  have first : ∀ (p : Int) (u : Sys), u.dev.irq_enabled = k.DRDY_IRQ_ENABLE →
      vfsspi_enable_irq k p u = (-EINVAL, lock_only u) := by
    intro p u hu
    simp [vfsspi_enable_irq, lock_only, emit, hu]
  refine ⟨first pin_status s hen, hen, ?_⟩
  intro s0 p1 p2
  have h1 : (vfsspi_enable_irq k p1 s0).2.dev.irq_enabled = k.DRDY_IRQ_ENABLE := by
    by_cases h0 : s0.dev.irq_enabled = k.DRDY_IRQ_ENABLE
    · simp [vfsspi_enable_irq, emit, h0]
    · cases hp : s0.dev.pins_idle <;> by_cases hs : p1 = 0 <;>
        simp [vfsspi_enable_irq, vfsspi_pin_control, pinctrl_select_state, enable_irq, emit,
          h0, hp, hs]
  exact ⟨first p2 _ h1, h1⟩

/-- C6 at sample inputs: the armed sample device; and two enable calls on the
disabled sample device. -/
theorem C6_enable_irq_twice_witness :
    sampleArmed.dev.irq_enabled = sampleConsts.DRDY_IRQ_ENABLE ∧
    vfsspi_enable_irq sampleConsts 0 sampleArmed = (-EINVAL, lock_only sampleArmed) ∧
    (vfsspi_enable_irq sampleConsts 0 sampleSys).1 = 0 ∧
    vfsspi_enable_irq sampleConsts 0 (vfsspi_enable_irq sampleConsts 0 sampleSys).2 =
      (-EINVAL, lock_only (vfsspi_enable_irq sampleConsts 0 sampleSys).2) :=
  ⟨rfl, (C6_enable_irq_twice sampleConsts 0 sampleArmed rfl).1, by decide,
   ((C6_enable_irq_twice sampleConsts 0 sampleArmed rfl).2.2 sampleSys 0 0).1⟩

/-- C7 fails as stated: on the sample device (interrupt disabled, pins
asleep, line masked once) vfsspi_enable_irq is called and pinctrl_select_state
answers -22. The call returns 0 and enables the interrupt, but the idle
pin-mux state is not selected afterwards: the selected state was cleared and
the failed selection was only logged. -/
theorem C7_counterexample :
    sampleSys.dev.irq_enabled = sampleConsts.DRDY_IRQ_DISABLE ∧
    (vfsspi_enable_irq sampleConsts (-22) sampleSys).1 = 0 ∧
    (vfsspi_enable_irq sampleConsts (-22) sampleSys).2.dev.irq_enabled
      = sampleConsts.DRDY_IRQ_ENABLE ∧
    (vfsspi_enable_irq sampleConsts (-22) sampleSys).2.dev.p_state = none ∧
    (vfsspi_enable_irq sampleConsts (-22) sampleSys).2.dev.p_state ≠ some PinState.idle := by
  decide

/-- C7 as amended: on a disabled interrupt, on a device probe accepted
(pins_idle is the idle state that was looked up), vfsspi_enable_irq returns 0
and, under the interrupt lock, calls pinctrl_select_state for the idle state,
calls enable_irq (the mask depth goes down by one), sets irq_enabled to
DRDY_IRQ_ENABLE and adds one to cnt_irq; every other field of the device
(speed, power flag, notification target, buffers) is unchanged and no signal
is sent. The selected pin-mux state is idle when the selection succeeds and is
cleared when it fails; the line is unmasked when it was masked at most
once. -/
theorem C7_enable_irq_from_disabled (k : Consts)
    (hk : k.DRDY_IRQ_ENABLE ≠ k.DRDY_IRQ_DISABLE) (pin_status : Int) (s : Sys)
    (hdis : s.dev.irq_enabled = k.DRDY_IRQ_DISABLE)
    (hp : s.dev.pins_idle = pin_ptr.ok PinState.idle) :
    vfsspi_enable_irq k pin_status s =
      (0,
       { s with
           dev := { s.dev with
                      irq_enabled := k.DRDY_IRQ_ENABLE,
                      p_state := if pin_status = 0 then some PinState.idle else none },
           cnt_irq := s.cnt_irq + 1,
           irq_depth := s.irq_depth - 1,
           trace := s.trace ++
             [Event.lock Lock.irq_lock, Event.pinctrl_select_state PinState.idle,
              Event.enable_irq, Event.unlock Lock.irq_lock] }) ∧
    signals_sent (vfsspi_enable_irq k pin_status s).2.trace = signals_sent s.trace ∧
    (s.irq_depth ≤ 1 → ¬ masked (vfsspi_enable_irq k pin_status s).2) := by
  have hne : s.dev.irq_enabled ≠ k.DRDY_IRQ_ENABLE := by
    rw [hdis]
    exact fun h => hk h.symm
  have h := vfsspi_enable_irq_run k pin_status s hne hp
  refine ⟨h, ?_, ?_⟩
  · rw [h]
    simp [signals_sent, List.countP_append]
  · intro hd
    rw [h]
    simp only [masked]
    omega

/-- C7 as amended, at a sample input: the sample device, a successful
selection. -/
theorem C7_enable_irq_from_disabled_witness :
    sampleConsts.DRDY_IRQ_ENABLE ≠ sampleConsts.DRDY_IRQ_DISABLE ∧
    sampleSys.dev.irq_enabled = sampleConsts.DRDY_IRQ_DISABLE ∧
    sampleSys.dev.pins_idle = pin_ptr.ok PinState.idle ∧
    (vfsspi_enable_irq sampleConsts 0 sampleSys).1 = 0 ∧
    (vfsspi_enable_irq sampleConsts 0 sampleSys).2.dev.p_state = some PinState.idle ∧
    sampleSys.irq_depth ≤ 1 ∧
    ¬ masked (vfsspi_enable_irq sampleConsts 0 sampleSys).2 :=
  ⟨by decide, rfl, rfl, by decide, by decide, by decide,
   (C7_enable_irq_from_disabled sampleConsts (by decide) 0 sampleSys rfl rfl).2.2 (by decide)⟩

/-- C9: with a registered target and a flag that was copied in, for every
prior interrupt state: a non-zero flag with the DRDY line active at the
re-check makes vfsspi_set_drdy_int send exactly one signal, to the target and
as its last action before it returns 0; a non-zero flag with the line
inactive, or a zero flag, makes it send none. -/
theorem C9_set_drdy_int_signal (k : Consts) (flag : Nat) (pin_status drdy_level sig_ret : Int)
    (s : Sys) (task : Nat) (ht : s.dev.t = some task) :
    (flag ≠ 0 → drdy_level = k.DRDY_ACTIVE_STATUS →
      vfsspi_set_drdy_int k 0 flag pin_status drdy_level sig_ret s =
        (0, emit (Event.send_sig_info s.dev.signal_id task)
              (vfsspi_enable_irq k pin_status (emit (Event.copy_from_user 0) s)).2) ∧
      signals_sent (vfsspi_set_drdy_int k 0 flag pin_status drdy_level sig_ret s).2.trace
        = signals_sent s.trace + 1) ∧
    (flag ≠ 0 → drdy_level ≠ k.DRDY_ACTIVE_STATUS →
      signals_sent (vfsspi_set_drdy_int k 0 flag pin_status drdy_level sig_ret s).2.trace
        = signals_sent s.trace) ∧
    (flag = 0 →
      signals_sent (vfsspi_set_drdy_int k 0 flag pin_status drdy_level sig_ret s).2.trace
        = signals_sent s.trace) := by
  have hen : ∀ u : Sys, (vfsspi_enable_irq k pin_status u).2.dev.t = u.dev.t ∧
      (vfsspi_enable_irq k pin_status u).2.dev.signal_id = u.dev.signal_id ∧
      signals_sent (vfsspi_enable_irq k pin_status u).2.trace = signals_sent u.trace := by
    intro u
    by_cases h0 : u.dev.irq_enabled = k.DRDY_IRQ_ENABLE
    · simp [vfsspi_enable_irq, emit, signals_sent, List.countP_append, h0]
    · cases hp : u.dev.pins_idle <;> by_cases hs : pin_status = 0 <;>
        simp [vfsspi_enable_irq, vfsspi_pin_control, pinctrl_select_state, enable_irq, emit,
          signals_sent, List.countP_append, h0, hp, hs]
  have hdis : ∀ u : Sys,
      signals_sent (vfsspi_disable_irq k pin_status u).2.trace = signals_sent u.trace := by
    intro u
    by_cases h0 : u.dev.irq_enabled = k.DRDY_IRQ_DISABLE
    · simp [vfsspi_disable_irq, emit, signals_sent, List.countP_append, h0]
    · cases hp : u.dev.pins_sleep <;> by_cases hs : pin_status = 0 <;>
        simp [vfsspi_disable_irq, vfsspi_pin_control, pinctrl_select_state, disable_irq_nosync,
          emit, signals_sent, List.countP_append, h0, hp, hs]
  have hcopy : signals_sent (emit (Event.copy_from_user 0) s).trace = signals_sent s.trace := by
    simp [emit, signals_sent, List.countP_append]
  obtain ⟨e1, e2, e3⟩ := hen (emit (Event.copy_from_user 0) s)
  have ht1 : (vfsspi_enable_irq k pin_status (emit (Event.copy_from_user 0) s)).2.dev.t
      = some task := by
    rw [e1]
    simpa [emit] using ht
  have hsig : (vfsspi_enable_irq k pin_status (emit (Event.copy_from_user 0) s)).2.dev.signal_id
      = s.dev.signal_id := by
    rw [e2]
    simp [emit]
  refine ⟨?_, ?_, ?_⟩
  · intro hf hl
    have hcall : vfsspi_set_drdy_int k 0 flag pin_status drdy_level sig_ret s =
        (0, emit (Event.send_sig_info s.dev.signal_id task)
              (vfsspi_enable_irq k pin_status (emit (Event.copy_from_user 0) s)).2) := by
      simp [vfsspi_set_drdy_int, vfsspi_send_drdy_signal, hf, hl, ht1, hsig]
    refine ⟨hcall, ?_⟩
    rw [hcall]
    have hlast : signals_sent
        (emit (Event.send_sig_info s.dev.signal_id task)
          (vfsspi_enable_irq k pin_status (emit (Event.copy_from_user 0) s)).2).trace
        = signals_sent (vfsspi_enable_irq k pin_status (emit (Event.copy_from_user 0) s)).2.trace
          + 1 := by
      simp [emit, signals_sent, List.countP_append]
    rw [hlast, e3, hcopy]
  · intro hf hl
    simp only [vfsspi_set_drdy_int, hf, hl, ne_eq, not_true_eq_false, if_false]
    rw [e3, hcopy]
  · intro hf
    simp only [vfsspi_set_drdy_int, hf, ne_eq, not_true_eq_false, if_false, if_true]
    rw [hdis, hcopy]

/-- C9 at sample inputs on the sample device: flag 1 with the line active,
from the disabled and from the armed state; flag 1 with the line inactive;
flag 0. -/
theorem C9_set_drdy_int_signal_witness :
    sampleSys.dev.t = some 7 ∧
    signals_sent (vfsspi_set_drdy_int sampleConsts 0 1 0 1 0 sampleSys).2.trace
      = signals_sent sampleSys.trace + 1 ∧
    signals_sent (vfsspi_set_drdy_int sampleConsts 0 1 0 1 0 sampleArmed).2.trace
      = signals_sent sampleArmed.trace + 1 ∧
    signals_sent (vfsspi_set_drdy_int sampleConsts 0 1 0 0 0 sampleSys).2.trace
      = signals_sent sampleSys.trace ∧
    signals_sent (vfsspi_set_drdy_int sampleConsts 0 0 0 1 0 sampleSys).2.trace
      = signals_sent sampleSys.trace :=
  ⟨rfl,
   ((C9_set_drdy_int_signal sampleConsts 1 0 1 0 sampleSys 7 rfl).1 (by decide) rfl).2,
   ((C9_set_drdy_int_signal sampleConsts 1 0 1 0 sampleArmed 7 rfl).1 (by decide) rfl).2,
   (C9_set_drdy_int_signal sampleConsts 1 0 0 0 sampleSys 7 rfl).2.1 (by decide) (by decide),
   (C9_set_drdy_int_signal sampleConsts 0 0 1 0 sampleSys 7 rfl).2.2 rfl⟩

/-- C10 fails as stated: on the sample device, where task 7 of process 100 is
registered for signal 10, registering the process id 999 that no live process
has returns -ENODEV, yet the stored target is altered (the task handle is
cleared, user_pid and signal_id are the new ones) and a later delivery sends
nothing, where before it signalled the task. -/
theorem C10_counterexample :
    sampleProcs 999 = none ∧
    (vfsspi_register_drdy_signal sampleProcs 0 { user_pid := 999, signal_id := 12 } sampleSys).1
      = -ENODEV ∧
    sampleSys.dev.user_pid = 100 ∧ sampleSys.dev.signal_id = 10 ∧ sampleSys.dev.t = some 7 ∧
    (vfsspi_register_drdy_signal sampleProcs 0
      { user_pid := 999, signal_id := 12 } sampleSys).2.dev.user_pid = 999 ∧
    (vfsspi_register_drdy_signal sampleProcs 0
      { user_pid := 999, signal_id := 12 } sampleSys).2.dev.signal_id = 12 ∧
    (vfsspi_register_drdy_signal sampleProcs 0
      { user_pid := 999, signal_id := 12 } sampleSys).2.dev.t = none ∧
    signals_sent (vfsspi_send_drdy_signal 0 sampleSys).2.trace = 1 ∧
    signals_sent (vfsspi_send_drdy_signal 0
      (vfsspi_register_drdy_signal sampleProcs 0
        { user_pid := 999, signal_id := 12 } sampleSys).2).2.trace = 0 := by
  decide

/-- C10 as amended: when the request is copied in and its process id matches
no live process, vfsspi_register_drdy_signal returns -ENODEV and replaces the
stored target: user_pid and signal_id are the requested ones and the task
handle is cleared, every other field unchanged; a later delivery then sends no
signal and returns 0. -/
theorem C10_register_unknown_pid (procs : Int → Option Nat)
    (usr_signal : vfsspi_ioctl_register_signal) (s : Sys)
    (hnone : procs usr_signal.user_pid = none) :
    vfsspi_register_drdy_signal procs 0 usr_signal s =
      (-ENODEV,
       { s with
           dev := { s.dev with
                      user_pid := usr_signal.user_pid,
                      signal_id := usr_signal.signal_id,
                      t := none },
           trace := s.trace ++
             [Event.copy_from_user 0, Event.lock Lock.rcu, Event.unlock Lock.rcu] }) ∧
    ∀ sig_ret : Int,
      vfsspi_send_drdy_signal sig_ret (vfsspi_register_drdy_signal procs 0 usr_signal s).2 =
        (0, (vfsspi_register_drdy_signal procs 0 usr_signal s).2) := by
  have h : vfsspi_register_drdy_signal procs 0 usr_signal s =
      (-ENODEV,
       { s with
           dev := { s.dev with
                      user_pid := usr_signal.user_pid,
                      signal_id := usr_signal.signal_id,
                      t := none },
           trace := s.trace ++
             [Event.copy_from_user 0, Event.lock Lock.rcu, Event.unlock Lock.rcu] }) := by
    simp [vfsspi_register_drdy_signal, emit, hnone]
  refine ⟨h, ?_⟩
  intro sig_ret
  rw [h]
  simp [vfsspi_send_drdy_signal]

/-- C10 as amended, at a sample input: the sample device and process table,
the process id 999. -/
theorem C10_register_unknown_pid_witness :
    sampleProcs 999 = none ∧
    (vfsspi_register_drdy_signal sampleProcs 0
      { user_pid := 999, signal_id := 12 } sampleSys).1 = -ENODEV ∧
    vfsspi_send_drdy_signal 0
      (vfsspi_register_drdy_signal sampleProcs 0
        { user_pid := 999, signal_id := 12 } sampleSys).2 =
      (0, (vfsspi_register_drdy_signal sampleProcs 0
        { user_pid := 999, signal_id := 12 } sampleSys).2) :=
  ⟨by decide,
   congrArg Prod.fst
     (C10_register_unknown_pid sampleProcs { user_pid := 999, signal_id := 12 } sampleSys
       (by decide)).1,
   (C10_register_unknown_pid sampleProcs { user_pid := 999, signal_id := 12 } sampleSys
       (by decide)).2 0⟩

/-- C11: when the copy-in succeeds and the bus peer is attached, for every
16-bit selector c vfsspi_set_clk returns 0 and sets current_spi_speed and the
peer's max_speed_hz both to MAX_BAUD_RATE if c is 0, to SLOW_BAUD_RATE if c is
0xFFFF, and to the smaller of c * BAUD_RATE_COEF and MAX_BAUD_RATE otherwise;
for c other than 0xFFFF the speed is at most MAX_BAUD_RATE. BAUD_RATE_COEF is
such that the product fits the int it is computed in. Both builds. -/
theorem C11_set_clk_speed (k : Consts) (secure : Bool) (c : Nat) (s : Sys) (spidev : spi_device)
    (hc : c < 65536) (hspi : s.dev.spi = some spidev)
    (hcoef : 65535 * k.BAUD_RATE_COEF < 2 ^ 31) :
    (vfsspi_set_clk k secure 0 c s).1 = 0 ∧
    (vfsspi_set_clk k secure 0 c s).2.dev.current_spi_speed =
      (if c = 0 then k.MAX_BAUD_RATE
       else if c = 65535 then k.SLOW_BAUD_RATE
       else min (c * k.BAUD_RATE_COEF) k.MAX_BAUD_RATE) ∧
    (vfsspi_set_clk k secure 0 c s).2.dev.spi =
      some { spidev with max_speed_hz :=
        (if c = 0 then k.MAX_BAUD_RATE
         else if c = 65535 then k.SLOW_BAUD_RATE
         else min (c * k.BAUD_RATE_COEF) k.MAX_BAUD_RATE) } ∧
    (c ≠ 65535 → (vfsspi_set_clk k secure 0 c s).2.dev.current_spi_speed ≤ k.MAX_BAUD_RATE) := by
  have hprod : c * k.BAUD_RATE_COEF < 2 ^ 32 := by
    have h1 : c * k.BAUD_RATE_COEF ≤ 65535 * k.BAUD_RATE_COEF :=
      Nat.mul_le_mul_right _ (by omega)
    omega
  have hmod : c * k.BAUD_RATE_COEF % 4294967296 = c * k.BAUD_RATE_COEF :=
    Nat.mod_eq_of_lt hprod
  have hmin : (if k.MAX_BAUD_RATE < c * k.BAUD_RATE_COEF then k.MAX_BAUD_RATE
      else c * k.BAUD_RATE_COEF) = min (c * k.BAUD_RATE_COEF) k.MAX_BAUD_RATE := by
    by_cases h : k.MAX_BAUD_RATE < c * k.BAUD_RATE_COEF
    · rw [if_pos h, Nat.min_eq_right (Nat.le_of_lt h)]
    · rw [if_neg h, Nat.min_eq_left (Nat.le_of_not_lt h)]
  by_cases h0 : c = 0
  · cases secure <;> cases hclk : s.dev.enabled_clk <;>
      simp [vfsspi_set_clk, emit, hspi, h0, hclk]
  · by_cases hF : c = 65535
    · cases secure <;> cases hclk : s.dev.enabled_clk <;>
        simp [vfsspi_set_clk, emit, hspi, hF, hclk]
    · cases secure <;> cases hclk : s.dev.enabled_clk <;>
        simp [vfsspi_set_clk, emit, hspi, h0, hF, hclk, hmod, hmin]

/-- C11 at sample inputs: the selectors 0, 0xFFFF, 100 and 20000 on the sample
device, where BAUD_RATE_COEF is 1000 and MAX_BAUD_RATE is 9600000. -/
theorem C11_set_clk_speed_witness :
    sampleSys.dev.spi = some { max_speed_hz := 4800000 } ∧
    65535 * sampleConsts.BAUD_RATE_COEF < 2 ^ 31 ∧
    (vfsspi_set_clk sampleConsts false 0 0 sampleSys).2.dev.current_spi_speed = 9600000 ∧
    (vfsspi_set_clk sampleConsts false 0 65535 sampleSys).2.dev.current_spi_speed = 4800000 ∧
    (vfsspi_set_clk sampleConsts false 0 100 sampleSys).2.dev.current_spi_speed = 100000 ∧
    (vfsspi_set_clk sampleConsts false 0 20000 sampleSys).2.dev.current_spi_speed = 9600000 ∧
    (vfsspi_set_clk sampleConsts false 0 100 sampleSys).2.dev.spi
      = some { max_speed_hz := 100000 } :=
  ⟨rfl, by decide,
   (C11_set_clk_speed sampleConsts false 0 sampleSys _ (by decide) rfl (by decide)).2.1,
   (C11_set_clk_speed sampleConsts false 65535 sampleSys _ (by decide) rfl (by decide)).2.1,
   (C11_set_clk_speed sampleConsts false 100 sampleSys _ (by decide) rfl (by decide)).2.1,
   (C11_set_clk_speed sampleConsts false 20000 sampleSys _ (by decide) rfl (by decide)).2.1,
   (C11_set_clk_speed sampleConsts false 100 sampleSys _ (by decide) rfl (by decide)).2.2.1⟩

/-- C12: vfsspi_send_drdy_signal with a stored task handle makes exactly one
call of send_sig_info, with the configured signal_id and that task, and
returns what the call returned (0, or the negative error code of a failed
delivery); with no stored handle it makes no call and returns 0. In both
cases the device, cnt_irq, the mask depth and the line levels are
unchanged. -/
theorem C12_send_drdy_signal (sig_ret : Int) (s : Sys) :
    (∀ task : Nat, s.dev.t = some task →
      vfsspi_send_drdy_signal sig_ret s
        = (sig_ret, { s with trace := s.trace ++ [Event.send_sig_info s.dev.signal_id task] }) ∧
      signals_sent (vfsspi_send_drdy_signal sig_ret s).2.trace = signals_sent s.trace + 1) ∧
    (s.dev.t = none → vfsspi_send_drdy_signal sig_ret s = (0, s)) ∧
    (vfsspi_send_drdy_signal sig_ret s).2.dev = s.dev ∧
    (vfsspi_send_drdy_signal sig_ret s).2.cnt_irq = s.cnt_irq ∧
    (vfsspi_send_drdy_signal sig_ret s).2.irq_depth = s.irq_depth ∧
    (vfsspi_send_drdy_signal sig_ret s).2.gpio_out = s.gpio_out := by
  refine ⟨?_, ?_, ?_⟩
  · intro task ht
    simp [vfsspi_send_drdy_signal, emit, signals_sent, List.countP_append, ht]
  · intro ht
    simp [vfsspi_send_drdy_signal, ht]
  · cases ht : s.dev.t <;> simp [vfsspi_send_drdy_signal, emit, ht]

/-- C12 at sample inputs: a failed delivery (-3) on the sample device, which
has task 7 registered for signal 10; and a device with no task stored. -/
theorem C12_send_drdy_signal_witness :
    sampleSys.dev.t = some 7 ∧
    vfsspi_send_drdy_signal (-3) sampleSys
      = (-3, { sampleSys with trace := sampleSys.trace ++ [Event.send_sig_info 10 7] }) ∧
    vfsspi_send_drdy_signal (-3) { sampleSys with dev := { sampleDev with t := none } }
      = (0, { sampleSys with dev := { sampleDev with t := none } }) :=
  ⟨rfl, ((C12_send_drdy_signal (-3) sampleSys).1 7 rfl).1,
   (C12_send_drdy_signal (-3) { sampleSys with dev := { sampleDev with t := none } }).2.1 rfl⟩

/-- C13: in an open session, for every length L and every bus: vfsspi_write_sync
returns the actual length the bus reports when the transaction succeeds, and
vfsspi_read_sync returns L then, whatever the bus reports; when the
transaction fails both return the status of the bus as it is. The one
transaction of vfsspi_read_sync carries L zero bytes outbound. -/
theorem C13_sync_return_values (bus : Bus) (L : Nat) (s : Sys) (nb : List Nat)
    (hnb : s.dev.null_buffer = some nb) :
    ((bus (buf_bytes s.dev.buffer L) s.dev.current_spi_speed).status = 0 →
      (vfsspi_write_sync bus L s).1 =
        ((bus (buf_bytes s.dev.buffer L) s.dev.current_spi_speed).actual_length : Int)) ∧
    ((bus (buf_bytes s.dev.buffer L) s.dev.current_spi_speed).status ≠ 0 →
      (vfsspi_write_sync bus L s).1 =
        (bus (buf_bytes s.dev.buffer L) s.dev.current_spi_speed).status) ∧
    ((bus (List.replicate L 0) s.dev.current_spi_speed).status = 0 →
      (vfsspi_read_sync bus L s).1 = (L : Int)) ∧
    ((bus (List.replicate L 0) s.dev.current_spi_speed).status ≠ 0 →
      (vfsspi_read_sync bus L s).1 =
        (bus (List.replicate L 0) s.dev.current_spi_speed).status) ∧
    (vfsspi_write_sync bus L s).2.trace = s.trace ++
      [Event.spi_sync (buf_bytes s.dev.buffer L) L s.dev.current_spi_speed] ∧
    (vfsspi_read_sync bus L s).2.trace = s.trace ++
      [Event.spi_sync (List.replicate L 0) L s.dev.current_spi_speed] := by
  have hz : buf_bytes (Option.map (fun b => store b (List.replicate L 0)) s.dev.null_buffer) L
      = List.replicate L 0 := by
    simp [buf_bytes, store, hnb]
  refine ⟨?_, ?_, ?_, ?_, ?_, ?_⟩
  · intro h
    simp [vfsspi_write_sync, h]
  · intro h
    simp [vfsspi_write_sync, h]
  · intro h
    simp [vfsspi_read_sync, hz, h]
  · intro h
    simp [vfsspi_read_sync, hz, h]
  · simp [vfsspi_write_sync, emit]
  · simp [vfsspi_read_sync, emit, hz]

/-- C13 at sample inputs: 2 bytes on the sample device, over a bus that
reports 1 byte transferred and over a bus that fails with -5. -/
theorem C13_sync_return_values_witness :
    sampleSys.dev.null_buffer = some [0, 0, 0, 0] ∧
    (vfsspi_write_sync sampleShortBus 2 sampleSys).1 = 1 ∧
    (vfsspi_read_sync sampleShortBus 2 sampleSys).1 = 2 ∧
    (vfsspi_write_sync sampleFailingBus 2 sampleSys).1 = -5 ∧
    (vfsspi_read_sync sampleFailingBus 2 sampleSys).1 = -5 ∧
    (vfsspi_read_sync sampleShortBus 2 sampleSys).2.trace = [Event.spi_sync [0, 0] 2 4800000] :=
  ⟨rfl,
   (C13_sync_return_values sampleShortBus 2 sampleSys [0, 0, 0, 0] rfl).1 rfl,
   (C13_sync_return_values sampleShortBus 2 sampleSys [0, 0, 0, 0] rfl).2.2.1 rfl,
   (C13_sync_return_values sampleFailingBus 2 sampleSys [0, 0, 0, 0] rfl).2.1 (by decide),
   (C13_sync_return_values sampleFailingBus 2 sampleSys [0, 0, 0, 0] rfl).2.2.2.1 (by decide),
   (C13_sync_return_values sampleShortBus 2 sampleSys [0, 0, 0, 0] rfl).2.2.2.2.2⟩

/-- C14: in an open session, for a request with a length in range, a non-NULL
inbound pointer, a copy-in that succeeded (or no outbound pointer) and a bus
transaction that succeeds: when copy_to_user leaves m bytes undelivered,
0 < m <= len, vfsspi_xfer returns 0 and sets the request's len to len - m,
and len - m is the number of bytes the caller received; when m is 0 it
returns 0, the len is unchanged and the caller received len bytes. -/
theorem C14_xfer_short_copy_out (k : Consts) (bus : Bus) (user_tx : List Nat)
    (missing_in m : Nat) (q : vfsspi_ioctl_transfer) (s : Sys) (a : Nat) (buf : List Nat)
    (hpos : 0 < q.len) (hle : q.len ≤ k.DEFAULT_BUFFER_SIZE)
    (hrx : q.rx_buffer = some a)
    (hin : q.tx_buffer = none ∨ missing_in = 0)
    (hbuf : s.dev.buffer = some buf) (hlen : buf.length = k.DEFAULT_BUFFER_SIZE)
    (hbus : (bus (xfer_outbound user_tx missing_in q s) s.dev.current_spi_speed).status = 0)
    (hm : m ≤ q.len) :
    (vfsspi_xfer k bus user_tx missing_in m false (some q) s).status = 0 ∧
    (vfsspi_xfer k bus user_tx missing_in m false (some q) s).tr
      = some (if m = 0 then q else { q with len := q.len - m }) ∧
    (vfsspi_xfer k bus user_tx missing_in m false (some q) s).user.length = q.len - m := by
  have hr1 : ¬ k.DEFAULT_BUFFER_SIZE < q.len := by omega
  have hr2 : ¬ q.len = 0 := by omega
  have hlen2 : q.len ≤ buf.length := by omega
  have hdel : ∀ rx : List Nat,
      (copy_to_user (buf_bytes (rx_store (some buf) rx q.len) q.len) q.len m).length
        = q.len - m := by
    intro rx
    simp [copy_to_user, buf_bytes, rx_store, store]
    omega
  rcases hin with hnone | hzero
  · have hb : (bus (buf_bytes s.dev.null_buffer q.len) s.dev.current_spi_speed).status = 0 := by
      simpa [xfer_outbound, hnone] using hbus
    by_cases h0 : m = 0
    · subst h0
      simp [vfsspi_xfer, emit, hr1, hr2, hrx, hnone, hb, hbuf, hdel]
    · simp [vfsspi_xfer, emit, hr1, hr2, hrx, hnone, hb, hbuf, h0, hdel]
  · subst hzero
    cases htx : q.tx_buffer with
    | none =>
      have hb : (bus (buf_bytes s.dev.null_buffer q.len) s.dev.current_spi_speed).status = 0 := by
        simpa [xfer_outbound, htx] using hbus
      by_cases h0 : m = 0
      · subst h0
        simp [vfsspi_xfer, emit, hr1, hr2, hrx, htx, hb, hbuf, hdel]
      · simp [vfsspi_xfer, emit, hr1, hr2, hrx, htx, hb, hbuf, h0, hdel]
    | some t =>
      have hb : (bus (buf_bytes
          (Option.map (fun b => copy_from_user b user_tx q.len 0) s.dev.null_buffer) q.len)
          s.dev.current_spi_speed).status = 0 := by
        simpa [xfer_outbound, htx] using hbus
      by_cases h0 : m = 0
      · subst h0
        simp [vfsspi_xfer, emit, hr1, hr2, hrx, htx, hb, hbuf, hdel]
      · simp [vfsspi_xfer, emit, hr1, hr2, hrx, htx, hb, hbuf, h0, hdel]

/-- C14 at a sample input: the sample device over the loopback bus, a request
of 2 bytes of which the copy-out leaves 1 undelivered. -/
theorem C14_xfer_short_copy_out_witness :
    0 < 2 ∧ 2 ≤ sampleConsts.DEFAULT_BUFFER_SIZE ∧
    sampleSys.dev.buffer = some [0, 0, 0, 0] ∧
    (loopback (xfer_outbound [1, 2] 0 { rx_buffer := some 1, tx_buffer := some 2, len := 2 }
      sampleSys) sampleSys.dev.current_spi_speed).status = 0 ∧
    (vfsspi_xfer sampleConsts loopback [1, 2] 0 1 false
      (some { rx_buffer := some 1, tx_buffer := some 2, len := 2 }) sampleSys).status = 0 ∧
    (vfsspi_xfer sampleConsts loopback [1, 2] 0 1 false
      (some { rx_buffer := some 1, tx_buffer := some 2, len := 2 }) sampleSys).tr
      = some { rx_buffer := some 1, tx_buffer := some 2, len := 1 } :=
  ⟨by decide, by decide, rfl, rfl,
   (C14_xfer_short_copy_out sampleConsts loopback [1, 2] 0 1
      { rx_buffer := some 1, tx_buffer := some 2, len := 2 } sampleSys 1 [0, 0, 0, 0]
      (by decide) (by decide) rfl (Or.inr rfl) rfl rfl rfl (by decide)).1,
   (C14_xfer_short_copy_out sampleConsts loopback [1, 2] 0 1
      { rx_buffer := some 1, tx_buffer := some 2, len := 2 } sampleSys 1 [0, 0, 0, 0]
      (by decide) (by decide) rfl (Or.inr rfl) rfl rfl rfl (by decide)).2.1⟩

/-- C15: with FP_LDO_POWER_ON and FP_LDO_POWER_OFF the values 1 and 0 that
vfsspi_regulator_onoff stores: vfsspi_power_on on a device already on, and
vfsspi_power_off on a device already off, leave the whole system state as it
was (no line driven, no regulator call); and for every state, after a
power_on whose rail operation succeeded a second power_on changes nothing, so
state and hardware calls are those of the single power_on, and likewise for
power_off. -/
theorem C15_power_idempotent (k : Consts) (hon : k.FP_LDO_POWER_ON = 1)
    (hoff : k.FP_LDO_POWER_OFF = 0) (rc : Int) (s : Sys) :
    (s.dev.ldo_onoff = k.FP_LDO_POWER_ON → vfsspi_power_on k rc s = s) ∧
    (s.dev.ldo_onoff = k.FP_LDO_POWER_OFF → vfsspi_power_off k rc s = s) ∧
    vfsspi_power_on k rc (vfsspi_power_on k 0 s) = vfsspi_power_on k 0 s ∧
    vfsspi_power_off k rc (vfsspi_power_off k 0 s) = vfsspi_power_off k 0 s := by
  refine ⟨?_, ?_, ?_, ?_⟩
  · intro h
    simp [vfsspi_power_on, h, hon, hoff]
  · intro h
    simp [vfsspi_power_off, h, hon, hoff]
  · by_cases h : s.dev.ldo_onoff = 0
    · by_cases hl : s.dev.ldo_pin = 0
      · cases hr : s.dev.regulator_3p3 <;> by_cases hsl : s.dev.sleep_pin = 0 <;>
          simp [vfsspi_power_on, vfsspi_regulator_onoff, gpio_set_value, usleep_range, emit,
            h, hl, hr, hsl, hoff]
      · by_cases hsl : s.dev.sleep_pin = 0 <;>
          simp [vfsspi_power_on, vfsspi_regulator_onoff, gpio_set_value, usleep_range, emit,
            h, hl, hsl, hoff]
    · simp [vfsspi_power_on, h, hoff]
  · by_cases h : s.dev.ldo_onoff = 1
    · by_cases hl : s.dev.ldo_pin = 0
      · cases hr : s.dev.regulator_3p3 <;> by_cases hsl : s.dev.sleep_pin = 0 <;>
          simp [vfsspi_power_off, vfsspi_regulator_onoff, gpio_set_value, usleep_range, emit,
            h, hl, hr, hsl, hon]
      · by_cases hsl : s.dev.sleep_pin = 0 <;>
          simp [vfsspi_power_off, vfsspi_regulator_onoff, gpio_set_value, usleep_range, emit,
            h, hl, hsl, hon]
    · simp [vfsspi_power_off, h, hon]

/-- C15 at sample inputs: the sample device (LDO pin 22, sleep line 21, power
off) and the powered regulator sample. -/
theorem C15_power_idempotent_witness :
    sampleConsts.FP_LDO_POWER_ON = 1 ∧ sampleConsts.FP_LDO_POWER_OFF = 0 ∧
    sampleSys.dev.ldo_onoff = sampleConsts.FP_LDO_POWER_OFF ∧
    vfsspi_power_off sampleConsts 0 sampleSys = sampleSys ∧
    sampleRegulator.dev.ldo_onoff = sampleConsts.FP_LDO_POWER_ON ∧
    vfsspi_power_on sampleConsts 0 sampleRegulator = sampleRegulator ∧
    (vfsspi_power_on sampleConsts 0 sampleSys).trace =
      [Event.gpio_set_value 22 1, Event.usleep_range 1000 1050, Event.gpio_set_value 21 1] ∧
    vfsspi_power_on sampleConsts 0 (vfsspi_power_on sampleConsts 0 sampleSys)
      = vfsspi_power_on sampleConsts 0 sampleSys :=
  ⟨rfl, rfl, rfl,
   (C15_power_idempotent sampleConsts rfl rfl 0 sampleSys).2.1 rfl,
   rfl,
   (C15_power_idempotent sampleConsts rfl rfl 0 sampleRegulator).1 rfl,
   by decide,
   (C15_power_idempotent sampleConsts rfl rfl 0 sampleSys).2.2.1⟩

/-- C16: the calls vfsspi_regulator_onoff makes, in order. With an LDO pin:
on power-up the LDO pin is driven high and then, when a sleep-enable line
exists, after a delay of at least 1000 microseconds that line is driven high;
on power-down the sleep-enable line (when it exists) is driven low and then
the LDO pin; no regulator call is made. With no LDO pin and a regulator
handle: on power-up regulator_enable is called and then, when it succeeded and
a sleep-enable line exists, after the same delay that line is driven high; on
power-down the sleep-enable line (when it exists) is driven low and then
regulator_disable is called. -/
theorem C16_regulator_onoff_order (rc : Int) (s : Sys) :
    (s.dev.ldo_pin ≠ 0 →
      (vfsspi_regulator_onoff rc true s).trace = s.trace ++
        (Event.gpio_set_value s.dev.ldo_pin 1 ::
          (if s.dev.sleep_pin ≠ 0 then
            [Event.usleep_range 1000 1050, Event.gpio_set_value s.dev.sleep_pin 1]
           else [])) ∧
      (vfsspi_regulator_onoff rc false s).trace = s.trace ++
        ((if s.dev.sleep_pin ≠ 0 then [Event.gpio_set_value s.dev.sleep_pin 0] else []) ++
          [Event.gpio_set_value s.dev.ldo_pin 0])) ∧
    (s.dev.ldo_pin = 0 → s.dev.regulator_3p3 = true →
      (vfsspi_regulator_onoff rc true s).trace = s.trace ++
        (Event.regulator_enable ::
          (if rc = 0 ∧ s.dev.sleep_pin ≠ 0 then
            [Event.usleep_range 1000 1050, Event.gpio_set_value s.dev.sleep_pin 1]
           else [])) ∧
      (vfsspi_regulator_onoff rc false s).trace = s.trace ++
        ((if s.dev.sleep_pin ≠ 0 then [Event.gpio_set_value s.dev.sleep_pin 0] else []) ++
          [Event.regulator_disable])) := by
  constructor
  · intro hl
    by_cases hsl : s.dev.sleep_pin = 0 <;>
      simp [vfsspi_regulator_onoff, gpio_set_value, usleep_range, emit, hl, hsl]
  · intro hl hr
    by_cases hsl : s.dev.sleep_pin = 0 <;> by_cases hrc : rc = 0 <;>
      simp [vfsspi_regulator_onoff, gpio_set_value, usleep_range, emit, hl, hr, hsl, hrc]

/-- C16 at sample inputs: the sample device (LDO pin 22, sleep line 21) and
the regulator sample (no LDO pin, sleep line 21). -/
theorem C16_regulator_onoff_order_witness :
    sampleSys.dev.ldo_pin ≠ 0 ∧
    (vfsspi_regulator_onoff 0 true sampleSys).trace =
      [Event.gpio_set_value 22 1, Event.usleep_range 1000 1050, Event.gpio_set_value 21 1] ∧
    (vfsspi_regulator_onoff 0 false sampleSys).trace =
      [Event.gpio_set_value 21 0, Event.gpio_set_value 22 0] ∧
    sampleRegulator.dev.ldo_pin = 0 ∧ sampleRegulator.dev.regulator_3p3 = true ∧
    (vfsspi_regulator_onoff 0 true sampleRegulator).trace =
      [Event.regulator_enable, Event.usleep_range 1000 1050, Event.gpio_set_value 21 1] ∧
    (vfsspi_regulator_onoff 0 false sampleRegulator).trace =
      [Event.gpio_set_value 21 0, Event.regulator_disable] :=
  ⟨by decide,
   ((C16_regulator_onoff_order 0 sampleSys).1 (by decide)).1,
   ((C16_regulator_onoff_order 0 sampleSys).1 (by decide)).2,
   rfl, rfl,
   ((C16_regulator_onoff_order 0 sampleRegulator).2 rfl rfl).1,
   ((C16_regulator_onoff_order 0 sampleRegulator).2 rfl rfl).2⟩

/-- C17 fails as stated: on the powered regulator sample, whose sleep-enable
line 21 is high, a power-down whose regulator_disable fails leaves the power
flag on but the sleep-enable line low. -/
theorem C17_counterexample :
    sampleRegulator.dev.ldo_pin = 0 ∧ sampleRegulator.dev.regulator_3p3 = true ∧
    (vfsspi_regulator_onoff (-5) false sampleRegulator).trace =
      [Event.gpio_set_value 21 0, Event.regulator_disable] ∧
    (vfsspi_regulator_onoff (-5) false sampleRegulator).dev.ldo_onoff
      = sampleRegulator.dev.ldo_onoff ∧
    gpio_get_value sampleRegulator.dev.sleep_pin sampleRegulator = 1 ∧
    gpio_get_value sampleRegulator.dev.sleep_pin
      (vfsspi_regulator_onoff (-5) false sampleRegulator) = 0 := by
  decide

/-- C17 as amended: in the regulator-handle configuration, when
regulator_enable or regulator_disable reports failure vfsspi_regulator_onoff
leaves the device, and the power flag ldo_onoff with it, as it was. After a
failed regulator_enable the line levels are unchanged too: the only call made
is regulator_enable. Before a failed regulator_disable the sleep-enable line,
when it exists, was already driven low, so its level is 0 after the call
whatever it was before. -/
theorem C17_regulator_failure (rc : Int) (s : Sys) (hrc : rc ≠ 0)
    (hl : s.dev.ldo_pin = 0) (hr : s.dev.regulator_3p3 = true) :
    vfsspi_regulator_onoff rc true s
      = { s with trace := s.trace ++ [Event.regulator_enable] } ∧
    (vfsspi_regulator_onoff rc false s).dev = s.dev ∧
    (s.dev.sleep_pin = 0 →
      vfsspi_regulator_onoff rc false s
        = { s with trace := s.trace ++ [Event.regulator_disable] }) ∧
    (s.dev.sleep_pin ≠ 0 →
      vfsspi_regulator_onoff rc false s
        = { s with
              trace := s.trace ++
                [Event.gpio_set_value s.dev.sleep_pin 0, Event.regulator_disable],
              gpio_out := (s.dev.sleep_pin, 0) :: s.gpio_out } ∧
      gpio_get_value s.dev.sleep_pin (vfsspi_regulator_onoff rc false s) = 0) := by
  refine ⟨?_, ?_, ?_, ?_⟩
  · simp [vfsspi_regulator_onoff, emit, hrc, hl, hr]
  · by_cases hsl : s.dev.sleep_pin = 0 <;>
      simp [vfsspi_regulator_onoff, gpio_set_value, emit, hrc, hl, hr, hsl]
  · intro hsl
    simp [vfsspi_regulator_onoff, emit, hrc, hl, hr, hsl]
  · intro hsl
    simp [vfsspi_regulator_onoff, gpio_set_value, gpio_get_value, emit, hrc, hl, hr, hsl,
      List.lookup]

/-- C17 as amended, at a sample input: the powered regulator sample, both
regulator calls failing with -5. -/
theorem C17_regulator_failure_witness :
    (-5 : Int) ≠ 0 ∧ sampleRegulator.dev.ldo_pin = 0 ∧
    sampleRegulator.dev.regulator_3p3 = true ∧
    vfsspi_regulator_onoff (-5) true sampleRegulator
      = { sampleRegulator with trace := sampleRegulator.trace ++ [Event.regulator_enable] } ∧
    (vfsspi_regulator_onoff (-5) false sampleRegulator).dev = sampleRegulator.dev :=
  ⟨by decide, rfl, rfl,
   (C17_regulator_failure (-5) sampleRegulator (by decide) rfl rfl).1,
   (C17_regulator_failure (-5) sampleRegulator (by decide) rfl rfl).2.1⟩

/-- C18: on a device with a sleep line vfsspi_hard_reset, when the line reads
1 on entry, drives it low, waits at least 5000 microseconds, drives it high
and waits at least 10000 microseconds; when the line does not read 1 it only
drives it high and waits at least 10000 microseconds. Either way the line
reads 1 at the end. With no sleep line, or a NULL device, it does nothing.
It never changes the device (interrupt state, power flag and speed with it),
cnt_irq or the mask depth. -/
theorem C18_hard_reset (dev_null : Bool) (s : Sys) :
    (dev_null = true ∨ s.dev.sleep_pin = 0 → vfsspi_hard_reset dev_null s = s) ∧
    (s.dev.sleep_pin ≠ 0 → gpio_get_value s.dev.sleep_pin s = 1 →
      vfsspi_hard_reset false s =
        { s with
            trace := s.trace ++
              [Event.gpio_set_value s.dev.sleep_pin 0, Event.usleep_range 5000 5050,
               Event.gpio_set_value s.dev.sleep_pin 1, Event.usleep_range 10000 10050],
            gpio_out := (s.dev.sleep_pin, 1) :: (s.dev.sleep_pin, 0) :: s.gpio_out }) ∧
    (s.dev.sleep_pin ≠ 0 → gpio_get_value s.dev.sleep_pin s ≠ 1 →
      vfsspi_hard_reset false s =
        { s with
            trace := s.trace ++
              [Event.gpio_set_value s.dev.sleep_pin 1, Event.usleep_range 10000 10050],
            gpio_out := (s.dev.sleep_pin, 1) :: s.gpio_out }) ∧
    (s.dev.sleep_pin ≠ 0 →
      gpio_get_value s.dev.sleep_pin (vfsspi_hard_reset false s) = 1) ∧
    (vfsspi_hard_reset dev_null s).dev = s.dev ∧
    (vfsspi_hard_reset dev_null s).cnt_irq = s.cnt_irq ∧
    (vfsspi_hard_reset dev_null s).irq_depth = s.irq_depth := by
  have hhigh : s.dev.sleep_pin ≠ 0 → gpio_get_value s.dev.sleep_pin s = 1 →
      vfsspi_hard_reset false s =
        { s with
            trace := s.trace ++
              [Event.gpio_set_value s.dev.sleep_pin 0, Event.usleep_range 5000 5050,
               Event.gpio_set_value s.dev.sleep_pin 1, Event.usleep_range 10000 10050],
            gpio_out := (s.dev.sleep_pin, 1) :: (s.dev.sleep_pin, 0) :: s.gpio_out } := by
    intro hsl hlev
    simp [vfsspi_hard_reset, gpio_set_value, usleep_range, emit, hsl, hlev]
  have hlow : s.dev.sleep_pin ≠ 0 → gpio_get_value s.dev.sleep_pin s ≠ 1 →
      vfsspi_hard_reset false s =
        { s with
            trace := s.trace ++
              [Event.gpio_set_value s.dev.sleep_pin 1, Event.usleep_range 10000 10050],
            gpio_out := (s.dev.sleep_pin, 1) :: s.gpio_out } := by
    intro hsl hlev
    simp [vfsspi_hard_reset, gpio_set_value, usleep_range, emit, hsl, hlev]
  refine ⟨?_, hhigh, hlow, ?_, ?_⟩
  · rintro (h | h)
    · simp [vfsspi_hard_reset, h]
    · cases dev_null <;> simp [vfsspi_hard_reset, h]
  · intro hsl
    by_cases hlev : gpio_get_value s.dev.sleep_pin s = 1
    · rw [hhigh hsl hlev]
      simp [gpio_get_value, List.lookup]
    · rw [hlow hsl hlev]
      simp [gpio_get_value, List.lookup]
  · cases dev_null <;> by_cases hsl : s.dev.sleep_pin = 0 <;>
      by_cases hlev : gpio_get_value s.dev.sleep_pin s = 1 <;>
      simp [vfsspi_hard_reset, gpio_set_value, usleep_range, emit, hsl, hlev]

/-- C18 at sample inputs: the regulator sample, whose sleep line 21 is high,
and the sample device, whose sleep line 21 was never driven. -/
theorem C18_hard_reset_witness :
    sampleRegulator.dev.sleep_pin ≠ 0 ∧
    gpio_get_value sampleRegulator.dev.sleep_pin sampleRegulator = 1 ∧
    (vfsspi_hard_reset false sampleRegulator).trace =
      [Event.gpio_set_value 21 0, Event.usleep_range 5000 5050,
       Event.gpio_set_value 21 1, Event.usleep_range 10000 10050] ∧
    gpio_get_value sampleSys.dev.sleep_pin sampleSys ≠ 1 ∧
    (vfsspi_hard_reset false sampleSys).trace =
      [Event.gpio_set_value 21 1, Event.usleep_range 10000 10050] ∧
    vfsspi_hard_reset true sampleSys = sampleSys :=
  ⟨by decide, by decide,
   congrArg Sys.trace ((C18_hard_reset false sampleRegulator).2.1 (by decide) (by decide)),
   by decide,
   congrArg Sys.trace ((C18_hard_reset false sampleSys).2.2.1 (by decide) (by decide)),
   (C18_hard_reset true sampleSys).1 (Or.inl rfl)⟩

/-- C19: a command code whose type field is not VFSSPI_IOCTL_MAGIC makes
vfsspi_ioctl return -ENOTTY with the whole system state as it was, the control
lock not taken; a code with the right type field that equals none of the case
labels of the build makes it return -EFAULT having only taken and released
the control lock. In both cases the device is unchanged and no bus, line,
regulator or signal call is made. -/
theorem C19_ioctl_bad_command (k : Consts) (secure : Bool) (a : Answers) (cmd : Nat) (s : Sys) :
    (_IOC_TYPE cmd ≠ k.VFSSPI_IOCTL_MAGIC → vfsspi_ioctl k secure a cmd s = (-ENOTTY, s)) ∧
    (_IOC_TYPE cmd = k.VFSSPI_IOCTL_MAGIC → cmd ∉ case_labels k secure →
      vfsspi_ioctl k secure a cmd s =
        (-EFAULT,
         { s with trace := s.trace ++
             [Event.lock Lock.buffer_mutex, Event.unlock Lock.buffer_mutex] }) ∧
      hardware_calls (vfsspi_ioctl k secure a cmd s).2.trace = hardware_calls s.trace) := by
  constructor
  · intro h
    simp [vfsspi_ioctl, h]
  · intro hm hl
    have hd : decode k secure cmd = Cmd.unknown := by
      cases secure <;> simp_all [case_labels, decode]
    have he : vfsspi_ioctl k secure a cmd s =
        (-EFAULT,
         { s with trace := s.trace ++
             [Event.lock Lock.buffer_mutex, Event.unlock Lock.buffer_mutex] }) := by
      simp [vfsspi_ioctl, ioctl_case, emit, hm, hd]
    refine ⟨he, ?_⟩
    rw [he]
    simp [hardware_calls, List.filter_append]

/-- C19 at sample inputs: the code 5, whose type field is 0, and the code
27499, whose type field is the magic 107 and which is no case label. -/
theorem C19_ioctl_bad_command_witness :
    _IOC_TYPE 5 ≠ sampleConsts.VFSSPI_IOCTL_MAGIC ∧
    vfsspi_ioctl sampleConsts false (sampleAnswers 0) 5 sampleSys = (-ENOTTY, sampleSys) ∧
    _IOC_TYPE 27499 = sampleConsts.VFSSPI_IOCTL_MAGIC ∧
    27499 ∉ case_labels sampleConsts false ∧
    vfsspi_ioctl sampleConsts false (sampleAnswers 0) 27499 sampleSys =
      (-EFAULT,
       { sampleSys with trace := sampleSys.trace ++
           [Event.lock Lock.buffer_mutex, Event.unlock Lock.buffer_mutex] }) :=
  ⟨by decide,
   (C19_ioctl_bad_command sampleConsts false (sampleAnswers 0) 5 sampleSys).1 (by decide),
   by decide, by decide,
   ((C19_ioctl_bad_command sampleConsts false (sampleAnswers 0) 27499 sampleSys).2
      (by decide) (by decide)).1⟩

/-- C20: when the copy-in of the argument does not fully succeed, vfsspi_ioctl
returns -EFAULT for a code of the case SET_CLK, REGISTER_DRDY_SIGNAL,
SET_DRDY_INT or POWER_CONTROL having only taken the control lock, attempted
the copy and released the lock; and for a code of the case RW_SPI_MESSAGE
(whose request copy was allocated) having also allocated and freed that copy.
So the device (bus speed, notification target, interrupt state and power flag
with it) is unchanged, and no bus, line, regulator or signal call is made. -/
theorem C20_ioctl_copy_in_fault (k : Consts) (secure : Bool) (a : Answers) (cmd : Nat)
    (s : Sys) (hmagic : _IOC_TYPE cmd = k.VFSSPI_IOCTL_MAGIC) (hmiss : a.missing ≠ 0) :
    (decode k secure cmd = Cmd.SET_CLK ∨ decode k secure cmd = Cmd.REGISTER_DRDY_SIGNAL ∨
      decode k secure cmd = Cmd.SET_DRDY_INT ∨ decode k secure cmd = Cmd.POWER_CONTROL →
      vfsspi_ioctl k secure a cmd s =
        (-EFAULT,
         { s with trace := s.trace ++
             [Event.lock Lock.buffer_mutex, Event.copy_from_user a.missing,
              Event.unlock Lock.buffer_mutex] })) ∧
    (decode k secure cmd = Cmd.RW_SPI_MESSAGE → a.kmalloc_null = false →
      vfsspi_ioctl k secure a cmd s =
        (-EFAULT,
         { s with trace := s.trace ++
             [Event.lock Lock.buffer_mutex, Event.kmalloc, Event.copy_from_user a.missing,
              Event.kfree, Event.unlock Lock.buffer_mutex] })) ∧
    (decode k secure cmd = Cmd.SET_CLK ∨ decode k secure cmd = Cmd.REGISTER_DRDY_SIGNAL ∨
      decode k secure cmd = Cmd.SET_DRDY_INT ∨ decode k secure cmd = Cmd.POWER_CONTROL ∨
      (decode k secure cmd = Cmd.RW_SPI_MESSAGE ∧ a.kmalloc_null = false) →
      (vfsspi_ioctl k secure a cmd s).1 = -EFAULT ∧
      (vfsspi_ioctl k secure a cmd s).2.dev = s.dev ∧
      hardware_calls (vfsspi_ioctl k secure a cmd s).2.trace = hardware_calls s.trace ∧
      (vfsspi_ioctl k secure a cmd s).2.trace.getLast?
        = some (Event.unlock Lock.buffer_mutex)) := by
  have h4 : decode k secure cmd = Cmd.SET_CLK ∨ decode k secure cmd = Cmd.REGISTER_DRDY_SIGNAL ∨
      decode k secure cmd = Cmd.SET_DRDY_INT ∨ decode k secure cmd = Cmd.POWER_CONTROL →
      vfsspi_ioctl k secure a cmd s =
        (-EFAULT,
         { s with trace := s.trace ++
             [Event.lock Lock.buffer_mutex, Event.copy_from_user a.missing,
              Event.unlock Lock.buffer_mutex] }) := by
    rintro (hd | hd | hd | hd) <;>
      simp [vfsspi_ioctl, ioctl_case, vfsspi_set_clk, vfsspi_register_drdy_signal,
        vfsspi_set_drdy_int, emit, hmagic, hmiss, hd]
  have h1 : decode k secure cmd = Cmd.RW_SPI_MESSAGE → a.kmalloc_null = false →
      vfsspi_ioctl k secure a cmd s =
        (-EFAULT,
         { s with trace := s.trace ++
             [Event.lock Lock.buffer_mutex, Event.kmalloc, Event.copy_from_user a.missing,
              Event.kfree, Event.unlock Lock.buffer_mutex] }) := by
    intro hd hk
    simp [vfsspi_ioctl, ioctl_case, vfsspi_rw_spi_message, emit, hmagic, hmiss, hd, hk]
  refine ⟨h4, h1, ?_⟩
  rintro (hd | hd | hd | hd | ⟨hd, hk⟩)
  · rw [h4 (Or.inl hd)]
    simp [hardware_calls, List.filter_append]
  · rw [h4 (Or.inr (Or.inl hd))]
    simp [hardware_calls, List.filter_append]
  · rw [h4 (Or.inr (Or.inr (Or.inl hd)))]
    simp [hardware_calls, List.filter_append]
  · rw [h4 (Or.inr (Or.inr (Or.inr hd)))]
    simp [hardware_calls, List.filter_append]
  · rw [h1 hd hk]
    simp [hardware_calls, List.filter_append]

/-- C20 at sample inputs: the sample device, a copy-in that leaves 1 byte
missing, for the codes of SET_CLK (27395) and of RW_SPI_MESSAGE (27393). -/
theorem C20_ioctl_copy_in_fault_witness :
    _IOC_TYPE 27395 = sampleConsts.VFSSPI_IOCTL_MAGIC ∧ (sampleAnswers 1).missing ≠ 0 ∧
    decode sampleConsts false 27395 = Cmd.SET_CLK ∧
    vfsspi_ioctl sampleConsts false (sampleAnswers 1) 27395 sampleSys =
      (-EFAULT,
       { sampleSys with trace := sampleSys.trace ++
           [Event.lock Lock.buffer_mutex, Event.copy_from_user 1,
            Event.unlock Lock.buffer_mutex] }) ∧
    decode sampleConsts false 27393 = Cmd.RW_SPI_MESSAGE ∧
    vfsspi_ioctl sampleConsts false (sampleAnswers 1) 27393 sampleSys =
      (-EFAULT,
       { sampleSys with trace := sampleSys.trace ++
           [Event.lock Lock.buffer_mutex, Event.kmalloc, Event.copy_from_user 1,
            Event.kfree, Event.unlock Lock.buffer_mutex] }) :=
  ⟨by decide, by decide, by decide,
   (C20_ioctl_copy_in_fault sampleConsts false (sampleAnswers 1) 27395 sampleSys
      (by decide) (by decide)).1 (Or.inl (by decide)),
   by decide,
   (C20_ioctl_copy_in_fault sampleConsts false (sampleAnswers 1) 27393 sampleSys
      (by decide) (by decide)).2.1 (by decide) rfl⟩

/-- C28: whenever the copy-in succeeds vfsspi_set_drdy_int returns 0, for
every device state, flag, pin-mux answer, line level and signal result, and
so does the command SET_DRDY_INT of vfsspi_ioctl. The -EINVAL that
vfsspi_enable_irq returns on an interrupt already enabled, and
vfsspi_disable_irq on one already disabled, is dropped, and so is the error
of a signal delivery that fails in the path that finds the line active. -/
theorem C28_set_drdy_int_returns_zero (k : Consts) (secure : Bool) (a : Answers) (cmd : Nat)
    (flag : Nat) (pin_status drdy_level sig_ret : Int) (s : Sys) :
    (vfsspi_set_drdy_int k 0 flag pin_status drdy_level sig_ret s).1 = 0 ∧
    (_IOC_TYPE cmd = k.VFSSPI_IOCTL_MAGIC → decode k secure cmd = Cmd.SET_DRDY_INT →
      a.missing = 0 → (vfsspi_ioctl k secure a cmd s).1 = 0) ∧
    (s.dev.irq_enabled = k.DRDY_IRQ_ENABLE →
      (vfsspi_enable_irq k pin_status (emit (Event.copy_from_user 0) s)).1 = -EINVAL) ∧
    (s.dev.irq_enabled = k.DRDY_IRQ_DISABLE →
      (vfsspi_disable_irq k pin_status (emit (Event.copy_from_user 0) s)).1 = -EINVAL) ∧
    (s.dev.t ≠ none →
      (vfsspi_send_drdy_signal sig_ret
        (vfsspi_enable_irq k pin_status (emit (Event.copy_from_user 0) s)).2).1 = sig_ret) := by
  have h1 : ∀ (m : Nat) (f : Nat) (p l r : Int) (x : Sys), m = 0 →
      (vfsspi_set_drdy_int k m f p l r x).1 = 0 := by
    intro m f p l r x hm
    subst hm
    unfold vfsspi_set_drdy_int
    by_cases hf : f = 0
    · simp [hf]
    · by_cases hl : l = k.DRDY_ACTIVE_STATUS <;> simp [hf, hl]
  refine ⟨h1 0 flag pin_status drdy_level sig_ret s rfl, ?_, ?_, ?_, ?_⟩
  · intro hm hc ha
    simp only [vfsspi_ioctl, hm, hc, ioctl_case, ne_eq, not_true_eq_false, if_false]
    exact h1 _ _ _ _ _ _ ha
  · intro he
    simp [vfsspi_enable_irq, emit, he]
  · intro hd
    simp [vfsspi_disable_irq, emit, hd]
  · intro ht
    have hdev : (vfsspi_enable_irq k pin_status (emit (Event.copy_from_user 0) s)).2.dev.t
        = s.dev.t := by
      unfold vfsspi_enable_irq vfsspi_pin_control pinctrl_select_state enable_irq emit
      by_cases he : s.dev.irq_enabled = k.DRDY_IRQ_ENABLE
      · simp [he]
      · cases hp : s.dev.pins_idle <;> by_cases hs : pin_status = 0 <;> simp [he, hp, hs]
    unfold vfsspi_send_drdy_signal
    rw [hdev]
    cases htt : s.dev.t with
    | none => exact absurd htt ht
    | some task => simp

/-- C30: over a loopback bus, with both copies succeeding and an open session
(both scratch buffers allocated), vfsspi_xfer called with non-NULL outbound
and inbound pointers, a length L with 0 < L <= DEFAULT_BUFFER_SIZE and
outbound bytes b of length L returns 0, leaves the request's len equal to L,
hands exactly b to the caller's inbound destination, and issues one
transaction, carrying b, at the device's current_spi_speed. -/
theorem C30_xfer_loopback (k : Consts) (L : Nat) (b buf nb : List Nat) (rx tx : Nat) (s : Sys)
    (hL : 0 < L) (hmax : L ≤ k.DEFAULT_BUFFER_SIZE) (hb : b.length = L)
    (hbuf : s.dev.buffer = some buf) (hnb : s.dev.null_buffer = some nb) :
    let x := vfsspi_xfer k loopback b 0 0 false
      (some { rx_buffer := some rx, tx_buffer := some tx, len := L }) s
    x.status = 0 ∧
    x.tr = some { rx_buffer := some rx, tx_buffer := some tx, len := L } ∧
    x.user = b ∧
    x.sys.trace = s.trace ++
      [Event.copy_from_user 0, Event.spi_sync b L s.dev.current_spi_speed,
       Event.copy_to_user 0] := by
  subst hb
  have hr1 : ¬ k.DEFAULT_BUFFER_SIZE < b.length := by omega
  have hr2 : ¬ b = [] := by
    intro h
    rw [h] at hL
    simp at hL
  simp [vfsspi_xfer, hr1, hr2, hbuf, hnb, emit, loopback, copy_from_user, copy_to_user,
    buf_bytes, rx_store, store]

/-- C30 at a concrete input: two bytes over the loopback bus on the sample
session. -/
theorem C30_xfer_loopback_witness :
    (vfsspi_xfer sampleConsts loopback [5, 6] 0 0 false
      (some { rx_buffer := some 1, tx_buffer := some 2, len := 2 }) sampleSys).status = 0 ∧
    (vfsspi_xfer sampleConsts loopback [5, 6] 0 0 false
      (some { rx_buffer := some 1, tx_buffer := some 2, len := 2 }) sampleSys).user = [5, 6] :=
  have h := C30_xfer_loopback sampleConsts 2 [5, 6] [0, 0, 0, 0] [0, 0, 0, 0] 1 2 sampleSys
    (by decide) (by decide) rfl rfl rfl
  ⟨h.1, h.2.2.1⟩

/-- The retry loop entered as the source enters it (7 rounds allowed, no
attempt made yet) makes n attempts with 1 <= n <= 7: every attempt before the
last failed, it stops early only on a success, it returns the last result, and
it adds the calls of n attempts to the trace and changes nothing else. -/
theorem cpu_speedup_retry_run (k : Consts) (freq : Nat → Int) (s : Sys) :
    ∃ n, 1 ≤ n ∧ n ≤ 7 ∧
      (∀ i, i + 1 < n → freq i ≠ 0) ∧
      (n < 7 → freq (n - 1) = 0) ∧
      cpu_speedup_retry k freq 7 0 s =
        (freq (n - 1),
         { s with trace := s.trace ++ attempt_calls k s.dev.min_cpufreq_limit n }) := by
  by_cases h0 : freq 0 = 0
  · refine ⟨1, by norm_num, by norm_num, ?_, fun _ => h0, ?_⟩
    · intro i hi
      omega
    · simp [cpu_speedup_retry, emit, usleep_range, attempt_calls, h0]
  by_cases h1 : freq 1 = 0
  · refine ⟨2, by norm_num, by norm_num, ?_, fun _ => h1, ?_⟩
    · intro i hi
      have hi2 : i = 0 := by omega
      subst hi2
      exact h0
    · simp [cpu_speedup_retry, emit, usleep_range, attempt_calls, h0, h1]
  by_cases h2 : freq 2 = 0
  · refine ⟨3, by norm_num, by norm_num, ?_, fun _ => h2, ?_⟩
    · intro i hi
      have hi2 : i < 2 := by omega
      interval_cases i <;> assumption
    · simp [cpu_speedup_retry, emit, usleep_range, attempt_calls, h0, h1, h2]
  by_cases h3 : freq 3 = 0
  · refine ⟨4, by norm_num, by norm_num, ?_, fun _ => h3, ?_⟩
    · intro i hi
      have hi2 : i < 3 := by omega
      interval_cases i <;> assumption
    · simp [cpu_speedup_retry, emit, usleep_range, attempt_calls, h0, h1, h2, h3]
  by_cases h4 : freq 4 = 0
  · refine ⟨5, by norm_num, by norm_num, ?_, fun _ => h4, ?_⟩
    · intro i hi
      have hi2 : i < 4 := by omega
      interval_cases i <;> assumption
    · simp [cpu_speedup_retry, emit, usleep_range, attempt_calls, h0, h1, h2, h3, h4]
  by_cases h5 : freq 5 = 0
  · refine ⟨6, by norm_num, by norm_num, ?_, fun _ => h5, ?_⟩
    · intro i hi
      have hi2 : i < 5 := by omega
      interval_cases i <;> assumption
    · simp [cpu_speedup_retry, emit, usleep_range, attempt_calls, h0, h1, h2, h3, h4, h5]
  refine ⟨7, by norm_num, by norm_num, ?_, fun h => absurd h (by norm_num), ?_⟩
  · intro i hi
    have hi2 : i < 6 := by omega
    interval_cases i <;> assumption
  · simp [cpu_speedup_retry, emit, usleep_range, attempt_calls, h0, h1, h2, h3, h4, h5]

/-- C25: the command CPU_SPEEDUP with onoff 1 and a non-zero
min_cpufreq_limit, whatever results set_freq_limit returns: the call returns
after n calls of set_freq_limit with 1 <= n <= 7, every attempt before the
last one failed, the loop stops before the 7th attempt only on a success,
there is one sleep between two attempts and none after the last one (the trace
is attempt_calls n between the copy-in and the release of the lock), the value
returned is the result of the last attempt, and it is 0 exactly when one of
the first 7 attempts succeeds. -/
theorem C25_cpu_speedup_retry (k : Consts) (secure : Bool) (a : Answers) (cmd : Nat) (s : Sys)
    (hmagic : _IOC_TYPE cmd = k.VFSSPI_IOCTL_MAGIC)
    (hcmd : decode k secure cmd = Cmd.CPU_SPEEDUP)
    (hcopy : a.missing = 0) (hon : a.arg % 4294967296 = 1)
    (hlim : s.dev.min_cpufreq_limit ≠ 0) :
    ∃ n, 1 ≤ n ∧ n ≤ 7 ∧
      (∀ i, i + 1 < n → a.freq i ≠ 0) ∧
      (n < 7 → a.freq (n - 1) = 0) ∧
      (vfsspi_ioctl k secure a cmd s).1 = a.freq (n - 1) ∧
      (vfsspi_ioctl k secure a cmd s).2.trace =
        s.trace ++ [Event.lock Lock.buffer_mutex, Event.copy_from_user 0] ++
          attempt_calls k s.dev.min_cpufreq_limit n ++ [Event.unlock Lock.buffer_mutex] ∧
      ((vfsspi_ioctl k secure a cmd s).1 = 0 ↔ ∃ i, i < 7 ∧ a.freq i = 0) := by
  have hio : vfsspi_ioctl k secure a cmd s =
      ((cpu_speedup_retry k a.freq 7 0
          (emit (Event.copy_from_user 0) (emit (Event.lock Lock.buffer_mutex) s))).1,
       emit (Event.unlock Lock.buffer_mutex)
        (cpu_speedup_retry k a.freq 7 0
          (emit (Event.copy_from_user 0) (emit (Event.lock Lock.buffer_mutex) s))).2) := by
    have hl : (emit (Event.copy_from_user 0) (emit (Event.lock Lock.buffer_mutex) s)).dev.min_cpufreq_limit ≠ 0 := hlim
    simp only [vfsspi_ioctl, hmagic, hcmd, ioctl_case, hcopy, ne_eq, not_true_eq_false,
      if_false, hl, not_false_eq_true, if_true]
    have h2 : a.arg % 2 ^ 32 = 1 := by
      norm_num
      exact hon
    simp only [h2, if_true]
  obtain ⟨n, h1, h7, hfail, hstop, hrun⟩ := cpu_speedup_retry_run k a.freq
    (emit (Event.copy_from_user 0) (emit (Event.lock Lock.buffer_mutex) s))
  rw [hio, hrun]
  refine ⟨n, h1, h7, hfail, hstop, rfl, ?_, ?_⟩
  · simp [emit]
  · constructor
    · intro h
      exact ⟨n - 1, by omega, h⟩
    · rintro ⟨i, hi, hz⟩
      by_cases hn : n < 7
      · exact hstop hn
      · have hn7 : n = 7 := by omega
        subst hn7
        by_cases hi6 : i = 6
        · subst hi6
          exact hz
        · exact absurd hz (hfail i (by omega))

/-- C25 at a concrete input: set_freq_limit fails twice and then succeeds;
the call makes three attempts with two sleeps and returns 0. -/
theorem C25_cpu_speedup_retry_witness :
    ∃ n, 1 ≤ n ∧ n ≤ 7 ∧
      (∀ i, i + 1 < n → (if i < 2 then (-1 : Int) else 0) ≠ 0) ∧
      (n < 7 → (if n - 1 < 2 then (-1 : Int) else 0) = 0) ∧
      (vfsspi_ioctl sampleConsts true
        { sampleAnswers 0 with freq := fun i => if i < 2 then -1 else 0 } 27411
        { sampleSys with dev := { sampleDev with min_cpufreq_limit := 1000000 } }).1 =
          (if n - 1 < 2 then (-1 : Int) else 0) ∧
      (vfsspi_ioctl sampleConsts true
        { sampleAnswers 0 with freq := fun i => if i < 2 then -1 else 0 } 27411
        { sampleSys with dev := { sampleDev with min_cpufreq_limit := 1000000 } }).2.trace =
        [] ++ [Event.lock Lock.buffer_mutex, Event.copy_from_user 0] ++
          attempt_calls sampleConsts (1000000 : Nat) n ++ [Event.unlock Lock.buffer_mutex] ∧
      ((vfsspi_ioctl sampleConsts true
        { sampleAnswers 0 with freq := fun i => if i < 2 then -1 else 0 } 27411
        { sampleSys with dev := { sampleDev with min_cpufreq_limit := 1000000 } }).1 = 0 ↔
        ∃ i, i < 7 ∧ (if i < 2 then (-1 : Int) else 0) = 0) :=
  C25_cpu_speedup_retry sampleConsts true
    { sampleAnswers 0 with freq := fun i => if i < 2 then -1 else 0 } 27411
    { sampleSys with dev := { sampleDev with min_cpufreq_limit := 1000000 } }
    (by decide) (by decide) rfl (by decide) (by decide)

/-- The function vfsspi_xfer allocates and frees nothing: the counts of
kmalloc and kfree in the trace stay as they were. -/
theorem vfsspi_xfer_no_alloc (k : Consts) (bus : Bus) (user_tx : List Nat)
    (missing_in missing_out : Nat) (dev_null : Bool) (tr : Option vfsspi_ioctl_transfer)
    (s : Sys) :
    kmallocs (vfsspi_xfer k bus user_tx missing_in missing_out dev_null tr s).sys.trace
      = kmallocs s.trace ∧
    kfrees (vfsspi_xfer k bus user_tx missing_in missing_out dev_null tr s).sys.trace
      = kfrees s.trace := by
  unfold vfsspi_xfer kmallocs kfrees
  cases tr with
  | none => simp
  | some q =>
    cases htx : q.tx_buffer <;> cases hrx : q.rx_buffer <;> simp only [htx, hrx] <;>
      split_ifs <;> simp [emit, List.count_append, List.count_cons]

/-- C29: what vfsspi_rw_spi_message does with the request copy it allocated
(kmalloc succeeded). One allocation is made on every path. The copy is freed
once when the descriptor copy-in fails (-EFAULT), when vfsspi_xfer returns an
error (that error is returned) and on success (0). When the copy of the
descriptor back to the caller fails, the function returns -EFAULT and no
kfree is called: one more allocation is outstanding after the call than
before it. -/
theorem C29_rw_spi_message_release (k : Consts) (a : Answers) (s : Sys)
    (halloc : a.kmalloc_null = false) :
    kmallocs (vfsspi_rw_spi_message k a s).2.trace = kmallocs s.trace + 1 ∧
    (a.missing ≠ 0 →
      (vfsspi_rw_spi_message k a s).1 = -EFAULT ∧
      kfrees (vfsspi_rw_spi_message k a s).2.trace = kfrees s.trace + 1) ∧
    (a.missing = 0 →
      (vfsspi_xfer k a.bus a.user_tx a.xfer_missing_in a.xfer_missing_out false
        (some a.transfer)
        (emit (Event.copy_from_user a.missing) (emit Event.kmalloc s))).status ≠ 0 →
      (vfsspi_rw_spi_message k a s).1 =
        (vfsspi_xfer k a.bus a.user_tx a.xfer_missing_in a.xfer_missing_out false
          (some a.transfer)
          (emit (Event.copy_from_user a.missing) (emit Event.kmalloc s))).status ∧
      kfrees (vfsspi_rw_spi_message k a s).2.trace = kfrees s.trace + 1) ∧
    (a.missing = 0 →
      (vfsspi_xfer k a.bus a.user_tx a.xfer_missing_in a.xfer_missing_out false
        (some a.transfer)
        (emit (Event.copy_from_user a.missing) (emit Event.kmalloc s))).status = 0 →
      a.missing_back = 0 →
      (vfsspi_rw_spi_message k a s).1 = 0 ∧
      kfrees (vfsspi_rw_spi_message k a s).2.trace = kfrees s.trace + 1) ∧
    (a.missing = 0 →
      (vfsspi_xfer k a.bus a.user_tx a.xfer_missing_in a.xfer_missing_out false
        (some a.transfer)
        (emit (Event.copy_from_user a.missing) (emit Event.kmalloc s))).status = 0 →
      a.missing_back ≠ 0 →
      (vfsspi_rw_spi_message k a s).1 = -EFAULT ∧
      kfrees (vfsspi_rw_spi_message k a s).2.trace = kfrees s.trace) := by
  have hx := vfsspi_xfer_no_alloc k a.bus a.user_tx a.xfer_missing_in a.xfer_missing_out false
    (some a.transfer) (emit (Event.copy_from_user a.missing) (emit Event.kmalloc s))
  have hm0 : kmallocs (emit (Event.copy_from_user a.missing) (emit Event.kmalloc s)).trace
      = kmallocs s.trace + 1 := by
    simp [kmallocs, emit, List.count_append, List.count_cons]
  have hf0 : kfrees (emit (Event.copy_from_user a.missing) (emit Event.kmalloc s)).trace
      = kfrees s.trace := by
    simp [kfrees, emit, List.count_append, List.count_cons]
  have hmx := hx.1.trans hm0
  have hfx := hx.2.trans hf0
  have hme : ∀ (e : Event) (x : Sys), e ≠ Event.kmalloc →
      kmallocs (emit e x).trace = kmallocs x.trace := by
    intro e x he
    simp [kmallocs, emit, List.count_append, List.count_cons, he]
  have hfe : ∀ (e : Event) (x : Sys), e ≠ Event.kfree →
      kfrees (emit e x).trace = kfrees x.trace := by
    intro e x he
    simp [kfrees, emit, List.count_append, List.count_cons, he]
  have hff : ∀ (x : Sys), kfrees (emit Event.kfree x).trace = kfrees x.trace + 1 := by
    intro x
    simp [kfrees, emit, List.count_append, List.count_cons]
  refine ⟨?_, ?_, ?_, ?_, ?_⟩
  · by_cases hm : a.missing = 0
    · rw [hm] at hmx
      by_cases hs : (vfsspi_xfer k a.bus a.user_tx a.xfer_missing_in a.xfer_missing_out false
          (some a.transfer)
          (emit (Event.copy_from_user 0) (emit Event.kmalloc s))).status = 0
      · by_cases hb : a.missing_back = 0 <;>
          simp [vfsspi_rw_spi_message, halloc, hm, hs, hb, hme, hmx]
      · simp [vfsspi_rw_spi_message, halloc, hm, hs, hme, hmx]
    · simp [vfsspi_rw_spi_message, halloc, hm, hme]
      simp [kmallocs, emit, List.count_append, List.count_cons]
  · intro hm
    simp [vfsspi_rw_spi_message, halloc, hm, hff, hfe]
  · intro hm hs
    rw [hm] at hs hfx
    simp [vfsspi_rw_spi_message, halloc, hm, hs, hff, hfx]
  · intro hm hs hb
    rw [hm] at hs hfx
    simp [vfsspi_rw_spi_message, halloc, hm, hs, hb, hff, hfe, hfx]
  · intro hm hs hb
    rw [hm] at hs hfx
    simp [vfsspi_rw_spi_message, halloc, hm, hs, hb, hfe, hfx]

/-- C29 at the failing input: on the sample session the descriptor is copied
in, the transfer succeeds and the copy of the descriptor back to the caller
fails; the call returns -EFAULT with one kmalloc and no kfree in its trace. -/
theorem C29_rw_spi_message_release_witness :
    (vfsspi_rw_spi_message sampleConsts { sampleAnswers 0 with missing_back := 1 }
      sampleSys).1 = -EFAULT ∧
    kmallocs (vfsspi_rw_spi_message sampleConsts { sampleAnswers 0 with missing_back := 1 }
      sampleSys).2.trace = 1 ∧
    kfrees (vfsspi_rw_spi_message sampleConsts { sampleAnswers 0 with missing_back := 1 }
      sampleSys).2.trace = 0 :=
  have h := C29_rw_spi_message_release sampleConsts { sampleAnswers 0 with missing_back := 1 }
    sampleSys rfl
  ⟨(h.2.2.2.2 rfl (by decide) (by decide)).1, h.1, (h.2.2.2.2 rfl (by decide) (by decide)).2⟩

/-- C21 fails as stated: the raw read-write transfer on the sample session,
with the copy-out of the inbound data leaving 1 of the 2 bytes uncopied and
every other copy succeeding. The command returns 0, a success after a partial
copy. -/
theorem C21_counterexample :
    (vfsspi_ioctl sampleConsts false { sampleAnswers 0 with xfer_missing_out := 1 } 27393
      sampleSys).1 = 0 ∧
    Event.copy_to_user 1 ∈
      (vfsspi_ioctl sampleConsts false { sampleAnswers 0 with xfer_missing_out := 1 } 27393
        sampleSys).2.trace := by
  decide

/-- C21 as amended: a copy that does not fully succeed makes the command return
a fault for every copy the control surface makes but one. The copy-in of the
argument of SET_CLK, REGISTER_DRDY_SIGNAL, SET_DRDY_INT, POWER_CONTROL,
CPU_SPEEDUP, SET_SENSOR_TYPE and SET_LOCKSCREEN, the copy-out of
GET_SENSOR_ORIENT, and in the raw read-write transfer the copy-in of the
descriptor and the copy-in of the outbound bytes give -EFAULT; a failed copy
of the descriptor back to the caller gives a non-zero result. The exception is
the copy-out of the inbound data of the raw read-write transfer: when it is
partial and the other copies and the transaction succeed, the command returns
0. -/
theorem C21_partial_copy_faults (k : Consts) (secure : Bool) (a : Answers) (cmd : Nat)
    (s : Sys) (hmagic : _IOC_TYPE cmd = k.VFSSPI_IOCTL_MAGIC) :
    (a.missing ≠ 0 →
      decode k secure cmd = Cmd.SET_CLK ∨ decode k secure cmd = Cmd.REGISTER_DRDY_SIGNAL ∨
      decode k secure cmd = Cmd.SET_DRDY_INT ∨ decode k secure cmd = Cmd.POWER_CONTROL ∨
      decode k secure cmd = Cmd.CPU_SPEEDUP ∨ decode k secure cmd = Cmd.SET_SENSOR_TYPE ∨
      decode k secure cmd = Cmd.SET_LOCKSCREEN →
      (vfsspi_ioctl k secure a cmd s).1 = -EFAULT) ∧
    (a.missing_back ≠ 0 → decode k secure cmd = Cmd.GET_SENSOR_ORIENT →
      (vfsspi_ioctl k secure a cmd s).1 = -EFAULT) ∧
    (decode k secure cmd = Cmd.RW_SPI_MESSAGE → a.kmalloc_null = false →
      (a.missing ≠ 0 → (vfsspi_ioctl k secure a cmd s).1 = -EFAULT) ∧
      (a.missing = 0 → 0 < a.transfer.len → a.transfer.len ≤ k.DEFAULT_BUFFER_SIZE →
        a.transfer.tx_buffer ≠ none → a.xfer_missing_in ≠ 0 →
        (vfsspi_ioctl k secure a cmd s).1 = -EFAULT) ∧
      (a.missing = 0 → a.missing_back ≠ 0 → (vfsspi_ioctl k secure a cmd s).1 ≠ 0) ∧
      (a.missing = 0 → 0 < a.transfer.len → a.transfer.len ≤ k.DEFAULT_BUFFER_SIZE →
        (a.transfer.tx_buffer = none ∨ a.xfer_missing_in = 0) →
        (∀ tx speed, (a.bus tx speed).status = 0) →
        a.transfer.rx_buffer ≠ none → a.xfer_missing_out ≠ 0 → a.missing_back = 0 →
        (vfsspi_ioctl k secure a cmd s).1 = 0)) := by
  refine ⟨?_, ?_, ?_⟩
  · intro hmiss
    rintro (hd | hd | hd | hd | hd | hd | hd) <;>
      simp [vfsspi_ioctl, ioctl_case, vfsspi_set_clk, vfsspi_register_drdy_signal,
        vfsspi_set_drdy_int, emit, hmagic, hmiss, hd]
  · intro hb hd
    simp [vfsspi_ioctl, ioctl_case, emit, hmagic, hb, hd]
  · intro hd hk
    have hr1 : 0 < a.transfer.len → a.transfer.len ≤ k.DEFAULT_BUFFER_SIZE →
        ¬ (a.transfer.len > k.DEFAULT_BUFFER_SIZE ∨ a.transfer.len = 0) := by
      intro h1 h2 h
      omega
    refine ⟨?_, ?_, ?_, ?_⟩
    · intro hmiss
      simp [vfsspi_ioctl, ioctl_case, vfsspi_rw_spi_message, emit, hmagic, hmiss, hd, hk]
    · intro hm h0 hmax htx hin
      have hr := hr1 h0 hmax
      cases htb : a.transfer.tx_buffer with
      | none => exact absurd htb htx
      | some p =>
        simp [vfsspi_ioctl, ioctl_case, vfsspi_rw_spi_message, vfsspi_xfer, emit, hmagic, hd,
          hk, hm, hr, htb, hin, EFAULT]
    · intro hm hb
      simp only [vfsspi_ioctl, hmagic, hd, ioctl_case, vfsspi_rw_spi_message, hk, hm, ne_eq,
        not_true_eq_false, if_false, if_true, Bool.false_eq_true]
      split_ifs with hs
      · simp [hb, EFAULT]
      · exact hs
    · intro hm h0 hmax htx hbus hrx hout hb
      have hr := hr1 h0 hmax
      cases hrb : a.transfer.rx_buffer with
      | none => exact absurd hrb hrx
      | some p =>
        rcases htx with htn | hin
        · simp [vfsspi_ioctl, ioctl_case, vfsspi_rw_spi_message, vfsspi_xfer, emit, hmagic,
            hd, hk, hm, hr, hrb, htn, hbus, hb]
        · cases htb : a.transfer.tx_buffer <;>
            simp [vfsspi_ioctl, ioctl_case, vfsspi_rw_spi_message, vfsspi_xfer, emit, hmagic,
              hd, hk, hm, hr, hrb, htb, hin, hbus, hb]

/-- C21 as amended, at a concrete input: the code of GET_SENSOR_ORIENT (27410) with a
copy-out that leaves 1 byte uncopied returns -EFAULT. -/
theorem C21_partial_copy_faults_witness :
    (vfsspi_ioctl sampleConsts false { sampleAnswers 0 with missing_back := 1 } 27410
      sampleSys).1 = -EFAULT :=
  (C21_partial_copy_faults sampleConsts false { sampleAnswers 0 with missing_back := 1 } 27410
    sampleSys (by decide)).2.1 (by decide) (by decide)

/-! ### Invariants of the interrupt operations -/

/-- The calls of enable_irq in two traces put together add up. -/
theorem unmasks_append (a b : List Event) : unmasks (a ++ b) = unmasks a + unmasks b := by
  simp [unmasks, List.count_append]

/-- One more call counts as an unmask exactly when it is enable_irq. -/
theorem unmasks_cons (e : Event) (l : List Event) :
    unmasks (e :: l) = unmasks l + (if e = Event.enable_irq then 1 else 0) := by
  simp [unmasks, List.count_cons]

/-- An empty trace holds no call of enable_irq. -/
theorem unmasks_nil : unmasks [] = 0 := rfl

/-- The signals sent in two traces put together add up. -/
theorem signals_sent_append (a b : List Event) :
    signals_sent (a ++ b) = signals_sent a + signals_sent b := by
  simp [signals_sent, List.countP_append]

/-- One more call counts as a signal exactly when it is send_sig_info. -/
theorem signals_sent_cons (e : Event) (l : List Event) :
    signals_sent (e :: l) = signals_sent l +
      (match e with
        | Event.send_sig_info _ _ => 1
        | _ => 0) := by
  cases e <;> simp [signals_sent, List.countP_cons]

/-- An empty trace holds no signal. -/
theorem signals_sent_nil : signals_sent [] = 0 := rfl

/-- The function vfsspi_pin_control leaves the interrupt flag as it is. -/
theorem vfsspi_pin_control_irq_enabled (pin_status : Int) (pin_set : Bool) (s : Sys) :
    (vfsspi_pin_control pin_status pin_set s).dev.irq_enabled = s.dev.irq_enabled := by
  unfold vfsspi_pin_control pinctrl_select_state emit
  cases pin_set <;> cases hi : s.dev.pins_idle <;> cases hs : s.dev.pins_sleep <;>
    by_cases hp : pin_status = 0 <;> simp [hi, hs, hp]

/-- The function vfsspi_pin_control leaves the looked-up idle state as it is. -/
theorem vfsspi_pin_control_pins_idle (pin_status : Int) (pin_set : Bool) (s : Sys) :
    (vfsspi_pin_control pin_status pin_set s).dev.pins_idle = s.dev.pins_idle := by
  unfold vfsspi_pin_control pinctrl_select_state emit
  cases pin_set <;> cases hi : s.dev.pins_idle <;> cases hs : s.dev.pins_sleep <;>
    by_cases hp : pin_status = 0 <;> simp [hi, hs, hp]

/-- The function vfsspi_pin_control leaves the looked-up sleep state as it
is. -/
theorem vfsspi_pin_control_pins_sleep (pin_status : Int) (pin_set : Bool) (s : Sys) :
    (vfsspi_pin_control pin_status pin_set s).dev.pins_sleep = s.dev.pins_sleep := by
  unfold vfsspi_pin_control pinctrl_select_state emit
  cases pin_set <;> cases hi : s.dev.pins_idle <;> cases hs : s.dev.pins_sleep <;>
    by_cases hp : pin_status = 0 <;> simp [hi, hs, hp]

/-- The function vfsspi_pin_control leaves the notification target as it is. -/
theorem vfsspi_pin_control_t (pin_status : Int) (pin_set : Bool) (s : Sys) :
    (vfsspi_pin_control pin_status pin_set s).dev.t = s.dev.t := by
  unfold vfsspi_pin_control pinctrl_select_state emit
  cases pin_set <;> cases hi : s.dev.pins_idle <;> cases hs : s.dev.pins_sleep <;>
    by_cases hp : pin_status = 0 <;> simp [hi, hs, hp]

/-- The function vfsspi_pin_control leaves the mask depth as it is. -/
theorem vfsspi_pin_control_irq_depth (pin_status : Int) (pin_set : Bool) (s : Sys) :
    (vfsspi_pin_control pin_status pin_set s).irq_depth = s.irq_depth := by
  unfold vfsspi_pin_control pinctrl_select_state emit
  cases pin_set <;> cases hi : s.dev.pins_idle <;> cases hs : s.dev.pins_sleep <;>
    by_cases hp : pin_status = 0 <;> simp [hi, hs, hp]

/-- The function vfsspi_pin_control leaves the counter cnt_irq as it is. -/
theorem vfsspi_pin_control_cnt_irq (pin_status : Int) (pin_set : Bool) (s : Sys) :
    (vfsspi_pin_control pin_status pin_set s).cnt_irq = s.cnt_irq := by
  unfold vfsspi_pin_control pinctrl_select_state emit
  cases pin_set <;> cases hi : s.dev.pins_idle <;> cases hs : s.dev.pins_sleep <;>
    by_cases hp : pin_status = 0 <;> simp [hi, hs, hp]

/-- The function vfsspi_pin_control never calls enable_irq. -/
theorem vfsspi_pin_control_unmasks (pin_status : Int) (pin_set : Bool) (s : Sys) :
    unmasks (vfsspi_pin_control pin_status pin_set s).trace = unmasks s.trace := by
  unfold vfsspi_pin_control pinctrl_select_state emit
  cases pin_set <;> cases hi : s.dev.pins_idle <;> cases hs : s.dev.pins_sleep <;>
    by_cases hp : pin_status = 0 <;>
    simp [hi, hs, hp, unmasks_append, unmasks_cons, unmasks_nil]

/-- The function vfsspi_pin_control never sends a signal. -/
theorem vfsspi_pin_control_signals (pin_status : Int) (pin_set : Bool) (s : Sys) :
    signals_sent (vfsspi_pin_control pin_status pin_set s).trace = signals_sent s.trace := by
  unfold vfsspi_pin_control pinctrl_select_state emit
  cases pin_set <;> cases hi : s.dev.pins_idle <;> cases hs : s.dev.pins_sleep <;>
    by_cases hp : pin_status = 0 <;>
    simp [hi, hs, hp, signals_sent_append, signals_sent_cons, signals_sent_nil]

/-- With both pin states found and a selection that succeeds,
vfsspi_pin_control selects idle for true and sleep for false. -/
theorem vfsspi_pin_control_selects (pin_set : Bool) (s : Sys)
    (hi : s.dev.pins_idle = pin_ptr.ok PinState.idle)
    (hs : s.dev.pins_sleep = pin_ptr.ok PinState.sleep) :
    (vfsspi_pin_control 0 pin_set s).dev.p_state =
      some (if pin_set then PinState.idle else PinState.sleep) := by
  unfold vfsspi_pin_control pinctrl_select_state emit
  cases pin_set <;> simp [hi, hs]

/-- The function vfsspi_send_drdy_signal changes only the trace. -/
theorem vfsspi_send_drdy_signal_dev (sig_ret : Int) (s : Sys) :
    (vfsspi_send_drdy_signal sig_ret s).2.dev = s.dev ∧
    (vfsspi_send_drdy_signal sig_ret s).2.irq_depth = s.irq_depth ∧
    (vfsspi_send_drdy_signal sig_ret s).2.cnt_irq = s.cnt_irq := by
  unfold vfsspi_send_drdy_signal emit
  cases s.dev.t <;> simp

/-- The function vfsspi_send_drdy_signal never calls enable_irq, and sends one
signal when a target is registered and none otherwise. -/
theorem vfsspi_send_drdy_signal_calls (sig_ret : Int) (s : Sys) :
    unmasks (vfsspi_send_drdy_signal sig_ret s).2.trace = unmasks s.trace ∧
    signals_sent (vfsspi_send_drdy_signal sig_ret s).2.trace =
      signals_sent s.trace + (if s.dev.t = none then 0 else 1) := by
  unfold vfsspi_send_drdy_signal emit
  cases s.dev.t <;>
    simp [unmasks_append, unmasks_cons, unmasks_nil, signals_sent_append, signals_sent_cons,
      signals_sent_nil]

/-- What vfsspi_enable_irq does to the bookkeeping: nothing on an interrupt
already enabled; otherwise the flag is set, the counter goes up by one, the
mask depth goes down by one and enable_irq is called once. It keeps the
notification target and sends no signal. -/
theorem vfsspi_enable_irq_effect (k : Consts) (pin_status : Int) (s : Sys) :
    (vfsspi_enable_irq k pin_status s).2.dev.pins_idle = s.dev.pins_idle ∧
    (vfsspi_enable_irq k pin_status s).2.dev.pins_sleep = s.dev.pins_sleep ∧
    (vfsspi_enable_irq k pin_status s).2.dev.t = s.dev.t ∧
    signals_sent (vfsspi_enable_irq k pin_status s).2.trace = signals_sent s.trace ∧
    (s.dev.irq_enabled = k.DRDY_IRQ_ENABLE →
      (vfsspi_enable_irq k pin_status s).2.dev.irq_enabled = s.dev.irq_enabled ∧
      (vfsspi_enable_irq k pin_status s).2.dev.p_state = s.dev.p_state ∧
      (vfsspi_enable_irq k pin_status s).2.irq_depth = s.irq_depth ∧
      (vfsspi_enable_irq k pin_status s).2.cnt_irq = s.cnt_irq ∧
      unmasks (vfsspi_enable_irq k pin_status s).2.trace = unmasks s.trace) ∧
    (s.dev.irq_enabled ≠ k.DRDY_IRQ_ENABLE →
      (vfsspi_enable_irq k pin_status s).2.dev.irq_enabled = k.DRDY_IRQ_ENABLE ∧
      (pin_status = 0 → s.dev.pins_idle = pin_ptr.ok PinState.idle →
        s.dev.pins_sleep = pin_ptr.ok PinState.sleep →
        (vfsspi_enable_irq k pin_status s).2.dev.p_state = some PinState.idle) ∧
      (vfsspi_enable_irq k pin_status s).2.irq_depth = s.irq_depth - 1 ∧
      (vfsspi_enable_irq k pin_status s).2.cnt_irq = s.cnt_irq + 1 ∧
      unmasks (vfsspi_enable_irq k pin_status s).2.trace = unmasks s.trace + 1) := by
  by_cases he : s.dev.irq_enabled = k.DRDY_IRQ_ENABLE
  · simp [vfsspi_enable_irq, emit, he, unmasks_append, unmasks_cons, unmasks_nil,
      signals_sent_append, signals_sent_cons, signals_sent_nil]
  · refine ⟨?_, ?_, ?_, ?_, fun h => absurd h he, fun _ => ⟨?_, ?_, ?_, ?_, ?_⟩⟩
    · simp [vfsspi_enable_irq, emit, he, enable_irq, vfsspi_pin_control_pins_idle]
    · simp [vfsspi_enable_irq, emit, he, enable_irq, vfsspi_pin_control_pins_sleep]
    · simp [vfsspi_enable_irq, emit, he, enable_irq, vfsspi_pin_control_t]
    · simp [vfsspi_enable_irq, emit, he, enable_irq, vfsspi_pin_control_signals,
        signals_sent_append, signals_sent_cons, signals_sent_nil]
    · simp [vfsspi_enable_irq, emit, he, enable_irq]
    · intro hp hi hs
      subst hp
      have hsel := vfsspi_pin_control_selects true (emit (Event.lock Lock.irq_lock) s) hi hs
      simpa [vfsspi_enable_irq, emit, he, enable_irq] using hsel
    · simp [vfsspi_enable_irq, emit, he, enable_irq, vfsspi_pin_control_irq_depth]
    · simp [vfsspi_enable_irq, emit, he, enable_irq, vfsspi_pin_control_cnt_irq]
    · simp [vfsspi_enable_irq, emit, he, enable_irq, vfsspi_pin_control_unmasks,
        unmasks_append, unmasks_cons, unmasks_nil]

/-- What vfsspi_disable_irq does to the bookkeeping: nothing on an interrupt
already disabled; otherwise the flag is cleared, the counter goes down by one
and the mask depth goes up by one. It never calls enable_irq, keeps the
notification target and sends no signal. -/
theorem vfsspi_disable_irq_effect (k : Consts) (pin_status : Int) (s : Sys) :
    (vfsspi_disable_irq k pin_status s).2.dev.pins_idle = s.dev.pins_idle ∧
    (vfsspi_disable_irq k pin_status s).2.dev.pins_sleep = s.dev.pins_sleep ∧
    (vfsspi_disable_irq k pin_status s).2.dev.t = s.dev.t ∧
    signals_sent (vfsspi_disable_irq k pin_status s).2.trace = signals_sent s.trace ∧
    unmasks (vfsspi_disable_irq k pin_status s).2.trace = unmasks s.trace ∧
    (s.dev.irq_enabled = k.DRDY_IRQ_DISABLE →
      (vfsspi_disable_irq k pin_status s).2.dev.irq_enabled = s.dev.irq_enabled ∧
      (vfsspi_disable_irq k pin_status s).2.dev.p_state = s.dev.p_state ∧
      (vfsspi_disable_irq k pin_status s).2.irq_depth = s.irq_depth ∧
      (vfsspi_disable_irq k pin_status s).2.cnt_irq = s.cnt_irq) ∧
    (s.dev.irq_enabled ≠ k.DRDY_IRQ_DISABLE →
      (vfsspi_disable_irq k pin_status s).2.dev.irq_enabled = k.DRDY_IRQ_DISABLE ∧
      (pin_status = 0 → s.dev.pins_idle = pin_ptr.ok PinState.idle →
        s.dev.pins_sleep = pin_ptr.ok PinState.sleep →
        (vfsspi_disable_irq k pin_status s).2.dev.p_state = some PinState.sleep) ∧
      (vfsspi_disable_irq k pin_status s).2.irq_depth = s.irq_depth + 1 ∧
      (vfsspi_disable_irq k pin_status s).2.cnt_irq = s.cnt_irq - 1) := by
  by_cases he : s.dev.irq_enabled = k.DRDY_IRQ_DISABLE
  · simp [vfsspi_disable_irq, emit, he, unmasks_append, unmasks_cons, unmasks_nil,
      signals_sent_append, signals_sent_cons, signals_sent_nil]
  · refine ⟨?_, ?_, ?_, ?_, ?_, fun h => absurd h he, fun _ => ⟨?_, ?_, ?_, ?_⟩⟩
    · simp [vfsspi_disable_irq, emit, he, disable_irq_nosync, vfsspi_pin_control_pins_idle]
    · simp [vfsspi_disable_irq, emit, he, disable_irq_nosync, vfsspi_pin_control_pins_sleep]
    · simp [vfsspi_disable_irq, emit, he, disable_irq_nosync, vfsspi_pin_control_t]
    · simp [vfsspi_disable_irq, emit, he, disable_irq_nosync, vfsspi_pin_control_signals,
        signals_sent_append, signals_sent_cons, signals_sent_nil]
    · simp [vfsspi_disable_irq, emit, he, disable_irq_nosync, vfsspi_pin_control_unmasks,
        unmasks_append, unmasks_cons, unmasks_nil]
    · simp [vfsspi_disable_irq, emit, he, disable_irq_nosync, vfsspi_pin_control_irq_enabled]
    · intro hp hi hs
      subst hp
      simp only [vfsspi_disable_irq, emit, he, disable_irq_nosync, if_false]
      exact vfsspi_pin_control_selects false _ hi hs
    · simp [vfsspi_disable_irq, emit, he, disable_irq_nosync, vfsspi_pin_control_irq_depth]
    · simp [vfsspi_disable_irq, emit, he, disable_irq_nosync, vfsspi_pin_control_cnt_irq]

/-- What the handler vfsspi_irq does to the bookkeeping: nothing when the line
is not active or the interrupt is not enabled; otherwise the flag is cleared,
the counter goes down by one, the mask depth goes up by one, and one signal is
sent when a target is registered. It never calls enable_irq and keeps the
notification target. -/
theorem vfsspi_irq_effect (k : Consts) (drdy_level pin_status sig_ret : Int) (s : Sys) :
    (vfsspi_irq k drdy_level pin_status sig_ret s).2.dev.pins_idle = s.dev.pins_idle ∧
    (vfsspi_irq k drdy_level pin_status sig_ret s).2.dev.pins_sleep = s.dev.pins_sleep ∧
    (vfsspi_irq k drdy_level pin_status sig_ret s).2.dev.t = s.dev.t ∧
    unmasks (vfsspi_irq k drdy_level pin_status sig_ret s).2.trace = unmasks s.trace ∧
    (¬ (drdy_level = k.DRDY_ACTIVE_STATUS ∧ s.dev.irq_enabled = k.DRDY_IRQ_ENABLE) →
      (vfsspi_irq k drdy_level pin_status sig_ret s).2.dev.irq_enabled = s.dev.irq_enabled ∧
      (vfsspi_irq k drdy_level pin_status sig_ret s).2.dev.p_state = s.dev.p_state ∧
      (vfsspi_irq k drdy_level pin_status sig_ret s).2.irq_depth = s.irq_depth ∧
      (vfsspi_irq k drdy_level pin_status sig_ret s).2.cnt_irq = s.cnt_irq ∧
      signals_sent (vfsspi_irq k drdy_level pin_status sig_ret s).2.trace
        = signals_sent s.trace) ∧
    (drdy_level = k.DRDY_ACTIVE_STATUS ∧ s.dev.irq_enabled = k.DRDY_IRQ_ENABLE →
      (vfsspi_irq k drdy_level pin_status sig_ret s).2.dev.irq_enabled = k.DRDY_IRQ_DISABLE ∧
      (pin_status = 0 → s.dev.pins_idle = pin_ptr.ok PinState.idle →
        s.dev.pins_sleep = pin_ptr.ok PinState.sleep →
        (vfsspi_irq k drdy_level pin_status sig_ret s).2.dev.p_state = some PinState.sleep) ∧
      (vfsspi_irq k drdy_level pin_status sig_ret s).2.irq_depth = s.irq_depth + 1 ∧
      (vfsspi_irq k drdy_level pin_status sig_ret s).2.cnt_irq = s.cnt_irq - 1 ∧
      signals_sent (vfsspi_irq k drdy_level pin_status sig_ret s).2.trace
        = signals_sent s.trace + (if s.dev.t = none then 0 else 1)) := by
  by_cases hl : drdy_level = k.DRDY_ACTIVE_STATUS
  · by_cases he : s.dev.irq_enabled = k.DRDY_IRQ_ENABLE
    · have hsd := fun x => vfsspi_send_drdy_signal_dev sig_ret x
      have hsc := fun x => vfsspi_send_drdy_signal_calls sig_ret x
      refine ⟨?_, ?_, ?_, ?_, fun h => absurd ⟨hl, he⟩ h, fun _ => ⟨?_, ?_, ?_, ?_, ?_⟩⟩
      · simp [vfsspi_irq, emit, hl, he, disable_irq_nosync, (hsd _).1,
          vfsspi_pin_control_pins_idle]
      · simp [vfsspi_irq, emit, hl, he, disable_irq_nosync, (hsd _).1,
          vfsspi_pin_control_pins_sleep]
      · simp [vfsspi_irq, emit, hl, he, disable_irq_nosync, (hsd _).1, vfsspi_pin_control_t]
      · simp [vfsspi_irq, emit, hl, he, disable_irq_nosync, (hsc _).1,
          vfsspi_pin_control_unmasks, unmasks_append, unmasks_cons, unmasks_nil]
      · simp [vfsspi_irq, emit, hl, he, disable_irq_nosync, (hsd _).1,
          vfsspi_pin_control_irq_enabled]
      · intro hp hi hs
        subst hp
        simp only [vfsspi_irq, emit, hl, he, disable_irq_nosync, if_true, (hsd _).1]
        exact vfsspi_pin_control_selects false _ hi hs
      · simp [vfsspi_irq, emit, hl, he, disable_irq_nosync, (hsd _).2.1,
          vfsspi_pin_control_irq_depth]
      · simp [vfsspi_irq, emit, hl, he, disable_irq_nosync, (hsd _).2.2,
          vfsspi_pin_control_cnt_irq]
      · simp [vfsspi_irq, emit, hl, he, disable_irq_nosync, (hsc _).2,
          vfsspi_pin_control_signals, vfsspi_pin_control_t, signals_sent_append,
          signals_sent_cons, signals_sent_nil]
    · simp [vfsspi_irq, emit, hl, he, unmasks_append, unmasks_cons, unmasks_nil,
        signals_sent_append, signals_sent_cons, signals_sent_nil]
  · simp [vfsspi_irq, hl]

/-- The function vfsspi_enable_irq keeps the bookkeeping balanced, and calls
enable_irq only on a masked line. -/
theorem balanced_enable_irq (k : Consts) (hk : k.DRDY_IRQ_ENABLE ≠ k.DRDY_IRQ_DISABLE)
    (pin_status : Int) (s : Sys) (h : balanced k s) :
    balanced k (vfsspi_enable_irq k pin_status s).2 ∧
    (unmasks (vfsspi_enable_irq k pin_status s).2.trace ≠ unmasks s.trace → masked s) := by
  obtain ⟨_, _, _, _, hE, hD⟩ := vfsspi_enable_irq_effect k pin_status s
  rcases h with ⟨he, hd, hc⟩ | ⟨he, hd, hc⟩
  · obtain ⟨h1, _, h3, h4, h5⟩ := hE he
    refine ⟨Or.inl ⟨by rw [h1, he], by rw [h3, hd], by rw [h4, hc]⟩, fun hne => absurd h5 hne⟩
  · have hne : s.dev.irq_enabled ≠ k.DRDY_IRQ_ENABLE := by
      rw [he]
      exact fun h => hk h.symm
    obtain ⟨h1, _, h3, h4, _⟩ := hD hne
    refine ⟨Or.inl ⟨h1, by rw [h3, hd], by rw [h4, hc]; norm_num⟩, fun _ => ?_⟩
    unfold masked
    omega

/-- The function vfsspi_disable_irq keeps the bookkeeping balanced and never
calls enable_irq. -/
theorem balanced_disable_irq (k : Consts) (hk : k.DRDY_IRQ_ENABLE ≠ k.DRDY_IRQ_DISABLE)
    (pin_status : Int) (s : Sys) (h : balanced k s) :
    balanced k (vfsspi_disable_irq k pin_status s).2 ∧
    unmasks (vfsspi_disable_irq k pin_status s).2.trace = unmasks s.trace := by
  obtain ⟨_, _, _, _, hu, hD, hE⟩ := vfsspi_disable_irq_effect k pin_status s
  refine ⟨?_, hu⟩
  rcases h with ⟨he, hd, hc⟩ | ⟨he, hd, hc⟩
  · have hne : s.dev.irq_enabled ≠ k.DRDY_IRQ_DISABLE := by
      rw [he]
      exact hk
    obtain ⟨h1, _, h3, h4⟩ := hE hne
    exact Or.inr ⟨h1, by rw [h3, hd], by rw [h4, hc]; norm_num⟩
  · obtain ⟨h1, _, h3, h4⟩ := hD he
    exact Or.inr ⟨by rw [h1, he], by rw [h3, hd], by rw [h4, hc]⟩

/-- The handler vfsspi_irq keeps the bookkeeping balanced and never calls
enable_irq. -/
theorem balanced_irq (k : Consts) (hk : k.DRDY_IRQ_ENABLE ≠ k.DRDY_IRQ_DISABLE)
    (drdy_level pin_status sig_ret : Int) (s : Sys) (h : balanced k s) :
    balanced k (vfsspi_irq k drdy_level pin_status sig_ret s).2 ∧
    unmasks (vfsspi_irq k drdy_level pin_status sig_ret s).2.trace = unmasks s.trace := by
  obtain ⟨_, _, _, hu, hN, hA⟩ := vfsspi_irq_effect k drdy_level pin_status sig_ret s
  refine ⟨?_, hu⟩
  by_cases hact : drdy_level = k.DRDY_ACTIVE_STATUS ∧ s.dev.irq_enabled = k.DRDY_IRQ_ENABLE
  · obtain ⟨h1, _, h3, h4, _⟩ := hA hact
    rcases h with ⟨_, hd, hc⟩ | ⟨he, _, _⟩
    · exact Or.inr ⟨h1, by rw [h3, hd], by rw [h4, hc]; norm_num⟩
    · exact absurd (hact.2.symm.trans he) hk
  · obtain ⟨h1, _, h3, h4, _⟩ := hN hact
    rcases h with ⟨he, hd, hc⟩ | ⟨he, hd, hc⟩
    · exact Or.inl ⟨by rw [h1, he], by rw [h3, hd], by rw [h4, hc]⟩
    · exact Or.inr ⟨by rw [h1, he], by rw [h3, hd], by rw [h4, hc]⟩

/-- Every invocation keeps the bookkeeping balanced, and one that calls
enable_irq starts on a masked line. -/
theorem balanced_irq_step (k : Consts) (hk : k.DRDY_IRQ_ENABLE ≠ k.DRDY_IRQ_DISABLE)
    (c : IrqCall) (s : Sys) (h : balanced k s) :
    balanced k (irq_step k c s) ∧
    (unmasks (irq_step k c s).trace ≠ unmasks s.trace → masked s) := by
  cases c with
  | enable_irq p => exact balanced_enable_irq k hk p s h
  | disable_irq p =>
    exact ⟨(balanced_disable_irq k hk p s h).1,
      fun hne => absurd (balanced_disable_irq k hk p s h).2 hne⟩
  | irq l p r =>
    exact ⟨(balanced_irq k hk l p r s h).1, fun hne => absurd (balanced_irq k hk l p r s h).2 hne⟩
  | set_drdy_int m f p l r =>
    have h0 : balanced k (emit (Event.copy_from_user m) s) := h
    have hu0 : unmasks (emit (Event.copy_from_user m) s).trace = unmasks s.trace := by
      simp [emit, unmasks_append, unmasks_cons, unmasks_nil]
    have hm0 : masked (emit (Event.copy_from_user m) s) → masked s := fun x => x
    simp only [irq_step, vfsspi_set_drdy_int]
    by_cases hm : m = 0
    · by_cases hf : f = 0
      · simp only [hm, hf, ne_eq, not_true_eq_false, if_false, if_true]
        rw [hm] at h0 hu0
        refine ⟨(balanced_disable_irq k hk p _ h0).1, fun hne => ?_⟩
        rw [(balanced_disable_irq k hk p _ h0).2, hu0] at hne
        exact absurd rfl hne
      · have hen := balanced_enable_irq k hk p _ h0
        rw [hm] at hen hu0
        by_cases hl : l = k.DRDY_ACTIVE_STATUS
        · simp only [hm, hf, hl, ne_eq, not_true_eq_false, if_false, if_true]
          obtain ⟨hd1, hd2, hd3⟩ := vfsspi_send_drdy_signal_dev r
            (vfsspi_enable_irq k p (emit (Event.copy_from_user 0) s)).2
          have hc := (vfsspi_send_drdy_signal_calls r
            (vfsspi_enable_irq k p (emit (Event.copy_from_user 0) s)).2).1
          refine ⟨?_, fun hne => ?_⟩
          · unfold balanced
            rw [hd1, hd2, hd3]
            exact hen.1
          · rw [hc] at hne
            apply hen.2
            rw [hu0]
            exact hne
        · simp only [hm, hf, hl, ne_eq, not_true_eq_false, if_false]
          refine ⟨hen.1, fun hne => ?_⟩
          apply hen.2
          rw [hu0]
          exact hne
    · simp only [hm, ne_eq, not_false_eq_true, if_true]
      exact ⟨h0, fun hne => absurd hu0 hne⟩

/-- Every sequence of invocations keeps the bookkeeping balanced. -/
theorem balanced_irq_run (k : Consts) (hk : k.DRDY_IRQ_ENABLE ≠ k.DRDY_IRQ_DISABLE)
    (calls : List IrqCall) (s : Sys) (h : balanced k s) :
    balanced k (irq_run k calls s) := by
  induction calls generalizing s with
  | nil => exact h
  | cons c cs ih => exact ih (irq_step k c s) (balanced_irq_step k hk c s h).1

/-- With a selection that succeeds, vfsspi_enable_irq keeps the pin-mux state
coupled to the interrupt flag. -/
theorem coupled_enable_irq (k : Consts) (hk : k.DRDY_IRQ_ENABLE ≠ k.DRDY_IRQ_DISABLE)
    (s : Sys) (h : coupled k s) : coupled k (vfsspi_enable_irq k 0 s).2 := by
  obtain ⟨hi, hs, hc⟩ := h
  obtain ⟨e1, e2, _, _, hE, hD⟩ := vfsspi_enable_irq_effect k 0 s
  refine ⟨e1.trans hi, e2.trans hs, ?_⟩
  rcases hc with ⟨he, hp⟩ | ⟨he, _⟩
  · obtain ⟨h1, h2, _⟩ := hE he
    exact Or.inl ⟨h1.trans he, h2.trans hp⟩
  · have hne : s.dev.irq_enabled ≠ k.DRDY_IRQ_ENABLE := by
      rw [he]
      exact fun h => hk h.symm
    obtain ⟨h1, h2, _⟩ := hD hne
    exact Or.inl ⟨h1, h2 rfl hi hs⟩

/-- With a selection that succeeds, vfsspi_disable_irq keeps the pin-mux state
coupled to the interrupt flag. -/
theorem coupled_disable_irq (k : Consts) (hk : k.DRDY_IRQ_ENABLE ≠ k.DRDY_IRQ_DISABLE)
    (s : Sys) (h : coupled k s) : coupled k (vfsspi_disable_irq k 0 s).2 := by
  obtain ⟨hi, hs, hc⟩ := h
  obtain ⟨e1, e2, _, _, _, hD, hE⟩ := vfsspi_disable_irq_effect k 0 s
  refine ⟨e1.trans hi, e2.trans hs, ?_⟩
  rcases hc with ⟨he, _⟩ | ⟨he, hp⟩
  · have hne : s.dev.irq_enabled ≠ k.DRDY_IRQ_DISABLE := by
      rw [he]
      exact hk
    obtain ⟨h1, h2, _⟩ := hE hne
    exact Or.inr ⟨h1, h2 rfl hi hs⟩
  · obtain ⟨h1, h2, _⟩ := hD he
    exact Or.inr ⟨h1.trans he, h2.trans hp⟩

/-- With a selection that succeeds, the handler vfsspi_irq keeps the pin-mux
state coupled to the interrupt flag. -/
theorem coupled_irq (k : Consts) (drdy_level sig_ret : Int) (s : Sys) (h : coupled k s) :
    coupled k (vfsspi_irq k drdy_level 0 sig_ret s).2 := by
  obtain ⟨hi, hs, hc⟩ := h
  obtain ⟨e1, e2, _, _, hN, hA⟩ := vfsspi_irq_effect k drdy_level 0 sig_ret s
  refine ⟨e1.trans hi, e2.trans hs, ?_⟩
  by_cases hact : drdy_level = k.DRDY_ACTIVE_STATUS ∧ s.dev.irq_enabled = k.DRDY_IRQ_ENABLE
  · obtain ⟨h1, h2, _⟩ := hA hact
    exact Or.inr ⟨h1, h2 rfl hi hs⟩
  · obtain ⟨h1, h2, _⟩ := hN hact
    rcases hc with ⟨he, hp⟩ | ⟨he, hp⟩
    · exact Or.inl ⟨h1.trans he, h2.trans hp⟩
    · exact Or.inr ⟨h1.trans he, h2.trans hp⟩

/-- Every invocation in which the pin-mux selection succeeds keeps the pin-mux
state coupled to the interrupt flag. -/
theorem coupled_irq_step (k : Consts) (hk : k.DRDY_IRQ_ENABLE ≠ k.DRDY_IRQ_DISABLE)
    (c : IrqCall) (s : Sys) (hp : c.pin_status = 0) (h : coupled k s) :
    coupled k (irq_step k c s) := by
  cases c with
  | enable_irq p =>
    simp only [IrqCall.pin_status] at hp
    subst hp
    exact coupled_enable_irq k hk s h
  | disable_irq p =>
    simp only [IrqCall.pin_status] at hp
    subst hp
    exact coupled_disable_irq k hk s h
  | irq l p r =>
    simp only [IrqCall.pin_status] at hp
    subst hp
    exact coupled_irq k l r s h
  | set_drdy_int m f p l r =>
    simp only [IrqCall.pin_status] at hp
    subst hp
    have h0 : coupled k (emit (Event.copy_from_user m) s) := h
    simp only [irq_step, vfsspi_set_drdy_int]
    by_cases hm : m = 0
    · rw [hm] at h0
      by_cases hf : f = 0
      · simp only [hm, hf, ne_eq, not_true_eq_false, if_false, if_true]
        exact coupled_disable_irq k hk _ h0
      · have hen := coupled_enable_irq k hk _ h0
        by_cases hl : l = k.DRDY_ACTIVE_STATUS
        · simp only [hm, hf, hl, ne_eq, not_true_eq_false, if_false, if_true]
          unfold coupled
          rw [(vfsspi_send_drdy_signal_dev r
            (vfsspi_enable_irq k 0 (emit (Event.copy_from_user 0) s)).2).1]
          exact hen
        · simp only [hm, hf, hl, ne_eq, not_true_eq_false, if_false]
          exact hen
    · simp only [hm, ne_eq, not_false_eq_true, if_true]
      exact h0

/-- Every sequence of invocations in which the pin-mux selection succeeds
keeps the pin-mux state coupled to the interrupt flag. -/
theorem coupled_irq_run (k : Consts) (hk : k.DRDY_IRQ_ENABLE ≠ k.DRDY_IRQ_DISABLE)
    (calls : List IrqCall) (s : Sys) (hp : ∀ c ∈ calls, c.pin_status = 0)
    (h : coupled k s) : coupled k (irq_run k calls s) := by
  induction calls generalizing s with
  | nil => exact h
  | cons c cs ih =>
    exact ih (irq_step k c s) (fun x hx => hp x (List.mem_cons_of_mem c hx))
      (coupled_irq_step k hk c s (hp c (List.mem_cons_self c cs)) h)

/-- C22: from the state probe leaves (interrupt disabled, pins in the sleep
state, both pin states found), after any sequence of invocations of
vfsspi_enable_irq, vfsspi_disable_irq, vfsspi_set_drdy_int and vfsspi_irq in
which every pin-mux selection succeeds, the selected pin-mux state is idle
exactly when irq_enabled is DRDY_IRQ_ENABLE and sleep exactly when irq_enabled
is DRDY_IRQ_DISABLE. -/
theorem C22_pin_irq_coupling (k : Consts) (hk : k.DRDY_IRQ_ENABLE ≠ k.DRDY_IRQ_DISABLE)
    (calls : List IrqCall) (s0 : Sys)
    (hsel : ∀ c ∈ calls, c.pin_status = 0)
    (hdis : s0.dev.irq_enabled = k.DRDY_IRQ_DISABLE)
    (hsleep : s0.dev.p_state = some PinState.sleep)
    (hi : s0.dev.pins_idle = pin_ptr.ok PinState.idle)
    (hs : s0.dev.pins_sleep = pin_ptr.ok PinState.sleep) :
    ((irq_run k calls s0).dev.p_state = some PinState.idle ↔
      (irq_run k calls s0).dev.irq_enabled = k.DRDY_IRQ_ENABLE) ∧
    ((irq_run k calls s0).dev.p_state = some PinState.sleep ↔
      (irq_run k calls s0).dev.irq_enabled = k.DRDY_IRQ_DISABLE) := by
  have hc := coupled_irq_run k hk calls s0 hsel ⟨hi, hs, Or.inr ⟨hdis, hsleep⟩⟩
  obtain ⟨_, _, hc | hc⟩ := hc
  · obtain ⟨he, hp⟩ := hc
    rw [he, hp]
    constructor
    · simp
    · constructor
      · intro h
        simp at h
      · intro h
        exact absurd h hk
  · obtain ⟨he, hp⟩ := hc
    rw [he, hp]
    constructor
    · constructor
      · intro h
        simp at h
      · intro h
        exact absurd h.symm hk
    · simp

/-- C22 at a concrete input: the sample device after arming, a handler run on
the active line, a disable and a second arming. -/
theorem C22_pin_irq_coupling_witness :
    ((irq_run sampleConsts
        [IrqCall.set_drdy_int 0 1 0 0 0, IrqCall.irq 1 0 0, IrqCall.disable_irq 0,
         IrqCall.enable_irq 0] sampleSys).dev.p_state = some PinState.idle ↔
      (irq_run sampleConsts
        [IrqCall.set_drdy_int 0 1 0 0 0, IrqCall.irq 1 0 0, IrqCall.disable_irq 0,
         IrqCall.enable_irq 0] sampleSys).dev.irq_enabled = sampleConsts.DRDY_IRQ_ENABLE) ∧
    ((irq_run sampleConsts
        [IrqCall.set_drdy_int 0 1 0 0 0, IrqCall.irq 1 0 0, IrqCall.disable_irq 0,
         IrqCall.enable_irq 0] sampleSys).dev.p_state = some PinState.sleep ↔
      (irq_run sampleConsts
        [IrqCall.set_drdy_int 0 1 0 0 0, IrqCall.irq 1 0 0, IrqCall.disable_irq 0,
         IrqCall.enable_irq 0] sampleSys).dev.irq_enabled = sampleConsts.DRDY_IRQ_DISABLE) :=
  C22_pin_irq_coupling sampleConsts (by decide)
    [IrqCall.set_drdy_int 0 1 0 0 0, IrqCall.irq 1 0 0, IrqCall.disable_irq 0,
     IrqCall.enable_irq 0] sampleSys (by decide) rfl rfl rfl rfl

/-- C27: from the state probe leaves (irq_enabled equal to DRDY_IRQ_DISABLE,
the line masked once, cnt_irq 0), after any sequence of invocations of
vfsspi_enable_irq, vfsspi_disable_irq, vfsspi_set_drdy_int and vfsspi_irq,
with any answers: cnt_irq is 0 or 1, it is 1 exactly when irq_enabled is
DRDY_IRQ_ENABLE, the line is unmasked exactly when irq_enabled is
DRDY_IRQ_ENABLE, the mask depth is at most one, and a further invocation that
calls enable_irq finds the line masked. -/
theorem C27_irq_bookkeeping (k : Consts) (hk : k.DRDY_IRQ_ENABLE ≠ k.DRDY_IRQ_DISABLE)
    (calls : List IrqCall) (s0 : Sys)
    (hdis : s0.dev.irq_enabled = k.DRDY_IRQ_DISABLE)
    (hdepth : s0.irq_depth = 1) (hcnt : s0.cnt_irq = 0) :
    ((irq_run k calls s0).cnt_irq = 0 ∨ (irq_run k calls s0).cnt_irq = 1) ∧
    ((irq_run k calls s0).cnt_irq = 1 ↔
      (irq_run k calls s0).dev.irq_enabled = k.DRDY_IRQ_ENABLE) ∧
    (¬ masked (irq_run k calls s0) ↔
      (irq_run k calls s0).dev.irq_enabled = k.DRDY_IRQ_ENABLE) ∧
    (irq_run k calls s0).irq_depth ≤ 1 ∧
    (∀ c : IrqCall,
      unmasks (irq_step k c (irq_run k calls s0)).trace ≠ unmasks (irq_run k calls s0).trace →
      masked (irq_run k calls s0)) := by
  have hb := balanced_irq_run k hk calls s0 (Or.inr ⟨hdis, hdepth, hcnt⟩)
  refine ⟨?_, ?_, ?_, ?_, fun c => (balanced_irq_step k hk c _ hb).2⟩
  · rcases hb with ⟨_, _, hc⟩ | ⟨_, _, hc⟩
    · exact Or.inr hc
    · exact Or.inl hc
  · rcases hb with ⟨he, _, hc⟩ | ⟨he, _, hc⟩
    · simp [he, hc]
    · rw [he, hc]
      constructor
      · intro h
        norm_num at h
      · intro h
        exact absurd h.symm hk
  · unfold masked
    rcases hb with ⟨he, hd, _⟩ | ⟨he, hd, _⟩
    · simp [he, hd]
    · rw [he, hd]
      constructor
      · intro h
        norm_num at h
      · intro h
        exact absurd h.symm hk
  · rcases hb with ⟨_, hd, _⟩ | ⟨_, hd, _⟩ <;> omega

/-- C27 at a concrete input: the sample device after arming, a handler run on
the active line and two calls of vfsspi_enable_irq; the interrupt is enabled,
counted once and the line is unmasked. -/
theorem C27_irq_bookkeeping_witness :
    (irq_run sampleConsts
      [IrqCall.set_drdy_int 0 1 0 0 0, IrqCall.irq 1 5 0, IrqCall.enable_irq 5,
       IrqCall.enable_irq 0] sampleSys).cnt_irq = 1 ∧
    (irq_run sampleConsts
      [IrqCall.set_drdy_int 0 1 0 0 0, IrqCall.irq 1 5 0, IrqCall.enable_irq 5,
       IrqCall.enable_irq 0] sampleSys).irq_depth ≤ 1 :=
  have h := C27_irq_bookkeeping sampleConsts (by decide)
    [IrqCall.set_drdy_int 0 1 0 0 0, IrqCall.irq 1 5 0, IrqCall.enable_irq 5,
     IrqCall.enable_irq 0] sampleSys rfl rfl rfl
  ⟨h.2.1.2 (by decide), h.2.2.2.1⟩

/-- What any number of handler runs do to the signal count: the notification
target stays; from an interrupt that is not enabled no signal is sent; from
any state at most one signal is sent, and after a run that sent one the
interrupt is no longer enabled. -/
theorem handler_runs_effect (k : Consts) (hk : k.DRDY_IRQ_ENABLE ≠ k.DRDY_IRQ_DISABLE)
    (hs : List (Int × Int × Int)) (s : Sys) :
    (handler_runs k hs s).dev.t = s.dev.t ∧
    (s.dev.irq_enabled ≠ k.DRDY_IRQ_ENABLE →
      signals_sent (handler_runs k hs s).trace = signals_sent s.trace ∧
      (handler_runs k hs s).dev.irq_enabled ≠ k.DRDY_IRQ_ENABLE) ∧
    ((signals_sent (handler_runs k hs s).trace = signals_sent s.trace ∧
        (handler_runs k hs s).dev.irq_enabled = s.dev.irq_enabled) ∨
     (signals_sent (handler_runs k hs s).trace ≤ signals_sent s.trace + 1 ∧
        (handler_runs k hs s).dev.irq_enabled ≠ k.DRDY_IRQ_ENABLE)) := by
  induction hs generalizing s with
  | nil => exact ⟨rfl, fun h => ⟨rfl, h⟩, Or.inl ⟨rfl, rfl⟩⟩
  | cons h rest ih =>
    obtain ⟨_, _, ht, _, hN, hA⟩ := vfsspi_irq_effect k h.1 h.2.1 h.2.2 s
    obtain ⟨iht, ihd, ihg⟩ := ih (vfsspi_irq k h.1 h.2.1 h.2.2 s).2
    have hrun : handler_runs k (h :: rest) s
        = handler_runs k rest (vfsspi_irq k h.1 h.2.1 h.2.2 s).2 := rfl
    rw [hrun]
    by_cases hact : h.1 = k.DRDY_ACTIVE_STATUS ∧ s.dev.irq_enabled = k.DRDY_IRQ_ENABLE
    · obtain ⟨h1, _, _, _, h5⟩ := hA hact
      have hne : (vfsspi_irq k h.1 h.2.1 h.2.2 s).2.dev.irq_enabled ≠ k.DRDY_IRQ_ENABLE := by
        rw [h1]
        exact fun x => hk x.symm
      obtain ⟨g1, g2⟩ := ihd hne
      refine ⟨iht.trans ht, fun x => absurd hact.2 x, Or.inr ⟨?_, g2⟩⟩
      rw [g1, h5]
      split_ifs <;> omega
    · obtain ⟨h1, _, _, _, h5⟩ := hN hact
      refine ⟨iht.trans ht, fun x => ?_, ?_⟩
      · have hne : (vfsspi_irq k h.1 h.2.1 h.2.2 s).2.dev.irq_enabled ≠ k.DRDY_IRQ_ENABLE := by
          rw [h1]
          exact x
        obtain ⟨g1, g2⟩ := ihd hne
        exact ⟨g1.trans h5, g2⟩
      · rcases ihg with ⟨g1, g2⟩ | ⟨g1, g2⟩
        · exact Or.inl ⟨g1.trans h5, g2.trans h1⟩
        · exact Or.inr ⟨by rw [← h5]; exact g1, g2⟩

/-- C23 fails as stated: on the sample device (target registered, interrupt
disabled) the interrupt is armed through vfsspi_set_drdy_int, the handler runs
on the active line between the enable step and the re-read, and the re-read
finds the line active too. Two signals are sent for the one activation. -/
theorem C23_counterexample :
    signals_sent
      (set_drdy_int_reread sampleConsts 1 0
        (vfsspi_irq sampleConsts 1 0 0
          (set_drdy_int_enable_step sampleConsts 0 sampleSys)).2).trace = 2 := by
  decide

/-- C23 as amended: with a target registered and the interrupt disabled, arming
through vfsspi_set_drdy_int (which is its enable step followed by its re-read
of the line) gives one signal for one activation of the DRDY line when the
activation comes after the call (the re-read finds the line inactive, the
handler then finds it active; further handler runs add nothing) and when the
re-read finds the line active and no handler runs. When vfsspi_irq runs
between the enable step and the re-read and both find the line active, two
signals are sent: one by the handler and one by the re-read. Whatever handler
runs come between the two steps and after them, no more than two signals are
sent. -/
theorem C23_signals_per_activation (k : Consts)
    (hk : k.DRDY_IRQ_ENABLE ≠ k.DRDY_IRQ_DISABLE) (s : Sys) (task : Nat)
    (hdis : s.dev.irq_enabled = k.DRDY_IRQ_DISABLE) (ht : s.dev.t = some task) :
    (∀ (flag : Nat) (p l r : Int), flag ≠ 0 →
      vfsspi_set_drdy_int k 0 flag p l r s =
        (0, set_drdy_int_reread k l r (set_drdy_int_enable_step k p s))) ∧
    (∀ (p p1 r1 r : Int),
      signals_sent
        (set_drdy_int_reread k k.DRDY_ACTIVE_STATUS r
          (vfsspi_irq k k.DRDY_ACTIVE_STATUS p1 r1
            (set_drdy_int_enable_step k p s)).2).trace = signals_sent s.trace + 2) ∧
    (∀ (p l r p1 r1 : Int) (hs : List (Int × Int × Int)), l ≠ k.DRDY_ACTIVE_STATUS →
      signals_sent
        (handler_runs k hs
          (vfsspi_irq k k.DRDY_ACTIVE_STATUS p1 r1
            (set_drdy_int_reread k l r (set_drdy_int_enable_step k p s))).2).trace
        = signals_sent s.trace + 1) ∧
    (∀ (p r : Int),
      signals_sent
        (set_drdy_int_reread k k.DRDY_ACTIVE_STATUS r
          (set_drdy_int_enable_step k p s)).trace = signals_sent s.trace + 1) ∧
    (∀ (p l r : Int) (hs1 hs2 : List (Int × Int × Int)),
      signals_sent
        (handler_runs k hs2
          (set_drdy_int_reread k l r
            (handler_runs k hs1 (set_drdy_int_enable_step k p s)))).trace
        ≤ signals_sent s.trace + 2) := by
  have hne : s.dev.irq_enabled ≠ k.DRDY_IRQ_ENABLE := by
    rw [hdis]
    exact fun h => hk h.symm
  -- the enable step
  have hA : ∀ p : Int,
      (set_drdy_int_enable_step k p s).dev.irq_enabled = k.DRDY_IRQ_ENABLE ∧
      (set_drdy_int_enable_step k p s).dev.t = some task ∧
      signals_sent (set_drdy_int_enable_step k p s).trace = signals_sent s.trace := by
    intro p
    obtain ⟨_, _, e3, e4, _, eD⟩ :=
      vfsspi_enable_irq_effect k p (emit (Event.copy_from_user 0) s)
    refine ⟨(eD hne).1, e3.trans ht, ?_⟩
    rw [set_drdy_int_enable_step, e4]
    simp [emit, signals_sent_append, signals_sent_cons, signals_sent_nil]
  -- the re-read
  have hR : ∀ (l r : Int) (x : Sys),
      (set_drdy_int_reread k l r x).dev = x.dev ∧
      signals_sent (set_drdy_int_reread k l r x).trace =
        signals_sent x.trace +
          (if l = k.DRDY_ACTIVE_STATUS ∧ x.dev.t ≠ none then 1 else 0) := by
    intro l r x
    unfold set_drdy_int_reread
    by_cases hl : l = k.DRDY_ACTIVE_STATUS
    · simp only [hl, if_true, true_and]
      refine ⟨(vfsspi_send_drdy_signal_dev r x).1, ?_⟩
      rw [(vfsspi_send_drdy_signal_calls r x).2]
      by_cases hx : x.dev.t = none <;> simp [hx]
    · simp [hl]
  refine ⟨?_, ?_, ?_, ?_, ?_⟩
  · intro flag p l r hf
    simp [vfsspi_set_drdy_int, set_drdy_int_reread, set_drdy_int_enable_step, hf]
    by_cases hl : l = k.DRDY_ACTIVE_STATUS <;> simp [hl]
  · intro p p1 r1 r
    obtain ⟨a1, a2, a3⟩ := hA p
    obtain ⟨_, _, i3, _, _, iA⟩ := vfsspi_irq_effect k k.DRDY_ACTIVE_STATUS p1 r1
      (set_drdy_int_enable_step k p s)
    obtain ⟨_, _, _, _, i5⟩ := iA ⟨rfl, a1⟩
    rw [(hR _ r _).2, i5, a3, i3, a2]
    simp
  · intro p l r p1 r1 hs hl
    obtain ⟨a1, a2, a3⟩ := hA p
    obtain ⟨q1, q2⟩ := hR l r (set_drdy_int_enable_step k p s)
    obtain ⟨_, _, _, _, _, iA⟩ := vfsspi_irq_effect k k.DRDY_ACTIVE_STATUS p1 r1
      (set_drdy_int_reread k l r (set_drdy_int_enable_step k p s))
    obtain ⟨i1, _, _, _, i5⟩ := iA ⟨rfl, by rw [q1]; exact a1⟩
    have hoff : (vfsspi_irq k k.DRDY_ACTIVE_STATUS p1 r1
        (set_drdy_int_reread k l r (set_drdy_int_enable_step k p s))).2.dev.irq_enabled
        ≠ k.DRDY_IRQ_ENABLE := by
      rw [i1]
      exact fun h => hk h.symm
    rw [((handler_runs_effect k hk hs _).2.1 hoff).1, i5, q2, q1, a2, a3]
    simp [hl]
  · intro p r
    obtain ⟨_, a2, a3⟩ := hA p
    rw [(hR _ r _).2, a3, a2]
    simp
  · intro p l r hs1 hs2
    obtain ⟨_, _, a3⟩ := hA p
    obtain ⟨_, g2, g3⟩ := handler_runs_effect k hk hs1 (set_drdy_int_enable_step k p s)
    obtain ⟨q1, q2⟩ := hR l r (handler_runs k hs1 (set_drdy_int_enable_step k p s))
    obtain ⟨_, f2, f3⟩ := handler_runs_effect k hk hs2
      (set_drdy_int_reread k l r (handler_runs k hs1 (set_drdy_int_enable_step k p s)))
    have hq : signals_sent (set_drdy_int_reread k l r
        (handler_runs k hs1 (set_drdy_int_enable_step k p s))).trace
        ≤ signals_sent (handler_runs k hs1 (set_drdy_int_enable_step k p s)).trace + 1 := by
      rw [q2]
      split_ifs <;> omega
    rcases g3 with ⟨g, _⟩ | ⟨g, gne⟩
    · rcases f3 with ⟨f, _⟩ | ⟨f, _⟩ <;> omega
    · have hoff : (set_drdy_int_reread k l r
          (handler_runs k hs1 (set_drdy_int_enable_step k p s))).dev.irq_enabled
          ≠ k.DRDY_IRQ_ENABLE := by
        rw [q1]
        exact gne
      have f := (f2 hoff).1
      omega

/-- C23 as amended, at a concrete input: on the sample device the handler runs between
the enable step and the re-read with the line active at both; two signals are
sent. -/
theorem C23_signals_per_activation_witness :
    signals_sent
      (set_drdy_int_reread sampleConsts sampleConsts.DRDY_ACTIVE_STATUS 0
        (vfsspi_irq sampleConsts sampleConsts.DRDY_ACTIVE_STATUS 0 0
          (set_drdy_int_enable_step sampleConsts 0 sampleSys)).2).trace
      = signals_sent sampleSys.trace + 2 :=
  (C23_signals_per_activation sampleConsts (by decide) sampleSys 7 rfl rfl).2.1 0 0 0 0

/-! ### Sessions -/

/-- Every session call keeps the session state consistent: either no session
is open and the primary buffer is NULL, or one session is open and both
scratch buffers are allocated. -/
theorem session_step_consistent (c : SessionCall) (s : Sys)
    (h : (s.dev.is_opened = 0 ∧ s.dev.buffer = none) ∨
      (s.dev.is_opened = 1 ∧ s.dev.buffer ≠ none ∧ s.dev.null_buffer ≠ none)) :
    ((session_step c s).dev.is_opened = 0 ∧ (session_step c s).dev.buffer = none) ∨
    ((session_step c s).dev.is_opened = 1 ∧ (session_step c s).dev.buffer ≠ none ∧
      (session_step c s).dev.null_buffer ≠ none) := by
  cases c with
  | vfsspi_release filp =>
    left
    simp only [session_step, vfsspi_release, emit]
    cases hb : s.dev.buffer <;> cases hn : s.dev.null_buffer <;> simp [hb, hn]
  | vfsspi_open found a1 a2 filp =>
    simp only [session_step, vfsspi_open, emit]
    cases found with
    | false => simpa using h
    | true =>
      rcases h with ⟨ho, hb⟩ | ⟨ho, hb, hn⟩
      · cases a1 with
        | none => simp [ho, hb]
        | some b1 =>
          cases a2 with
          | none => simp [ho, hb]
          | some b2 => simp [ho, hb]
      · right
        simp [ho, hb, hn]

/-- Every sequence of session calls keeps the session state consistent. -/
theorem session_run_consistent (calls : List SessionCall) (s : Sys)
    (h : (s.dev.is_opened = 0 ∧ s.dev.buffer = none) ∨
      (s.dev.is_opened = 1 ∧ s.dev.buffer ≠ none ∧ s.dev.null_buffer ≠ none)) :
    ((session_run calls s).dev.is_opened = 0 ∧ (session_run calls s).dev.buffer = none) ∨
    ((session_run calls s).dev.is_opened = 1 ∧ (session_run calls s).dev.buffer ≠ none ∧
      (session_run calls s).dev.null_buffer ≠ none) := by
  induction calls generalizing s with
  | nil => exact h
  | cons c cs ih => exact ih (session_step c s) (session_step_consistent c s h)

/-- C24: from a device with is_opened 0 and the primary buffer NULL (a
freshly probed device, whose two scratch buffers are NULL, is one), after any
sequence of calls of vfsspi_open and vfsspi_release with any
answers of the device lookup and of kmalloc: is_opened is 0 or 1, is_opened 0
implies that the primary buffer is NULL, and an open session has both buffers
allocated. In such a state an open attempted while a session is open (the
device being found in device_list) returns -EBUSY and leaves the device (is_opened and the scratch buffers with it) and
the caller's private_data as they were; an open that returns 0 has set
is_opened to 1, allocated both scratch buffers and pointed the caller's
private_data to the device; and after a release is_opened is 0, both buffer
pointers are NULL and the caller's private_data is NULL. -/
theorem C24_single_session (calls : List SessionCall) (s0 : Sys)
    (hclosed : s0.dev.is_opened = 0) (hbuf : s0.dev.buffer = none) :
    (((session_run calls s0).dev.is_opened = 0 ∧ (session_run calls s0).dev.buffer = none) ∨
      ((session_run calls s0).dev.is_opened = 1 ∧ (session_run calls s0).dev.buffer ≠ none ∧
        (session_run calls s0).dev.null_buffer ≠ none)) ∧
    (∀ (a1 a2 : Option (List Nat)) (filp : file),
      (session_run calls s0).dev.is_opened ≠ 0 →
      (vfsspi_open true a1 a2 filp (session_run calls s0)).status = -EBUSY ∧
      (vfsspi_open true a1 a2 filp (session_run calls s0)).filp = filp ∧
      (vfsspi_open true a1 a2 filp (session_run calls s0)).sys.dev
        = (session_run calls s0).dev) ∧
    (∀ (found : Bool) (a1 a2 : Option (List Nat)) (filp : file),
      (vfsspi_open found a1 a2 filp (session_run calls s0)).status = 0 →
      (vfsspi_open found a1 a2 filp (session_run calls s0)).sys.dev.is_opened = 1 ∧
      (vfsspi_open found a1 a2 filp (session_run calls s0)).sys.dev.buffer ≠ none ∧
      (vfsspi_open found a1 a2 filp (session_run calls s0)).sys.dev.null_buffer ≠ none ∧
      (vfsspi_open found a1 a2 filp (session_run calls s0)).filp.private_data = some ()) ∧
    (∀ (filp : file),
      (vfsspi_release filp (session_run calls s0)).status = 0 ∧
      (vfsspi_release filp (session_run calls s0)).sys.dev.is_opened = 0 ∧
      (vfsspi_release filp (session_run calls s0)).sys.dev.buffer = none ∧
      (vfsspi_release filp (session_run calls s0)).sys.dev.null_buffer = none ∧
      (vfsspi_release filp (session_run calls s0)).filp.private_data = none) := by
  have hinv := session_run_consistent calls s0 (Or.inl ⟨hclosed, hbuf⟩)
  refine ⟨hinv, ?_, ?_, ?_⟩
  · intro a1 a2 filp ho
    simp [vfsspi_open, emit, ho]
  · intro found a1 a2 filp
    cases found with
    | false => simp [vfsspi_open, emit, ENXIO]
    | true =>
      rcases hinv with ⟨ho, hb⟩ | ⟨ho, hb, hn⟩
      · cases a1 with
        | none => simp [vfsspi_open, emit, ho, hb, ENOMEM]
        | some b1 =>
          cases a2 with
          | none => simp [vfsspi_open, emit, ho, hb, ENOMEM]
          | some b2 => simp [vfsspi_open, emit, ho, hb]
      · simp [vfsspi_open, emit, ho, EBUSY]
  · intro filp
    simp only [vfsspi_release, emit]
    cases hb : (session_run calls s0).dev.buffer <;>
      cases hn : (session_run calls s0).dev.null_buffer <;> simp [hb, hn]

/-- C24 at a concrete input: a fresh device after an open whose second
allocation fails, an open that succeeds, an open attempted on the open
session, a release and another open; one session is open. -/
theorem C24_single_session_witness :
    (session_run
      [SessionCall.vfsspi_open true (some [0, 0, 0, 0]) none { private_data := none },
       SessionCall.vfsspi_open true (some [0, 0, 0, 0]) (some [1, 1, 1, 1])
         { private_data := none },
       SessionCall.vfsspi_open true (some [2, 2, 2, 2]) (some [3, 3, 3, 3])
         { private_data := none },
       SessionCall.vfsspi_release { private_data := some () },
       SessionCall.vfsspi_open true (some [4, 4, 4, 4]) (some [5, 5, 5, 5])
         { private_data := none }]
      { sampleSys with dev := { sampleDev with is_opened := 0, buffer := none,
                                               null_buffer := none } }).dev.is_opened = 1 :=
  have h := (C24_single_session
    [SessionCall.vfsspi_open true (some [0, 0, 0, 0]) none { private_data := none },
     SessionCall.vfsspi_open true (some [0, 0, 0, 0]) (some [1, 1, 1, 1])
       { private_data := none },
     SessionCall.vfsspi_open true (some [2, 2, 2, 2]) (some [3, 3, 3, 3])
       { private_data := none },
     SessionCall.vfsspi_release { private_data := some () },
     SessionCall.vfsspi_open true (some [4, 4, 4, 4]) (some [5, 5, 5, 5])
       { private_data := none }]
    { sampleSys with dev := { sampleDev with is_opened := 0, buffer := none,
                                             null_buffer := none } } rfl rfl).1
  h.elim (fun x => absurd x.2 (by decide)) (fun x => x.1)

/-! ### The control lock -/

/-- Two states are quiet exactly when the second trace is the first one
followed by calls none of which takes or releases the control lock. -/
theorem quiet_iff (s s' : Sys) :
    quiet s s' ↔ ∃ mid, s'.trace = s.trace ++ mid ∧
      Event.lock Lock.buffer_mutex ∉ mid ∧ Event.unlock Lock.buffer_mutex ∉ mid := by
  unfold quiet added
  constructor
  · rintro ⟨⟨mid, hmid⟩, h1, h2⟩
    rw [← hmid, List.drop_left] at h1 h2
    exact ⟨mid, hmid.symm, h1, h2⟩
  · rintro ⟨mid, hmid, h1, h2⟩
    rw [hmid, List.drop_left]
    exact ⟨List.prefix_append _ _, h1, h2⟩

/-- A state is quiet with respect to itself. -/
theorem quiet_refl (s : Sys) : quiet s s :=
  (quiet_iff s s).2 ⟨[], by simp, by simp, by simp⟩

/-- Quiet steps compose. -/
theorem quiet_trans (a b c : Sys) (h1 : quiet a b) (h2 : quiet b c) : quiet a c := by
  rw [quiet_iff] at *
  obtain ⟨m1, e1, p1, q1⟩ := h1
  obtain ⟨m2, e2, p2, q2⟩ := h2
  refine ⟨m1 ++ m2, ?_, ?_, ?_⟩
  · rw [e2, e1, List.append_assoc]
  · simp [p1, p2]
  · simp [q1, q2]

/-- Appending a call that is neither the acquisition nor the release of the
control lock is a quiet step. -/
theorem quiet_emit (e : Event) (s : Sys) (h1 : e ≠ Event.lock Lock.buffer_mutex)
    (h2 : e ≠ Event.unlock Lock.buffer_mutex) : quiet s (emit e s) :=
  (quiet_iff s (emit e s)).2
    ⟨[e], rfl, by simpa using fun h => h1 h.symm, by simpa using fun h => h2 h.symm⟩

/-- The function vfsspi_pin_control does not touch the control lock. -/
theorem vfsspi_pin_control_quiet (pin_status : Int) (pin_set : Bool) (s : Sys) :
    quiet s (vfsspi_pin_control pin_status pin_set s) := by
  unfold quiet added vfsspi_pin_control pinctrl_select_state emit
  cases pin_set <;> cases hi : s.dev.pins_idle <;> cases hs : s.dev.pins_sleep <;>
    by_cases hp : pin_status = 0 <;> simp [hi, hs, hp]

/-- The function vfsspi_send_drdy_signal does not touch the control lock. -/
theorem vfsspi_send_drdy_signal_quiet (sig_ret : Int) (s : Sys) :
    quiet s (vfsspi_send_drdy_signal sig_ret s).2 := by
  unfold quiet added vfsspi_send_drdy_signal emit
  cases s.dev.t <;> simp

/-- The function vfsspi_enable_irq does not touch the control lock. -/
theorem vfsspi_enable_irq_quiet (k : Consts) (pin_status : Int) (s : Sys) :
    quiet s (vfsspi_enable_irq k pin_status s).2 := by
  unfold quiet added vfsspi_enable_irq vfsspi_pin_control pinctrl_select_state enable_irq emit
  cases hi : s.dev.pins_idle <;> by_cases hp : pin_status = 0 <;>
    by_cases he : s.dev.irq_enabled = k.DRDY_IRQ_ENABLE <;> simp [hi, hp, he]

/-- The function vfsspi_disable_irq does not touch the control lock. -/
theorem vfsspi_disable_irq_quiet (k : Consts) (pin_status : Int) (s : Sys) :
    quiet s (vfsspi_disable_irq k pin_status s).2 := by
  unfold quiet added vfsspi_disable_irq vfsspi_pin_control pinctrl_select_state
    disable_irq_nosync emit
  cases hi : s.dev.pins_sleep <;> by_cases hp : pin_status = 0 <;>
    by_cases he : s.dev.irq_enabled = k.DRDY_IRQ_DISABLE <;> simp [hi, hp, he]

/-- The function vfsspi_set_drdy_int does not touch the control lock. -/
theorem vfsspi_set_drdy_int_quiet (k : Consts) (missing flag : Nat)
    (pin_status drdy_level sig_ret : Int) (s : Sys) :
    quiet s (vfsspi_set_drdy_int k missing flag pin_status drdy_level sig_ret s).2 := by
  have h0 : quiet s (emit (Event.copy_from_user missing) s) :=
    quiet_emit _ s (by simp) (by simp)
  unfold vfsspi_set_drdy_int
  by_cases hm : missing = 0
  · by_cases hf : flag = 0
    · simp only [hm, hf, ne_eq, not_true_eq_false, if_false, if_true]
      rw [hm] at h0
      exact quiet_trans _ _ _ h0 (vfsspi_disable_irq_quiet k pin_status _)
    · rw [hm] at h0
      have h1 := quiet_trans _ _ _ h0 (vfsspi_enable_irq_quiet k pin_status _)
      by_cases hl : drdy_level = k.DRDY_ACTIVE_STATUS
      · simp only [hm, hf, hl, ne_eq, not_true_eq_false, if_false, if_true]
        exact quiet_trans _ _ _ h1 (vfsspi_send_drdy_signal_quiet sig_ret _)
      · simp only [hm, hf, hl, ne_eq, not_true_eq_false, if_false]
        exact h1
  · simp only [hm, ne_eq, not_false_eq_true, if_true]
    exact h0

/-- The function vfsspi_set_clk does not touch the control lock. -/
theorem vfsspi_set_clk_quiet (k : Consts) (secure : Bool) (missing clock : Nat) (s : Sys) :
    quiet s (vfsspi_set_clk k secure missing clock s).2 := by
  unfold quiet added vfsspi_set_clk emit
  cases hs : s.dev.spi <;> by_cases hm : missing = 0 <;> cases secure <;>
    cases hc : s.dev.enabled_clk <;> simp [hs, hm, hc]

/-- The function vfsspi_register_drdy_signal does not touch the control
lock. -/
theorem vfsspi_register_drdy_signal_quiet (procs : Int → Option Nat) (missing : Nat)
    (usr_signal : vfsspi_ioctl_register_signal) (s : Sys) :
    quiet s (vfsspi_register_drdy_signal procs missing usr_signal s).2 := by
  unfold quiet added vfsspi_register_drdy_signal emit
  by_cases hm : missing = 0 <;> by_cases hp : procs usr_signal.user_pid = none <;>
    simp [hm, hp]

/-- The function vfsspi_regulator_onoff does not touch the control lock. -/
theorem vfsspi_regulator_onoff_quiet (rc : Int) (onoff : Bool) (s : Sys) :
    quiet s (vfsspi_regulator_onoff rc onoff s) := by
  unfold quiet added vfsspi_regulator_onoff gpio_set_value usleep_range emit
  cases onoff <;> by_cases hl : s.dev.ldo_pin = 0 <;> by_cases hsl : s.dev.sleep_pin = 0 <;>
    cases hr : s.dev.regulator_3p3 <;> by_cases hrc : rc = 0 <;> simp [hl, hsl, hr, hrc]

/-- The function vfsspi_hard_reset does not touch the control lock. -/
theorem vfsspi_hard_reset_quiet (dev_null : Bool) (s : Sys) :
    quiet s (vfsspi_hard_reset dev_null s) := by
  unfold quiet added vfsspi_hard_reset gpio_set_value usleep_range emit
  cases dev_null <;> by_cases hsl : s.dev.sleep_pin = 0 <;>
    by_cases hg : gpio_get_value s.dev.sleep_pin s = 1 <;> simp [hsl, hg]

/-- The function vfsspi_suspend does not touch the control lock. -/
theorem vfsspi_suspend_quiet (dev_null : Bool) (s : Sys) :
    quiet s (vfsspi_suspend dev_null s) := by
  unfold quiet added vfsspi_suspend gpio_set_value emit
  cases dev_null <;> by_cases hsl : s.dev.sleep_pin = 0 <;> simp [hsl]

/-- The functions vfsspi_power_on and vfsspi_power_off do not touch the
control lock. -/
theorem vfsspi_power_quiet (k : Consts) (rc : Int) (s : Sys) :
    quiet s (vfsspi_power_on k rc s) ∧ quiet s (vfsspi_power_off k rc s) := by
  unfold vfsspi_power_on vfsspi_power_off
  constructor
  · split_ifs
    · exact vfsspi_regulator_onoff_quiet rc true s
    · exact quiet_refl s
  · split_ifs
    · exact vfsspi_regulator_onoff_quiet rc false s
    · exact quiet_refl s

/-- The function vfsspi_ioctl_disable_spi_clock does not touch the control
lock. -/
theorem vfsspi_ioctl_disable_spi_clock_quiet (s : Sys) :
    quiet s (vfsspi_ioctl_disable_spi_clock s).2 := by
  unfold quiet added vfsspi_ioctl_disable_spi_clock emit
  cases hc : s.dev.enabled_clk <;> simp [hc]

/-- The function vfsspi_xfer does not touch the control lock. -/
theorem vfsspi_xfer_quiet (k : Consts) (bus : Bus) (user_tx : List Nat)
    (missing_in missing_out : Nat) (dev_null : Bool) (tr : Option vfsspi_ioctl_transfer)
    (s : Sys) :
    quiet s (vfsspi_xfer k bus user_tx missing_in missing_out dev_null tr s).sys := by
  unfold quiet added vfsspi_xfer
  cases tr with
  | none => simp
  | some q =>
    cases htx : q.tx_buffer <;> cases hrx : q.rx_buffer <;> simp only [htx, hrx] <;>
      split_ifs <;> simp [emit]

/-- The function vfsspi_rw_spi_message does not touch the control lock. -/
theorem vfsspi_rw_spi_message_quiet (k : Consts) (a : Answers) (s : Sys) :
    quiet s (vfsspi_rw_spi_message k a s).2 := by
  have h0 : quiet s (emit Event.kmalloc s) := quiet_emit _ s (by simp) (by simp)
  have h1 : quiet s (emit (Event.copy_from_user a.missing) (emit Event.kmalloc s)) :=
    quiet_trans _ _ _ h0 (quiet_emit _ _ (by simp) (by simp))
  have h2 := quiet_trans _ _ _ h1
    (vfsspi_xfer_quiet k a.bus a.user_tx a.xfer_missing_in a.xfer_missing_out false
      (some a.transfer) (emit (Event.copy_from_user a.missing) (emit Event.kmalloc s)))
  unfold vfsspi_rw_spi_message
  simp only []
  split_ifs
  · exact h0
  · exact quiet_trans _ _ _ h2 (quiet_emit _ _ (by simp) (by simp))
  · exact quiet_trans _ _ _ h2 (quiet_emit _ _ (by simp) (by simp))
  · exact quiet_trans _ _ _ (quiet_trans _ _ _ h2 (quiet_emit _ _ (by simp) (by simp)))
      (quiet_emit _ _ (by simp) (by simp))
  · exact quiet_trans _ _ _ h1 (quiet_emit _ _ (by simp) (by simp))

/-- The retry loop of CPU_SPEEDUP does not touch the control lock. -/
theorem cpu_speedup_retry_quiet (k : Consts) (freq : Nat → Int) (fuel retry_cnt : Nat)
    (s : Sys) : quiet s (cpu_speedup_retry k freq fuel retry_cnt s).2 := by
  induction fuel generalizing retry_cnt s with
  | zero => exact quiet_refl s
  | succ n ih =>
    have h0 : quiet s (emit (Event.set_freq_limit k.DVFS_FINGER_ID s.dev.min_cpufreq_limit) s) :=
      quiet_emit _ s (by simp) (by simp)
    unfold cpu_speedup_retry
    simp only []
    split_ifs with hc
    · exact quiet_trans _ _ _
        (quiet_trans _ _ _ h0 (quiet_emit (Event.usleep_range 500 510) _ (by simp) (by simp)))
        (ih _ _)
    · exact h0

/-- The functions vfsspi_write_sync and vfsspi_read_sync do not touch the
control lock. -/
theorem vfsspi_sync_quiet (bus : Bus) (len : Nat) (s : Sys) :
    quiet s (vfsspi_write_sync bus len s).2 ∧ quiet s (vfsspi_read_sync bus len s).2 := by
  unfold quiet added vfsspi_write_sync vfsspi_read_sync emit
  simp

/-- No case of the switch in vfsspi_ioctl touches the control lock. -/
theorem ioctl_case_quiet (k : Consts) (secure : Bool) (a : Answers) (c : Cmd) (s : Sys) :
    quiet s (ioctl_case k secure a c s).2 := by
  have hc : quiet s (emit (Event.copy_from_user a.missing) s) :=
    quiet_emit _ s (by simp) (by simp)
  cases c <;> simp only [ioctl_case]
  · exact vfsspi_hard_reset_quiet false s
  · exact vfsspi_suspend_quiet false s
  · exact vfsspi_rw_spi_message_quiet k a s
  · exact vfsspi_set_clk_quiet k secure _ _ s
  · exact vfsspi_register_drdy_signal_quiet _ _ _ s
  · exact vfsspi_set_drdy_int_quiet k _ _ _ _ _ s
  · exact (vfsspi_power_quiet k a.rc s).1
  · exact (vfsspi_power_quiet k a.rc s).2
  · split_ifs
    · exact hc
    · exact quiet_trans _ _ _ hc (vfsspi_regulator_onoff_quiet _ _ _)
  · exact vfsspi_ioctl_disable_spi_clock_quiet s
  · exact quiet_refl s
  · exact quiet_refl s
  · split_ifs
    · exact hc
    · exact quiet_trans _ _ _ hc (cpu_speedup_retry_quiet k a.freq 7 0 _)
    · exact hc
    · exact quiet_trans _ _ _ hc (quiet_emit _ _ (by simp) (by simp))
    · exact hc
    · exact hc
  · split_ifs
    · exact hc
    · exact hc
    · exact hc
  · split_ifs
    · exact hc
    · exact hc
  · split_ifs
    · exact quiet_emit _ s (by simp) (by simp)
    · exact quiet_emit _ s (by simp) (by simp)
  · exact quiet_refl s

/-- C26 fails as stated: vfsspi_read called on the sample session with a
length of 2, which passes the length validation, and a NULL caller pointer. It
returns -EFAULT and its trace is empty: buffer_mutex was not acquired. -/
theorem C26_counterexample :
    (vfsspi_read sampleConsts false loopback true 0 2 sampleSys).status = -EFAULT ∧
    (vfsspi_read sampleConsts false loopback true 0 2 sampleSys).sys.trace = [] := by
  decide

/-- C26 as amended: an execution of vfsspi_ioctl that passes the magic check, of
vfsspi_write that passes the length validation, and of vfsspi_read that passes
the length validation and the NULL check of the caller's pointer (build
without ENABLE_SENSORS_FPRINT_SECURE for the two transfers) adds to the trace
the acquisition of buffer_mutex, then calls none of which takes or releases
buffer_mutex, then its release, on every path; the state vfsspi_ioctl returns
is the state the case body produces from the locked state, followed by the
release. A vfsspi_read that passes the length validation with a NULL caller
pointer returns -EFAULT without acquiring the lock and changes nothing. -/
theorem C26_control_lock (k : Consts) (secure : Bool) (a : Answers) (cmd : Nat) (bus : Bus)
    (user_buf : List Nat) (missing count : Nat) (s : Sys) :
    (_IOC_TYPE cmd = k.VFSSPI_IOCTL_MAGIC →
      (∃ mid, (vfsspi_ioctl k secure a cmd s).2.trace =
          s.trace ++ [Event.lock Lock.buffer_mutex] ++ mid ++ [Event.unlock Lock.buffer_mutex] ∧
        Event.lock Lock.buffer_mutex ∉ mid ∧ Event.unlock Lock.buffer_mutex ∉ mid) ∧
      (vfsspi_ioctl k secure a cmd s).2 =
        emit (Event.unlock Lock.buffer_mutex)
          (ioctl_case k secure a (decode k secure cmd)
            (emit (Event.lock Lock.buffer_mutex) s)).2) ∧
    (0 < count → count ≤ k.DEFAULT_BUFFER_SIZE →
      ∃ mid, (vfsspi_write k false bus user_buf missing count s).2.trace =
          s.trace ++ [Event.lock Lock.buffer_mutex] ++ mid ++ [Event.unlock Lock.buffer_mutex] ∧
        Event.lock Lock.buffer_mutex ∉ mid ∧ Event.unlock Lock.buffer_mutex ∉ mid) ∧
    (0 < count → count ≤ k.DEFAULT_BUFFER_SIZE →
      ∃ mid, (vfsspi_read k false bus false missing count s).sys.trace =
          s.trace ++ [Event.lock Lock.buffer_mutex] ++ mid ++ [Event.unlock Lock.buffer_mutex] ∧
        Event.lock Lock.buffer_mutex ∉ mid ∧ Event.unlock Lock.buffer_mutex ∉ mid) ∧
    (0 < count → count ≤ k.DEFAULT_BUFFER_SIZE →
      vfsspi_read k false bus true missing count s =
        { status := -EFAULT, user := [], sys := s }) := by
  have hshape : ∀ x : Sys, quiet (emit (Event.lock Lock.buffer_mutex) s) x →
      ∃ mid, (emit (Event.unlock Lock.buffer_mutex) x).trace =
          s.trace ++ [Event.lock Lock.buffer_mutex] ++ mid ++ [Event.unlock Lock.buffer_mutex] ∧
        Event.lock Lock.buffer_mutex ∉ mid ∧ Event.unlock Lock.buffer_mutex ∉ mid := by
    intro x hx
    obtain ⟨mid, hmid, h1, h2⟩ := (quiet_iff _ _).1 hx
    refine ⟨mid, ?_, h1, h2⟩
    simp only [emit] at hmid ⊢
    rw [hmid]
  have hrange : 0 < count → count ≤ k.DEFAULT_BUFFER_SIZE →
      ¬ (count > k.DEFAULT_BUFFER_SIZE ∨ count = 0) := by
    intro h1 h2 h
    omega
  refine ⟨?_, ?_, ?_, ?_⟩
  · intro hmagic
    have he : vfsspi_ioctl k secure a cmd s =
        ((ioctl_case k secure a (decode k secure cmd)
            (emit (Event.lock Lock.buffer_mutex) s)).1,
         emit (Event.unlock Lock.buffer_mutex)
          (ioctl_case k secure a (decode k secure cmd)
            (emit (Event.lock Lock.buffer_mutex) s)).2) := by
      simp [vfsspi_ioctl, hmagic]
    rw [he]
    exact ⟨hshape _ (ioctl_case_quiet k secure a _ _), rfl⟩
  · intro h1 h2
    have hr := hrange h1 h2
    have hq : quiet (emit (Event.lock Lock.buffer_mutex) s)
        (match (emit (Event.lock Lock.buffer_mutex) s).dev.buffer with
          | some b =>
            if missing = 0 then
              vfsspi_write_sync bus count
                (emit (Event.copy_from_user missing)
                  { emit (Event.lock Lock.buffer_mutex) s with
                    dev := { (emit (Event.lock Lock.buffer_mutex) s).dev with
                      buffer := some (copy_from_user b user_buf count missing) } })
            else
              (-EFAULT, emit (Event.copy_from_user missing)
                  { emit (Event.lock Lock.buffer_mutex) s with
                    dev := { (emit (Event.lock Lock.buffer_mutex) s).dev with
                      buffer := some (copy_from_user b user_buf count missing) } })
          | none => (0, emit (Event.lock Lock.buffer_mutex) s)).2 := by
      cases hb : (emit (Event.lock Lock.buffer_mutex) s).dev.buffer with
      | none => exact quiet_refl _
      | some b =>
        have hc : quiet (emit (Event.lock Lock.buffer_mutex) s)
            (emit (Event.copy_from_user missing)
              { emit (Event.lock Lock.buffer_mutex) s with
                dev := { (emit (Event.lock Lock.buffer_mutex) s).dev with
                  buffer := some (copy_from_user b user_buf count missing) } }) :=
          (quiet_iff _ _).2 ⟨[Event.copy_from_user missing], rfl, by simp, by simp⟩
        simp only []
        split_ifs
        · exact quiet_trans _ _ _ hc (vfsspi_sync_quiet bus count _).1
        · exact hc
    have he : (vfsspi_write k false bus user_buf missing count s).2 =
        emit (Event.unlock Lock.buffer_mutex)
          (match (emit (Event.lock Lock.buffer_mutex) s).dev.buffer with
          | some b =>
            if missing = 0 then
              vfsspi_write_sync bus count
                (emit (Event.copy_from_user missing)
                  { emit (Event.lock Lock.buffer_mutex) s with
                    dev := { (emit (Event.lock Lock.buffer_mutex) s).dev with
                      buffer := some (copy_from_user b user_buf count missing) } })
            else
              (-EFAULT, emit (Event.copy_from_user missing)
                  { emit (Event.lock Lock.buffer_mutex) s with
                    dev := { (emit (Event.lock Lock.buffer_mutex) s).dev with
                      buffer := some (copy_from_user b user_buf count missing) } })
          | none => (0, emit (Event.lock Lock.buffer_mutex) s)).2 := by
      simp [vfsspi_write, hr]
    rw [he]
    exact hshape _ hq
  · intro h1 h2
    have hr := hrange h1 h2
    have hq := (vfsspi_sync_quiet bus count (emit (Event.lock Lock.buffer_mutex) s)).2
    have hq2 : quiet (emit (Event.lock Lock.buffer_mutex) s)
        (emit (Event.copy_to_user missing)
          (vfsspi_read_sync bus count (emit (Event.lock Lock.buffer_mutex) s)).2) :=
      quiet_trans _ _ _ hq (quiet_emit _ _ (by simp) (by simp))
    by_cases hpos : (vfsspi_read_sync bus count (emit (Event.lock Lock.buffer_mutex) s)).1 > 0
    · have he : (vfsspi_read k false bus false missing count s).sys =
          emit (Event.unlock Lock.buffer_mutex)
            (emit (Event.copy_to_user missing)
              (vfsspi_read_sync bus count (emit (Event.lock Lock.buffer_mutex) s)).2) := by
        simp [vfsspi_read, hr, hpos]
      rw [he]
      exact hshape _ hq2
    · have he : (vfsspi_read k false bus false missing count s).sys =
          emit (Event.unlock Lock.buffer_mutex)
            (vfsspi_read_sync bus count (emit (Event.lock Lock.buffer_mutex) s)).2 := by
        simp [vfsspi_read, hr, hpos]
      rw [he]
      exact hshape _ hq
  · intro h1 h2
    have hr := hrange h1 h2
    simp [vfsspi_read, hr]

end Vfs9xxx
